import Mathlib

/-!
PSVR2 eye-tracking shim: the gaze client, its cache and the driver loop.

A shallow embedding of `src/driver_shim/psvr2_eye_tracking.h`,
`psvr2_eye_tracking.cpp` (the named-pipe client),
`psvr2_eye_tracking_sockets.cpp` (the socket client) and of `Activate()` and
`UpdateThread()` of `HmdShimDriver.cpp`.

* A C++ member function becomes a function from the object's state (and the
  world) to its return value, the new state and the new world.
* The operating system is an oracle `env`: every system call is answered by
  `env` at the position the call has in the history of calls, and appended to
  that history (`World`). A function that makes no system call returns the
  world it was given.
* `float` is the bit pattern of an IEEE-754 single; the client only copies
  floats and flips their sign.
* `defines.h`, `gaze_calibration.h` and `psvr2_eye_tracking_sockets.h` are
  not among the sources: the build flags (`Defines`), the calibration class
  (`GazeCalibrationApi`) and the socket protocol constants (`SocketsHeader`)
  are parameters of the definitions that use them.
-/

namespace BVR

/-! ## Data model (`psvr2_eye_tracking.h`) -/

/-- Bit pattern of a 32-bit IEEE-754 float. -/
abbrev float := Nat

/-- Unary minus on a float: the sign bit is flipped. -/
def fneg (f : float) : float := (f + 2 ^ 31) % 2 ^ 32

structure XrVector3f where
  x : float
  y : float
  z : float
deriving DecidableEq, Repr

/-- From `XRGazeState`: direction `{ 0.0f, 0.0f, -1.0f }`, not valid. -/
structure XRGazeState where
  direction_ : XrVector3f := ⟨0, 0, 0xBF800000⟩
  is_valid_ : Bool := false
deriving DecidableEq, Repr

/-- Index constants of `defines.h` (the header's comment:
`Indices LEFT = 0 / RIGHT = 1 / COMBINED = 2`). -/
def LEFT : Int := 0

def RIGHT : Int := 1

def NUM_EYES : Nat := 2

def INVALID_INDEX : Int := -1

def LEFT_CALIBRATION_INDEX : Int := LEFT

def RIGHT_CALIBRATION_INDEX : Int := RIGHT

def COMBINED_CALIBRATION_INDEX : Int := RIGHT + 1

def NUM_CALIBRATIONS : Int := COMBINED_CALIBRATION_INDEX + 1

/-- A C array `T a[2]`; an index outside `0..1` has no element. -/
structure Arr2 (α : Type) where
  a0 : α
  a1 : α
deriving DecidableEq, Repr

def Arr2.get? {α : Type} (xs : Arr2 α) (i : Int) : Option α :=
  if i = 0 then some xs.a0 else if i = 1 then some xs.a1 else none

def Arr2.set? {α : Type} (xs : Arr2 α) (i : Int) (v : α) : Option (Arr2 α) :=
  if i = 0 then some { xs with a0 := v }
  else if i = 1 then some { xs with a1 := v } else none

/-- A C array `T a[3]`; an index outside `0..2` has no element. -/
structure Arr3 (α : Type) where
  a0 : α
  a1 : α
  a2 : α
deriving DecidableEq, Repr

def Arr3.get? {α : Type} (xs : Arr3 α) (i : Int) : Option α :=
  if i = 0 then some xs.a0 else if i = 1 then some xs.a1
  else if i = 2 then some xs.a2 else none

def Arr3.set? {α : Type} (xs : Arr3 α) (i : Int) (v : α) : Option (Arr3 α) :=
  if i = 0 then some { xs with a0 := v }
  else if i = 1 then some { xs with a1 := v }
  else if i = 2 then some { xs with a2 := v } else none

structure AllXRGazeStates where
  combined_gaze_ : XRGazeState := {}
  per_eye_gazes_ : Arr2 XRGazeState := ⟨{}, {}⟩
deriving DecidableEq, Repr

/-- Values of `enum RequestType`. -/
def RequestType.UNKNOWN_ : Int := 0

def RequestType.START_HANDSHAKE_ : Int := 1

def RequestType.GET_GAZES_ : Int := 2

/-- Values of `enum ResponseType`; a record read from the pipe carries the
integer the server wrote. -/
def ResponseType.ERROR_ : Int := 0

def ResponseType.HANDSHAKE_OK_ : Int := 1

def ResponseType.GET_GAZES_OK_ : Int := 2

structure Request where
  type_ : Int := RequestType.UNKNOWN_
deriving DecidableEq, Repr

/-- The constructor `Response()` : `type_(ResponseType::ERROR_), gazes_{}`. -/
structure Response where
  type_ : Int := ResponseType.ERROR_
  gazes_ : AllXRGazeStates := {}
deriving DecidableEq, Repr

/-- Value of `sizeof(Response)`: a 4-byte enum and three 16-byte gaze states. -/
def sizeof_Response : Nat := 52

/-- Build flags of `defines.h`. -/
structure Defines where
  ENABLE_PSVR2_EYE_TRACKING_AUTOMATICALLY : Bool
  ENABLE_PSVR2_EYE_TRACKING_COMBINED_GAZE : Bool
  ENABLE_PSVR2_EYE_TRACKING_PER_EYE_GAZES : Bool
  ENABLE_GAZE_CALIBRATION : Bool
  AUTO_CALIBRATE : Bool
  AUTO_INCREMENT_ON_CALIBRATION_DONE : Bool
  AUTO_INCREMENT_COUNTDOWN : Int
deriving DecidableEq, Repr

/-- The operations of `GazeCalibration` and `CalibrationPoint`
(`gaze_calibration.h`) that the tracker calls, on a calibration `G` with
raster points `P`. `get_raster_point` returns a reference: a change of the
point is written back with `set_raster_point`. -/
structure GazeCalibrationApi (G P : Type) where
  is_calibrated : G → Bool
  is_calibrating : G → Bool
  start_calibration : G → G
  stop_calibration : G → G
  reset_calibration : G → Bool × G
  load_calibration : G → Bool × G
  save_calibration : G → Bool × G
  increment_raster : G → G
  apply_calibration : G → XrVector3f → XrVector3f
  get_raster_point : G → P
  set_raster_point : G → P → G
  num_calibrated_ : G → Int
  set_num_calibrated_ : G → Int → G
  point_is_calibrated_ : P → Bool
  add_sample : P → XrVector3f → Bool × P

/-- The members both variants of `class PSVR2EyeTracker` declare. -/
structure TrackerBase (G : Type) where
  increment_countdown_ : Int := 0
  is_connected_ : Bool := false
  is_enabled_ : Bool := false
  ipd_meters_ : float := 0
  combined_gaze_ : XRGazeState := {}
  per_eye_gazes_ : Arr2 XRGazeState := ⟨{}, {}⟩
  calibrations_ : Arr3 G
  calibrating_eye_index_ : Int := INVALID_INDEX
  apply_calibration_ : Bool := false
deriving DecidableEq, Repr

def TrackerBase.is_connected {G : Type} (s : TrackerBase G) : Bool := s.is_connected_

def TrackerBase.is_enabled {G : Type} (s : TrackerBase G) : Bool := s.is_enabled_

def TrackerBase.set_enabled {G : Type} (s : TrackerBase G) (enabled : Bool) : TrackerBase G :=
  { s with is_enabled_ := s.is_connected_ && enabled }

/-! ## The named-pipe client (`psvr2_eye_tracking.cpp`) -/

abbrev HANDLE := Int

abbrev DWORD := Nat

def INVALID_HANDLE_VALUE : HANDLE := -1

def ERROR_PIPE_BUSY : DWORD := 231

def ERROR_MORE_DATA : DWORD := 234

def PSVR2_SERVER_CONNECT_WAIT_TIME : Nat := 5000

/-- What one `ReadFile` into a `Response` reports: the return value, what
`GetLastError()` gives after it, the number of bytes read, and the `Response`
the buffer then holds. -/
structure ReadFileResult where
  success : Bool
  lastError : DWORD
  read_size : DWORD
  buffer : Response
deriving DecidableEq, Repr

/-- The system calls of the pipe client, with the handle they are made on. -/
inductive PipeCall where
  | CreateFile (returned : HANDLE)
  | WaitNamedPipe (timeout : Nat)
  | SetNamedPipeHandleState (h : HANDLE)
  | WriteFile (h : HANDLE) (request : Request)
  | ReadFile (h : HANDLE)
  | CloseHandle (h : HANDLE)
deriving DecidableEq, Repr

/-- The history of system calls, oldest first. -/
abbrev PipeWorld := List PipeCall

/-- The operating system and the server seen from the pipe client: the answer
to a call made when `t` calls have been made before it. -/
structure PipeEnv where
  CreateFile : Nat → HANDLE × DWORD
  WaitNamedPipe : Nat → Bool
  SetNamedPipeHandleState : Nat → Bool
  WriteFile : Nat → Bool
  ReadFile : Nat → ReadFileResult

/-- The pipe variant of `class PSVR2EyeTracker`. -/
structure PSVR2EyeTracker (G : Type) extends TrackerBase G where
  named_pipe_handle_ : HANDLE := INVALID_HANDLE_VALUE
deriving DecidableEq, Repr

namespace PSVR2EyeTracker

variable {G : Type}

/-- Function `send_request`: one `WriteFile`, whose result is returned. -/
def send_request (env : PipeEnv) (s : PSVR2EyeTracker G) (request : Request)
    (w : PipeWorld) : Bool × PipeWorld :=
  let write_ok := env.WriteFile w.length
  (write_ok, w ++ [PipeCall.WriteFile s.named_pipe_handle_ request])

/-- Function `receive_request`: one `ReadFile`; fails on an error other than
`ERROR_MORE_DATA` and on a byte count other than `sizeof(response)`. -/
def receive_request (env : PipeEnv) (s : PSVR2EyeTracker G) (_response : Response)
    (w : PipeWorld) : Bool × Response × PipeWorld :=
  let r := env.ReadFile w.length
  let w1 := w ++ [PipeCall.ReadFile s.named_pipe_handle_]
  if !r.success && r.lastError ≠ ERROR_MORE_DATA then (false, r.buffer, w1)
  else if r.read_size ≠ sizeof_Response then (false, r.buffer, w1)
  else (true, r.buffer, w1)

/-- Function `send_and_receive`: `request_ok && receive_request(response)`. -/
def send_and_receive (env : PipeEnv) (s : PSVR2EyeTracker G) (request : Request)
    (response : Response) (w : PipeWorld) : Bool × Response × PipeWorld :=
  let (request_ok, w1) := send_request env s request w
  if request_ok then receive_request env s response w1 else (false, response, w1)

/-- What the `while(true)` loop of `connect()` ends in. -/
inductive PipeJob where
  | opened
  | failed
deriving DecidableEq, Repr

/-- The `while(true)` loop of `connect()`; `fuel` bounds the iterations the
model follows, and `none` says the loop is still running after them. -/
def connect_pipe_job (env : PipeEnv) :
    Nat → PSVR2EyeTracker G → PipeWorld → Option (PipeJob × PSVR2EyeTracker G × PipeWorld)
  | 0, _, _ => none
  | fuel + 1, s, w =>
    let r := env.CreateFile w.length
    let s1 : PSVR2EyeTracker G := { s with named_pipe_handle_ := r.1 }
    let w1 := w ++ [PipeCall.CreateFile r.1]
    if s1.named_pipe_handle_ ≠ INVALID_HANDLE_VALUE then some (PipeJob.opened, s1, w1)
    else if r.2 ≠ ERROR_PIPE_BUSY then some (PipeJob.failed, s1, w1)
    else
      let wait_ok := env.WaitNamedPipe w1.length
      let w2 := w1 ++ [PipeCall.WaitNamedPipe PSVR2_SERVER_CONNECT_WAIT_TIME]
      if !wait_ok then some (PipeJob.failed, s1, w2)
      else connect_pipe_job env fuel s1 w2

/-- The part of `connect()` after the pipe is open. -/
def connect_handshake (d : Defines) (env : PipeEnv) (s : PSVR2EyeTracker G)
    (w : PipeWorld) : Bool × PSVR2EyeTracker G × PipeWorld :=
  let mode_ok := env.SetNamedPipeHandleState w.length
  let w1 := w ++ [PipeCall.SetNamedPipeHandleState s.named_pipe_handle_]
  if !mode_ok then (false, s, w1)
  else
    let handshake_response : Response := {}
    let (handshake_ok, handshake_response, w2) :=
      send_and_receive env s ⟨RequestType.START_HANDSHAKE_⟩ handshake_response w1
    if !handshake_ok || handshake_response.type_ ≠ ResponseType.HANDSHAKE_OK_ then
      (false, s, w2)
    else
      let s1 : PSVR2EyeTracker G := { s with is_connected_ := handshake_ok }
      let s2 : PSVR2EyeTracker G :=
        if d.ENABLE_PSVR2_EYE_TRACKING_AUTOMATICALLY then
          { s1 with toTrackerBase := s1.toTrackerBase.set_enabled s1.is_connected_ }
        else s1
      (s2.is_connected_, s2, w2)

/-- Function `PSVR2EyeTracker::connect()` of the pipe client. -/
def connect (d : Defines) (env : PipeEnv) (fuel : Nat) (s : PSVR2EyeTracker G)
    (w : PipeWorld) : Option (Bool × PSVR2EyeTracker G × PipeWorld) :=
  if !s.is_connected_ then
    match connect_pipe_job env fuel s w with
    | none => none
    | some (PipeJob.failed, s1, w1) => some (false, s1, w1)
    | some (PipeJob.opened, s1, w1) => some (connect_handshake d env s1 w1)
  else some (s.is_connected_, s, w)

/-- Function `PSVR2EyeTracker::disconnect()` of the pipe client. -/
def disconnect (s : PSVR2EyeTracker G) (w : PipeWorld) : PSVR2EyeTracker G × PipeWorld :=
  if s.is_connected_ then
    let (s1, w1) : PSVR2EyeTracker G × PipeWorld :=
      if s.named_pipe_handle_ ≠ INVALID_HANDLE_VALUE then
        ({ s with named_pipe_handle_ := INVALID_HANDLE_VALUE },
          w ++ [PipeCall.CloseHandle s.named_pipe_handle_])
      else (s, w)
    ({ s1 with is_connected_ := false }, w1)
  else (s, w)

/-- Function `PSVR2EyeTracker::update_gazes()` of the pipe client. -/
def update_gazes (d : Defines) (env : PipeEnv) (s : PSVR2EyeTracker G)
    (w : PipeWorld) : Bool × PSVR2EyeTracker G × PipeWorld :=
  if !s.is_connected_ then (false, s, w)
  else
    let gaze_response : Response := {}
    let (gazes_ok, gaze_response, w1) :=
      send_and_receive env s ⟨RequestType.GET_GAZES_⟩ gaze_response w
    if gazes_ok then
      let xr_gaze_states : AllXRGazeStates := gaze_response.gazes_
      let s1 : PSVR2EyeTracker G :=
        if d.ENABLE_PSVR2_EYE_TRACKING_COMBINED_GAZE then
          { s with combined_gaze_ := xr_gaze_states.combined_gaze_ }
        else s
      let s2 : PSVR2EyeTracker G :=
        if d.ENABLE_PSVR2_EYE_TRACKING_PER_EYE_GAZES then
          { s1 with per_eye_gazes_ :=
              ⟨xr_gaze_states.per_eye_gazes_.a0, xr_gaze_states.per_eye_gazes_.a1⟩ }
        else s1
      (true, s2, w1)
    else (false, s, w1)

end PSVR2EyeTracker

/-! ## The socket client (`psvr2_eye_tracking_sockets.cpp`) -/

abbrev SOCKET := Nat

abbrev Byte := Nat

def INVALID_SOCKET : SOCKET := 2 ^ 64 - 1

def SOCKET_ERROR : Int := -1

def WSAEISCONN : Int := 10056

structure CommandHeader where
  type : Int
  dataLen : Int
deriving DecidableEq, Repr

structure HandShakeResponsePayload where
  result : Int
deriving DecidableEq, Repr

structure HandShakeResponse where
  header : CommandHeader
  payload : HandShakeResponsePayload
deriving DecidableEq, Repr

/-- Gaze of one eye as the server sends it; the flags are the ones the
commented-out lines of `update_gazes()` read. -/
structure RemoteGazeState where
  gaze_dir_ : XrVector3f
  is_gaze_dir_valid_ : Bool
  is_blink_valid_ : Bool
  blink_ : Bool
deriving DecidableEq, Repr

structure GazeResponsePayload where
  per_eye_gazes_ : Arr2 RemoteGazeState
deriving DecidableEq, Repr

structure GazeResponse where
  header : CommandHeader
  payload : GazeResponsePayload
deriving DecidableEq, Repr

/-- The constants and record layouts of `psvr2_eye_tracking_sockets.h`: retry
budgets, sleep times, message kinds, record sizes, and how a record is read
from the bytes of its buffer. -/
structure SocketsHeader where
  SOCKET_CONNECT_RETRIES : Nat
  SOCKET_CONNECT_SLEEP_TIME_MS : Nat
  HANDSHAKE_RETRIES : Nat
  HANDSHAKE_SLEEP_TIME_MS : Nat
  GET_GAZE_RETRIES : Nat
  GET_GAZE_SLEEP_TIME_MS : Nat
  IPC_PORT : Nat
  IPC_VERSION : Int
  REQUEST_HANDSHAKE_ : Int
  REQUEST_HANDSHAKE_RESULT_ : Int
  REQUEST_GAZES_ : Int
  REQUEST_GAZES_RESULT_ : Int
  HANDSHAKE_RESULT_SUCCESS_ : Int
  sizeof_HandShakeRequest_payload : Nat
  sizeof_HandShakeResponse : Nat
  sizeof_GazeResponse : Nat
  HandShakeResponse_of_bytes : List Byte → HandShakeResponse
  GazeResponse_of_bytes : List Byte → GazeResponse

/-- What the network has for one `recv`: bytes that arrived, an orderly close
(`recv` returns 0), or an error (`recv` returns `SOCKET_ERROR`). -/
inductive RecvResult where
  | data (bytes : List Byte)
  | closed
  | error (wsaError : Int)
deriving DecidableEq, Repr

/-- A record the socket client sends. -/
inductive SocketRequest where
  | HandShakeRequest (type : Int) (dataLen : Nat) (ipcVersion : Int) (processId : Nat)
  | GazeRequest (type : Int) (dataLen : Nat)
deriving DecidableEq, Repr

/-- The system calls of the socket client. -/
inductive SocketCall where
  | WSAStartup
  | socket (returned : SOCKET)
  | ioctlsocket (s : SOCKET)
  | connect (s : SOCKET) (port : Nat)
  | send (s : SOCKET) (request : SocketRequest)
  | recv (s : SOCKET) (offset : Nat) (len : Nat)
  | Sleep (ms : Nat)
  | shutdown (s : SOCKET)
  | closesocket (s : SOCKET)
  | WSACleanup
deriving DecidableEq, Repr

/-- The history of system calls, oldest first. -/
abbrev SocketWorld := List SocketCall

/-- The operating system and the server seen from the socket client: the
answer to a call made when `t` calls have been made before it. `connect`
gives the return value of `::connect` and what `WSAGetLastError()` reports
after it. -/
structure SocketEnv where
  socket : Nat → SOCKET
  connect : Nat → Int × Int
  recv : Nat → RecvResult
  processId : Nat

/-- The call `recv(socket, buffer + offset, len, 0)`: at most `len` of the bytes that
arrived are copied to `buffer + offset`; the return value is their number, 0
after a close, `SOCKET_ERROR` after an error. -/
def recv (r : RecvResult) (buffer : List Byte) (offset len : Nat) : Int × List Byte :=
  match r with
  | RecvResult.data bytes =>
    let got := bytes.take len
    ((got.length : Int), buffer.take offset ++ got ++ buffer.drop (offset + got.length))
  | RecvResult.closed => (0, buffer)
  | RecvResult.error _ => (SOCKET_ERROR, buffer)

/-- The socket variant of `class PSVR2EyeTracker`. -/
structure PSVR2EyeTrackerSockets (G : Type) extends TrackerBase G where
  socket_ : SOCKET := INVALID_SOCKET
deriving DecidableEq, Repr

namespace PSVR2EyeTrackerSockets

variable {G : Type}

/-- The `while(retries)` loop around `::connect` in `connect()`; returns the
retries left. -/
def connect_loop (hdr : SocketsHeader) (env : SocketEnv) (sock : SOCKET) :
    Nat → SocketWorld → Nat × SocketWorld
  | 0, w => (0, w)
  | retries + 1, w =>
    let r := env.connect w.length
    let w1 := w ++ [SocketCall.connect sock hdr.IPC_PORT]
    if r.1 = 0 then (retries + 1, w1)
    else if r.2 = WSAEISCONN then (retries + 1, w1)
    else connect_loop hdr env sock retries
      (w1 ++ [SocketCall.Sleep hdr.SOCKET_CONNECT_SLEEP_TIME_MS])

/-- The `while(retries)` loop around `recv` in `connect()` (handshake
response) and in `update_gazes()` (gaze response), for a record of `size`
bytes; returns the retries left, the offset and the buffer. -/
def recv_loop (env : SocketEnv) (sock : SOCKET) (size sleep_ms : Nat) :
    Nat → Nat → List Byte → SocketWorld → Nat × Nat × List Byte × SocketWorld
  | 0, offset, buffer, w => (0, offset, buffer, w)
  | retries + 1, offset, buffer, w =>
    let r := recv (env.recv w.length) buffer offset (size - offset)
    let w1 := w ++ [SocketCall.recv sock offset (size - offset)]
    let offset1 := if r.1 > 0 then offset + r.1.toNat else offset
    if offset1 ≥ size then (retries + 1, offset1, r.2, w1)
    else recv_loop env sock size sleep_ms retries offset1 r.2
      (w1 ++ [SocketCall.Sleep sleep_ms])

/-- The part of `connect()` that opens the channel: `WSAStartup`, `socket`,
`ioctlsocket` and the `::connect` loop; returns the retries the loop left. -/
def connect_open (hdr : SocketsHeader) (env : SocketEnv) (s : PSVR2EyeTrackerSockets G)
    (w : SocketWorld) : Nat × PSVR2EyeTrackerSockets G × SocketWorld :=
  let w1 := w ++ [SocketCall.WSAStartup]
  let s1 : PSVR2EyeTrackerSockets G := { s with socket_ := env.socket w1.length }
  let w2 := w1 ++ [SocketCall.socket s1.socket_] ++ [SocketCall.ioctlsocket s1.socket_]
  let r := connect_loop hdr env s1.socket_ hdr.SOCKET_CONNECT_RETRIES w2
  (r.1, s1, r.2)

/-- The part of `connect()` after the channel is open: the handshake request,
the `recv` loop for the response, and the test of the response. -/
def connect_handshake (hdr : SocketsHeader) (d : Defines) (env : SocketEnv)
    (s : PSVR2EyeTrackerSockets G) (w : SocketWorld) :
    Bool × PSVR2EyeTrackerSockets G × SocketWorld :=
  let w1 := w ++ [SocketCall.send s.socket_
    (SocketRequest.HandShakeRequest hdr.REQUEST_HANDSHAKE_
      hdr.sizeof_HandShakeRequest_payload hdr.IPC_VERSION env.processId)]
  let r := recv_loop env s.socket_ hdr.sizeof_HandShakeResponse hdr.HANDSHAKE_SLEEP_TIME_MS
    hdr.HANDSHAKE_RETRIES 0 (List.replicate hdr.sizeof_HandShakeResponse 0) w1
  let handshake_response := hdr.HandShakeResponse_of_bytes r.2.2.1
  let handshake_ok := decide (r.1 > 0)
    && decide (handshake_response.header.type = hdr.REQUEST_HANDSHAKE_RESULT_)
    && decide (handshake_response.payload.result = hdr.HANDSHAKE_RESULT_SUCCESS_)
  if !handshake_ok then (false, s, r.2.2.2)
  else
    let s1 : PSVR2EyeTrackerSockets G := { s with is_connected_ := true }
    let s2 : PSVR2EyeTrackerSockets G :=
      if d.ENABLE_PSVR2_EYE_TRACKING_AUTOMATICALLY then
        { s1 with toTrackerBase := s1.toTrackerBase.set_enabled s1.is_connected_ }
      else s1
    (s2.is_connected_, s2, r.2.2.2)

/-- Function `PSVR2EyeTracker::connect()` of the socket client. -/
def connect (hdr : SocketsHeader) (d : Defines) (env : SocketEnv)
    (s : PSVR2EyeTrackerSockets G) (w : SocketWorld) :
    Bool × PSVR2EyeTrackerSockets G × SocketWorld :=
  if !s.is_connected_ then
    let r := connect_open hdr env s w
    let connected_ok := decide (r.1 > 0)
    if !connected_ok then (false, r.2.1, r.2.2)
    else connect_handshake hdr d env r.2.1 r.2.2
  else (s.is_connected_, s, w)

/-- Function `PSVR2EyeTracker::disconnect()` of the socket client. -/
def disconnect (s : PSVR2EyeTrackerSockets G) (w : SocketWorld) :
    PSVR2EyeTrackerSockets G × SocketWorld :=
  if s.is_connected_ then
    let (s1, w1) : PSVR2EyeTrackerSockets G × SocketWorld :=
      if s.socket_ ≠ INVALID_SOCKET then
        ({ s with socket_ := INVALID_SOCKET },
          w ++ [SocketCall.shutdown s.socket_] ++ [SocketCall.closesocket s.socket_])
      else (s, w)
    ({ s1 with is_connected_ := false }, w1 ++ [SocketCall.WSACleanup])
  else (s, w)

/-- Function `PSVR2EyeTracker::update_gazes()` of the socket client. -/
def update_gazes (hdr : SocketsHeader) (d : Defines) (env : SocketEnv)
    (s : PSVR2EyeTrackerSockets G) (w : SocketWorld) :
    Bool × PSVR2EyeTrackerSockets G × SocketWorld :=
  if !s.is_connected_ then (false, s, w)
  else
    let w1 := w ++ [SocketCall.send s.socket_ (SocketRequest.GazeRequest hdr.REQUEST_GAZES_ 0)]
    let r := recv_loop env s.socket_ hdr.sizeof_GazeResponse hdr.GET_GAZE_SLEEP_TIME_MS
      hdr.GET_GAZE_RETRIES 0 (List.replicate hdr.sizeof_GazeResponse 0) w1
    let w2 := r.2.2.2
    let gaze_response := hdr.GazeResponse_of_bytes r.2.2.1
    let gazes_ok := decide (r.1 > 0)
      && decide (gaze_response.header.type = hdr.REQUEST_GAZES_RESULT_)
    if gazes_ok then
      let left_gaze := gaze_response.payload.per_eye_gazes_.a0
      let right_gaze := gaze_response.payload.per_eye_gazes_.a1
      let left_gaze_dir : XrVector3f :=
        ⟨fneg left_gaze.gaze_dir_.x, left_gaze.gaze_dir_.y, fneg left_gaze.gaze_dir_.z⟩
      let right_gaze_dir : XrVector3f :=
        ⟨fneg right_gaze.gaze_dir_.x, right_gaze.gaze_dir_.y, fneg right_gaze.gaze_dir_.z⟩
      let is_left_valid_and_open := true
      let is_right_valid_and_open := true
      let s1 : PSVR2EyeTrackerSockets G :=
        if d.ENABLE_PSVR2_EYE_TRACKING_COMBINED_GAZE then
          let valid := is_left_valid_and_open || is_right_valid_and_open
          { s with combined_gaze_ :=
              { direction_ := if valid then right_gaze_dir else s.combined_gaze_.direction_,
                is_valid_ := valid } }
        else s
      let s2 : PSVR2EyeTrackerSockets G :=
        if d.ENABLE_PSVR2_EYE_TRACKING_PER_EYE_GAZES then
          { s1 with per_eye_gazes_ :=
              ⟨{ direction_ := left_gaze_dir, is_valid_ := is_left_valid_and_open },
               { direction_ := right_gaze_dir, is_valid_ := is_right_valid_and_open }⟩ }
        else s1
      (true, s2, w2)
    else (false, s, w2)

end PSVR2EyeTrackerSockets

/-! ## The gaze getters (the same text in both clients) -/

namespace TrackerBase

variable {G P : Type}

/-- Function `PSVR2EyeTracker::increment_raster()`. -/
def increment_raster (d : Defines) (api : GazeCalibrationApi G P) (s : TrackerBase G) :
    Option (TrackerBase G) :=
  if d.ENABLE_PSVR2_EYE_TRACKING_PER_EYE_GAZES
      ∧ s.calibrating_eye_index_ ≠ INVALID_INDEX then
    match s.calibrations_.get? s.calibrating_eye_index_ with
    | none => none
    | some c =>
      if api.is_calibrating c then
        (s.calibrations_.set? s.calibrating_eye_index_ (api.increment_raster c)).map
          fun cs => { s with calibrations_ := cs }
      else if d.ENABLE_PSVR2_EYE_TRACKING_COMBINED_GAZE
          ∧ api.is_calibrating s.calibrations_.a2 then
        some { s with calibrations_ :=
          { s.calibrations_ with a2 := api.increment_raster s.calibrations_.a2 } }
      else some s
  else if d.ENABLE_PSVR2_EYE_TRACKING_COMBINED_GAZE
      ∧ api.is_calibrating s.calibrations_.a2 then
    some { s with calibrations_ :=
      { s.calibrations_ with a2 := api.increment_raster s.calibrations_.a2 } }
  else some s

/-- Function `PSVR2EyeTracker::get_combined_gaze(combined_gaze_direction, should_apply_gaze)`:
the return value and the output parameter. -/
def get_combined_gaze (d : Defines) (api : GazeCalibrationApi G P) (s : TrackerBase G)
    (combined_gaze_direction : XrVector3f) (_should_apply_gaze : Bool) :
    Bool × XrVector3f :=
  if s.combined_gaze_.is_valid_ then
    if d.ENABLE_GAZE_CALIBRATION
        ∧ s.apply_calibration_ ∧ api.is_calibrated s.calibrations_.a2 then
      (true, api.apply_calibration s.calibrations_.a2 s.combined_gaze_.direction_)
    else (true, s.combined_gaze_.direction_)
  else (false, combined_gaze_direction)

/-- The `#if AUTO_CALIBRATE` block that opens `get_per_eye_gaze`. -/
def auto_calibrate_step (d : Defines) (api : GazeCalibrationApi G P) (s : TrackerBase G)
    (eye : Int) : Option (TrackerBase G) :=
  if d.AUTO_CALIBRATE then
    match s.calibrations_.get? eye with
    | none => none
    | some c =>
      if api.is_calibrating c ∧ s.increment_countdown_ > 0 then
        let s1 := { s with increment_countdown_ := s.increment_countdown_ - 1 }
        if s1.increment_countdown_ = 0 then increment_raster d api s1 else some s1
      else some s
  else some s

/-- The sampling step of `get_per_eye_gaze`: the body of
`if (calibrations_[eye].is_calibrating())`, for the calibration `c` at
`calibrations_[eye]` and the cached direction. -/
def sampling_step (d : Defines) (api : GazeCalibrationApi G P) (s : TrackerBase G)
    (eye : Int) (c : G) (direction : XrVector3f) (should_apply_gaze : Bool) :
    Option (TrackerBase G) :=
  let point := api.get_raster_point c
  if api.point_is_calibrated_ point then
    if d.AUTO_INCREMENT_ON_CALIBRATION_DONE then increment_raster d api s else some s
  else if should_apply_gaze then
    let r := api.add_sample point direction
    let c1 := api.set_raster_point c r.2
    if r.1 then
      let c2 :=
        if api.point_is_calibrated_ r.2 then
          api.set_num_calibrated_ c1 (api.num_calibrated_ c1 + 1)
        else c1
      (s.calibrations_.set? eye c2).map fun cs =>
        { s with calibrations_ := cs, increment_countdown_ := d.AUTO_INCREMENT_COUNTDOWN }
    else (s.calibrations_.set? eye c1).map fun cs => { s with calibrations_ := cs }
  else some s

/-- Function `PSVR2EyeTracker::get_per_eye_gaze(eye, per_eye_gaze_direction, should_apply_gaze)`:
the return value, the output parameter and the new state; `none` when `eye`
or `calibrating_eye_index_` indexes outside an array. -/
def get_per_eye_gaze (d : Defines) (api : GazeCalibrationApi G P) (s : TrackerBase G)
    (eye : Int) (per_eye_gaze_direction : XrVector3f) (should_apply_gaze : Bool) :
    Option (Bool × XrVector3f × TrackerBase G) :=
  match auto_calibrate_step d api s eye with
  | none => none
  | some s1 =>
    match s1.per_eye_gazes_.get? eye with
    | none => none
    | some gaze =>
      if gaze.is_valid_ then
        if d.ENABLE_GAZE_CALIBRATION then
          match s1.calibrations_.get? eye with
          | none => none
          | some c =>
            let sampled :=
              if api.is_calibrating c then
                sampling_step d api s1 eye c gaze.direction_ should_apply_gaze
              else some s1
            match sampled with
            | none => none
            | some s2 =>
              match s2.calibrations_.get? eye with
              | none => none
              | some c2 =>
                if s2.apply_calibration_ ∧ api.is_calibrated c2 then
                  some (true, api.apply_calibration c2 gaze.direction_, s2)
                else some (true, gaze.direction_, s2)
        else some (true, gaze.direction_, s1)
      else some (false, per_eye_gaze_direction, s1)

end TrackerBase

/-! ## Vocabulary of the statements -/

/-- The bytes a `recv` result offers. -/
def RecvResult.bytes : RecvResult → List Byte
  | RecvResult.data bytes => bytes
  | RecvResult.closed => []
  | RecvResult.error _ => []

/-- The bytes read so far, in order: `acc` followed by what each of the next
`k` attempts of a `recv` loop reads into a record of `size` bytes, the first
attempt being call number `t` and a `Sleep` lying between two attempts. -/
def received (env : SocketEnv) (size : Nat) : Nat → Nat → List Byte → List Byte
  | 0, _, acc => acc
  | k + 1, t, acc =>
    received env size k (t + 2) (acc ++ ((env.recv t).bytes.take (size - acc.length)))

def SocketCall.is_recv : SocketCall → Bool
  | SocketCall.recv _ _ _ => true
  | _ => false

def SocketCall.is_connect : SocketCall → Bool
  | SocketCall.connect _ _ => true
  | _ => false

def PipeCall.is_CreateFile : PipeCall → Bool
  | PipeCall.CreateFile _ => true
  | _ => false

def PipeCall.is_ReadFile : PipeCall → Bool
  | PipeCall.ReadFile _ => true
  | _ => false

def PipeCall.is_CloseHandle : PipeCall → Bool
  | PipeCall.CloseHandle _ => true
  | _ => false

/-- The pipe is busy at call `t`: `CreateFile` fails with `ERROR_PIPE_BUSY`
and the `WaitNamedPipe` after it succeeds. -/
def busy_at (env : PipeEnv) (t : Nat) : Prop :=
  (env.CreateFile t).1 = INVALID_HANDLE_VALUE ∧ (env.CreateFile t).2 = ERROR_PIPE_BUSY
    ∧ env.WaitNamedPipe (t + 1) = true

instance (env : PipeEnv) (t : Nat) : Decidable (busy_at env t) :=
  inferInstanceAs (Decidable ((env.CreateFile t).1 = INVALID_HANDLE_VALUE
    ∧ (env.CreateFile t).2 = ERROR_PIPE_BUSY ∧ env.WaitNamedPipe (t + 1) = true))

/-- The result of `n` calls of the pipe client's `connect()` in a row: their return values
and the final state and world. -/
def PSVR2EyeTracker.connect_repeat {G : Type} (d : Defines) (env : PipeEnv) (fuel : Nat) :
    Nat → PSVR2EyeTracker G → PipeWorld → Option (List Bool × PSVR2EyeTracker G × PipeWorld)
  | 0, s, w => some ([], s, w)
  | n + 1, s, w =>
    match PSVR2EyeTracker.connect d env fuel s w with
    | none => none
    | some (r, s1, w1) =>
      (PSVR2EyeTracker.connect_repeat d env fuel n s1 w1).map
        fun q => (r :: q.1, q.2.1, q.2.2)

/-- The result of `n` calls of the socket client's `connect()` in a row: their return
values and the final state and world. -/
def PSVR2EyeTrackerSockets.connect_repeat {G : Type} (hdr : SocketsHeader) (d : Defines)
    (env : SocketEnv) :
    Nat → PSVR2EyeTrackerSockets G → SocketWorld →
      List Bool × PSVR2EyeTrackerSockets G × SocketWorld
  | 0, s, w => ([], s, w)
  | n + 1, s, w =>
    let r := PSVR2EyeTrackerSockets.connect hdr d env s w
    let q := PSVR2EyeTrackerSockets.connect_repeat hdr d env n r.2.1 r.2.2
    (r.1 :: q.1, q.2.1, q.2.2)

/-! ## Concrete inputs -/

/-- A build with every feature on and no automatic raster increment. -/
def sampleDefines : Defines :=
  { ENABLE_PSVR2_EYE_TRACKING_AUTOMATICALLY := true
    ENABLE_PSVR2_EYE_TRACKING_COMBINED_GAZE := true
    ENABLE_PSVR2_EYE_TRACKING_PER_EYE_GAZES := true
    ENABLE_GAZE_CALIBRATION := true
    AUTO_CALIBRATE := false
    AUTO_INCREMENT_ON_CALIBRATION_DONE := false
    AUTO_INCREMENT_COUNTDOWN := 0 }

/-- A freshly constructed pipe client (no calibration data). -/
def freshPipe : PSVR2EyeTracker Unit := { calibrations_ := ⟨(), (), ()⟩ }

/-- A connected pipe client on handle 7. -/
def connectedPipe : PSVR2EyeTracker Unit :=
  { calibrations_ := ⟨(), (), ()⟩, is_connected_ := true, is_enabled_ := true,
    named_pipe_handle_ := 7 }

/-- A full-size reply of kind `ERROR_` that carries gaze data marked valid. -/
def errorReply : ReadFileResult :=
  { success := true, lastError := 0, read_size := sizeof_Response,
    buffer :=
      { type_ := ResponseType.ERROR_,
        gazes_ :=
          { combined_gaze_ := { direction_ := ⟨1, 2, 3⟩, is_valid_ := true },
            per_eye_gazes_ :=
              ⟨{ direction_ := ⟨4, 5, 6⟩, is_valid_ := true },
               { direction_ := ⟨7, 8, 9⟩, is_valid_ := true }⟩ } } }

/-- A server that opens the pipe on handle 7 and answers every request with
`errorReply`. -/
def errorEnv : PipeEnv :=
  { CreateFile := fun _ => (7, 0)
    WaitNamedPipe := fun _ => true
    SetNamedPipeHandleState := fun _ => true
    WriteFile := fun _ => true
    ReadFile := fun _ => errorReply }

/-- An instance of `psvr2_eye_tracking_sockets.h` for evaluating the socket
client on concrete inputs: three attempts in every loop, and records laid out
one byte per field (a handshake response is kind, length, result; a gaze
response is kind, length, then x, y, z of the left and of the right eye). -/
def sampleHeader : SocketsHeader :=
  { SOCKET_CONNECT_RETRIES := 3
    SOCKET_CONNECT_SLEEP_TIME_MS := 10
    HANDSHAKE_RETRIES := 3
    HANDSHAKE_SLEEP_TIME_MS := 10
    GET_GAZE_RETRIES := 3
    GET_GAZE_SLEEP_TIME_MS := 1
    IPC_PORT := 3364
    IPC_VERSION := 1
    REQUEST_HANDSHAKE_ := 1
    REQUEST_HANDSHAKE_RESULT_ := 2
    REQUEST_GAZES_ := 3
    REQUEST_GAZES_RESULT_ := 4
    HANDSHAKE_RESULT_SUCCESS_ := 1
    sizeof_HandShakeRequest_payload := 2
    sizeof_HandShakeResponse := 3
    sizeof_GazeResponse := 8
    HandShakeResponse_of_bytes := fun b =>
      ⟨⟨(b.getD 0 0 : Nat), (b.getD 1 0 : Nat)⟩, ⟨(b.getD 2 0 : Nat)⟩⟩
    GazeResponse_of_bytes := fun b =>
      ⟨⟨(b.getD 0 0 : Nat), (b.getD 1 0 : Nat)⟩,
        ⟨⟨⟨⟨b.getD 2 0, b.getD 3 0, b.getD 4 0⟩, true, false, false⟩,
          ⟨⟨b.getD 5 0, b.getD 6 0, b.getD 7 0⟩, true, false, false⟩⟩⟩⟩ }

/-- A freshly constructed socket client (no calibration data). -/
def freshSockets : PSVR2EyeTrackerSockets Unit := { calibrations_ := ⟨(), (), ()⟩ }

/-- A connected socket client on socket 5. -/
def connectedSockets : PSVR2EyeTrackerSockets Unit :=
  { calibrations_ := ⟨(), (), ()⟩, is_connected_ := true, is_enabled_ := true, socket_ := 5 }

/-- A server that accepts the connection on socket 5 and answers the
handshake with a complete record of kind 0, which is not
`REQUEST_HANDSHAKE_RESULT_` of `sampleHeader`. -/
def errorSocketEnv : SocketEnv :=
  { socket := fun _ => 5
    connect := fun _ => (0, 0)
    recv := fun _ => RecvResult.data [0, 1, 1]
    processId := 4242 }

/-- A calibration that is only its two flags (calibrated, calibrating), with
one raster point, and whose correction swaps `x` and `y`. -/
def sampleApi : GazeCalibrationApi (Bool × Bool) Bool :=
  { is_calibrated := fun g => g.1
    is_calibrating := fun g => g.2
    start_calibration := fun g => (g.1, true)
    stop_calibration := fun g => (g.1, false)
    reset_calibration := fun _ => (true, (false, false))
    load_calibration := fun g => (true, g)
    save_calibration := fun g => (true, g)
    increment_raster := fun g => g
    apply_calibration := fun _ v => ⟨v.y, v.x, v.z⟩
    get_raster_point := fun g => g.1
    set_raster_point := fun g p => (p, g.2)
    num_calibrated_ := fun g => if g.1 then 1 else 0
    set_num_calibrated_ := fun g _ => g
    point_is_calibrated_ := fun p => p
    add_sample := fun _ _ => (true, true) }

/-- A tracker state with valid cached gazes, the left eye and the combined
target calibrated, and calibration switched on. -/
def sampleBase : TrackerBase (Bool × Bool) :=
  { calibrations_ := ⟨(true, false), (false, false), (true, false)⟩,
    combined_gaze_ := { direction_ := ⟨1, 2, 3⟩, is_valid_ := true },
    per_eye_gazes_ :=
      ⟨{ direction_ := ⟨4, 5, 6⟩, is_valid_ := true },
       { direction_ := ⟨7, 8, 9⟩, is_valid_ := true }⟩,
    apply_calibration_ := true }

/-- A full-size reply of kind `HANDSHAKE_OK_`. -/
def handshakeOkReply : ReadFileResult :=
  { success := true, lastError := 0, read_size := sizeof_Response,
    buffer := { type_ := ResponseType.HANDSHAKE_OK_ } }

/-- A server that opens the pipe on handle 7 and acknowledges the handshake. -/
def okEnv : PipeEnv :=
  { CreateFile := fun _ => (7, 0)
    WaitNamedPipe := fun _ => true
    SetNamedPipeHandleState := fun _ => true
    WriteFile := fun _ => true
    ReadFile := fun _ => handshakeOkReply }

/-- A server that accepts the connection on socket 5 and answers the
handshake with a complete record of kind `REQUEST_HANDSHAKE_RESULT_` and
result `HANDSHAKE_RESULT_SUCCESS_` of `sampleHeader`. -/
def okSocketEnv : SocketEnv :=
  { socket := fun _ => 5
    connect := fun _ => (0, 0)
    recv := fun _ => RecvResult.data [2, 1, 1]
    processId := 4242 }

/-- A server whose gaze response (8 bytes under `sampleHeader`, kind
`REQUEST_GAZES_RESULT_`) arrives in pieces: the first `recv` (call 1) gets all
but the last 3 bytes, the second (call 3) fails with `WSAEWOULDBLOCK`, the
third (call 5) gets the last 3 bytes. -/
def partialEnv : SocketEnv :=
  { socket := fun _ => 5
    connect := fun _ => (0, 0)
    recv := fun t =>
      if t = 1 then RecvResult.data [4, 6, 10, 20, 30]
      else if t = 5 then RecvResult.data [40, 50, 60]
      else RecvResult.error 10035
    processId := 4242 }

/-- A server whose pipe is busy for the first `n` open attempts of a client
that starts with an empty history (`CreateFile` fails with `ERROR_PIPE_BUSY`,
the wait succeeds), and that then opens the pipe on handle 7 and acknowledges
the handshake. -/
def busyFor (n : Nat) : PipeEnv :=
  { CreateFile := fun t => if t < 2 * n then (INVALID_HANDLE_VALUE, ERROR_PIPE_BUSY) else (7, 0)
    WaitNamedPipe := fun _ => true
    SetNamedPipeHandleState := fun _ => true
    WriteFile := fun _ => true
    ReadFile := fun _ => handshakeOkReply }

/-- A pipe server that cannot be reached: `CreateFile` fails with
`ERROR_FILE_NOT_FOUND` (2), and a read fails with `ERROR_BROKEN_PIPE` (109). -/
def brokenEnv : PipeEnv :=
  { CreateFile := fun _ => (INVALID_HANDLE_VALUE, 2)
    WaitNamedPipe := fun _ => true
    SetNamedPipeHandleState := fun _ => true
    WriteFile := fun _ => true
    ReadFile := fun _ => { success := false, lastError := 109, read_size := 0, buffer := {} } }

/-- A socket server that cannot be reached: every `::connect` fails with
`WSAECONNREFUSED` (10061) and every `recv` with `WSAECONNRESET` (10054). -/
def brokenSocketEnv : SocketEnv :=
  { socket := fun _ => 5
    connect := fun _ => (SOCKET_ERROR, 10061)
    recv := fun _ => RecvResult.error 10054
    processId := 4242 }

/-! ## Calibration control (`psvr2_eye_tracking.h`, `psvr2_eye_tracking.cpp`) -/

namespace TrackerBase

variable {G P : Type}

/-- Function `is_combined_calibrated()`. -/
def is_combined_calibrated (api : GazeCalibrationApi G P) (s : TrackerBase G) : Bool :=
  api.is_calibrated s.calibrations_.a2

/-- Function `is_combined_calibrating()`. -/
def is_combined_calibrating (api : GazeCalibrationApi G P) (s : TrackerBase G) : Bool :=
  api.is_calibrating s.calibrations_.a2

/-- Function `start_combined_calibration()`. -/
def start_combined_calibration (api : GazeCalibrationApi G P) (s : TrackerBase G) :
    TrackerBase G :=
  { s with calibrations_ :=
      { s.calibrations_ with a2 := api.start_calibration s.calibrations_.a2 } }

/-- Function `stop_combined_calibration()`. -/
def stop_combined_calibration (api : GazeCalibrationApi G P) (s : TrackerBase G) :
    TrackerBase G :=
  { s with calibrations_ :=
      { s.calibrations_ with a2 := api.stop_calibration s.calibrations_.a2 } }

/-- Function `is_eye_calibrated(eye)`; `none` when `eye` indexes outside
`calibrations_`. -/
def is_eye_calibrated (api : GazeCalibrationApi G P) (s : TrackerBase G) (eye : Int) :
    Option Bool :=
  (s.calibrations_.get? eye).map api.is_calibrated

/-- Function `is_eye_calibrating(eye)`. -/
def is_eye_calibrating (api : GazeCalibrationApi G P) (s : TrackerBase G) (eye : Int) :
    Option Bool :=
  match is_eye_calibrated api s eye with
  | none => none
  | some true => some false
  | some false => some (decide (s.calibrating_eye_index_ = eye))

/-- Function `get_calibrating_eye_index()`. -/
def get_calibrating_eye_index (s : TrackerBase G) : Int := s.calibrating_eye_index_

/-- Function `stop_eye_calibration()`. -/
def stop_eye_calibration (api : GazeCalibrationApi G P) (s : TrackerBase G) :
    Option (TrackerBase G) :=
  if s.calibrating_eye_index_ ≠ INVALID_INDEX then
    match s.calibrations_.get? s.calibrating_eye_index_ with
    | none => none
    | some c =>
      (s.calibrations_.set? s.calibrating_eye_index_ (api.stop_calibration c)).map
        fun cs => { s with calibrations_ := cs, calibrating_eye_index_ := INVALID_INDEX }
  else some { s with calibrating_eye_index_ := INVALID_INDEX }

/-- Function `start_eye_calibration(eye)`. -/
def start_eye_calibration (api : GazeCalibrationApi G P) (s : TrackerBase G) (eye : Int) :
    Option (TrackerBase G) :=
  let stopped :=
    if s.calibrating_eye_index_ ≠ INVALID_INDEX ∧ s.calibrating_eye_index_ ≠ eye then
      stop_eye_calibration api s
    else some s
  match stopped with
  | none => none
  | some s1 =>
    match s1.calibrations_.get? eye with
    | none => none
    | some c =>
      if !api.is_calibrated c then
        (s1.calibrations_.set? eye (api.start_calibration c)).map
          fun cs => { s1 with calibrations_ := cs, calibrating_eye_index_ := eye }
      else some { s1 with calibrating_eye_index_ := INVALID_INDEX }

/-- Function `PSVR2EyeTracker::set_apply_calibration(enabled)`. -/
def set_apply_calibration (s : TrackerBase G) (enabled : Bool) : TrackerBase G :=
  { s with apply_calibration_ := enabled }

/-- Function `PSVR2EyeTracker::toggle_apply_calibration()`. -/
def toggle_apply_calibration (s : TrackerBase G) : TrackerBase G :=
  { s with apply_calibration_ := !s.apply_calibration_ }

/-- Function `PSVR2EyeTracker::reset_calibrations()`. -/
def reset_calibrations (d : Defines) (api : GazeCalibrationApi G P) (s : TrackerBase G) :
    TrackerBase G :=
  let s1 : TrackerBase G :=
    if d.ENABLE_PSVR2_EYE_TRACKING_PER_EYE_GAZES then
      { s with calibrating_eye_index_ := INVALID_INDEX,
               calibrations_ :=
                 { s.calibrations_ with
                   a0 := (api.reset_calibration s.calibrations_.a0).2,
                   a1 := (api.reset_calibration s.calibrations_.a1).2 } }
    else s
  if d.ENABLE_PSVR2_EYE_TRACKING_COMBINED_GAZE then
    { s1 with calibrations_ :=
        { s1.calibrations_ with a2 := (api.reset_calibration s1.calibrations_.a2).2 } }
  else s1

/-- Function `PSVR2EyeTracker::save_calibrations()` (the same text in both
clients): the value returned and the state after it. -/
def save_calibrations (d : Defines) (api : GazeCalibrationApi G P) (s : TrackerBase G) :
    Bool × TrackerBase G :=
  let success := true
  let (success, s1) : Bool × TrackerBase G :=
    if d.ENABLE_PSVR2_EYE_TRACKING_PER_EYE_GAZES then
      let l := api.save_calibration s.calibrations_.a0
      let r := api.save_calibration s.calibrations_.a1
      ((success && l.1) && r.1,
        { s with calibrations_ := { s.calibrations_ with a0 := l.2, a1 := r.2 } })
    else (success, s)
  if d.ENABLE_PSVR2_EYE_TRACKING_COMBINED_GAZE then
    let c := api.save_calibration s1.calibrations_.a2
    (success && c.1, { s1 with calibrations_ := { s1.calibrations_ with a2 := c.2 } })
  else (success, s1)

/-- The part of `load_calibrations()` under
`#if ENABLE_PSVR2_EYE_TRACKING_PER_EYE_GAZES` (the same text in both clients). -/
def load_eye_calibrations (d : Defines) (api : GazeCalibrationApi G P) (s : TrackerBase G) :
    Bool × TrackerBase G :=
  let success := true
  if d.ENABLE_PSVR2_EYE_TRACKING_PER_EYE_GAZES then
    let l := api.load_calibration s.calibrations_.a0
    let r := api.load_calibration s.calibrations_.a1
    ((success && l.1) && r.1,
      { s with calibrations_ := { s.calibrations_ with a0 := l.2, a1 := r.2 } })
  else (success, s)

/-- Function `PSVR2EyeTracker::load_calibrations()` of the pipe client
(`psvr2_eye_tracking.cpp`, lines 318-332): the combined target gets
`reset_calibration()`. -/
def load_calibrations_pipe (d : Defines) (api : GazeCalibrationApi G P) (s : TrackerBase G) :
    Bool × TrackerBase G :=
  let r := load_eye_calibrations d api s
  if d.ENABLE_PSVR2_EYE_TRACKING_COMBINED_GAZE then
    let c := api.reset_calibration r.2.calibrations_.a2
    (r.1 && c.1, { r.2 with calibrations_ := { r.2.calibrations_ with a2 := c.2 } })
  else r

/-- Function `PSVR2EyeTracker::load_calibrations()` of the socket client
(`psvr2_eye_tracking_sockets.cpp`, lines 382-396): the combined target gets
`load_calibration()`. -/
def load_calibrations_sockets (d : Defines) (api : GazeCalibrationApi G P)
    (s : TrackerBase G) : Bool × TrackerBase G :=
  let r := load_eye_calibrations d api s
  if d.ENABLE_PSVR2_EYE_TRACKING_COMBINED_GAZE then
    let c := api.load_calibration r.2.calibrations_.a2
    (r.1 && c.1, { r.2 with calibrations_ := { r.2.calibrations_ with a2 := c.2 } })
  else r

/-- Function `PSVR2EyeTracker::is_calibrating()`. -/
def is_calibrating (d : Defines) (api : GazeCalibrationApi G P) (s : TrackerBase G) :
    Option Bool :=
  let eyes : Option Bool :=
    if d.ENABLE_PSVR2_EYE_TRACKING_PER_EYE_GAZES then
      match is_eye_calibrating api s LEFT with
      | none => none
      | some true => some true
      | some false => is_eye_calibrating api s RIGHT
    else some false
  match eyes with
  | none => none
  | some true => some true
  | some false =>
    if d.ENABLE_PSVR2_EYE_TRACKING_COMBINED_GAZE ∧ is_combined_calibrating api s then some true
    else some false

/-- Function `PSVR2EyeTracker::is_fully_calibrated()`. -/
def is_fully_calibrated (d : Defines) (api : GazeCalibrationApi G P) (s : TrackerBase G) :
    Option Bool :=
  let calibrated := true
  let eyes : Option Bool :=
    if d.ENABLE_PSVR2_EYE_TRACKING_PER_EYE_GAZES then
      match is_eye_calibrated api s LEFT, is_eye_calibrated api s RIGHT with
      | some l, some r => some ((calibrated && l) && r)
      | _, _ => none
    else some calibrated
  match eyes with
  | none => none
  | some calibrated =>
    if d.ENABLE_PSVR2_EYE_TRACKING_COMBINED_GAZE then
      some (calibrated && is_combined_calibrated api s)
    else some calibrated

/-- The part of `start_calibrating()` under
`#if ENABLE_PSVR2_EYE_TRACKING_COMBINED_GAZE`. -/
def start_calibrating_combined (d : Defines) (api : GazeCalibrationApi G P)
    (s : TrackerBase G) : TrackerBase G :=
  if d.ENABLE_PSVR2_EYE_TRACKING_COMBINED_GAZE ∧ ¬ is_combined_calibrated api s = true then
    start_combined_calibration api s
  else s

/-- Function `PSVR2EyeTracker::start_calibrating()`. -/
def start_calibrating (d : Defines) (api : GazeCalibrationApi G P) (s : TrackerBase G) :
    Option (TrackerBase G) :=
  match is_fully_calibrated d api s, is_calibrating d api s with
  | some fully, some calibrating =>
    if fully || calibrating then some s
    else if d.ENABLE_PSVR2_EYE_TRACKING_PER_EYE_GAZES then
      match is_eye_calibrated api s LEFT, is_eye_calibrated api s RIGHT with
      | some l, some r =>
        if !l then start_eye_calibration api s LEFT
        else if l && !r then start_eye_calibration api s RIGHT
        else some (start_calibrating_combined d api s)
      | _, _ => none
    else some (start_calibrating_combined d api s)
  | _, _ => none

/-- Function `PSVR2EyeTracker::stop_calibrating()`: an empty body. -/
def stop_calibrating (s : TrackerBase G) : TrackerBase G := s

/-- Function `PSVR2EyeTracker::is_combined_gaze_available()`. -/
def is_combined_gaze_available (s : TrackerBase G) : Bool :=
  if !s.is_connected || !s.is_enabled then false else s.combined_gaze_.is_valid_

/-- Function `PSVR2EyeTracker::is_gaze_available(eye)`. -/
def is_gaze_available (s : TrackerBase G) (eye : Int) : Option Bool :=
  if !s.is_connected || !s.is_enabled then some false
  else (s.per_eye_gazes_.get? eye).map fun g => g.is_valid_

end TrackerBase

/-! ## The driver shim (`HmdShimDriver.cpp`)

The shim is compiled with `ENABLE_PSVR2_EYE_TRACKING` and the pipe client
(`psvr2_eye_tracking.h`). Addresses are integers; a difference of two
addresses is taken in 64 bits (`intptr_sub`). -/

/-- Four floats of a `DirectX::XMVECTOR`. -/
structure XMVECTOR where
  x : float
  y : float
  z : float
  w : float
deriving DecidableEq, Repr

/-- Record `vr::VREyeTrackingData_t`; `data{}` is all zero. -/
structure VREyeTrackingData_t where
  flag1 : Nat := 0
  flag2 : Nat := 0
  vector : XMVECTOR := ⟨0, 0, 0, 0⟩
deriving DecidableEq, Repr

/-- The two host interfaces the shim asks for. -/
inductive InterfaceKind where
  | IVRDriverInput_004
  | IVRDriverInputInternal_XXX
deriving DecidableEq, Repr

/-- A host interface object, seen through its operation table: `vtable i`
is the address stored in entry `i`. -/
structure HostInterface where
  vtable : Nat → Int

/-- The calls the shim makes on the host for eye tracking. -/
inductive HostCall where
  | GetGenericInterface (kind : InterfaceKind)
  | CreateEyeTrackingComponent (kind : InterfaceKind)
  | UpdateEyeTrackingComponent (kind : InterfaceKind) (ulComponent : Nat)
      (data : VREyeTrackingData_t)
deriving DecidableEq, Repr

/-- The history of host calls, oldest first. -/
abbrev HostWorld := List HostCall

def HostCall.is_Update : HostCall → Bool
  | HostCall.UpdateEyeTrackingComponent _ _ _ => true
  | _ => false

def HostCall.is_Create : HostCall → Bool
  | HostCall.CreateEyeTrackingComponent _ => true
  | _ => false

/-- The host: what `GetGenericInterface` returns for each interface (`none`
is a null pointer) and the handle `CreateEyeTrackingComponent` writes. -/
structure HostEnv where
  GetGenericInterface : InterfaceKind → Option HostInterface
  CreateEyeTrackingComponent : InterfaceKind → Nat

/-- The members of `struct HmdShimDriver` that the eye-tracking code uses. -/
structure HmdShimDriver (G : Type) where
  psvr2_eye_tracker_ : PSVR2EyeTracker G
  m_active : Bool := false
  m_eyeTrackingComponent : Nat := 0
  IVRDriverInputInternal_XXX : Option HostInterface := none
  IVRDriverInput_XXX : Option HostInterface := none

namespace HmdShimDriver

variable {G P : Type}

/-- The difference of two `intptr_t` values as the 64-bit subtraction of the
compiled code gives it: the integer difference reduced to the range
`-2^63 .. 2^63 - 1` (two's complement). -/
def intptr_sub (a b : Int) : Int :=
  (a - b + 0x8000000000000000) % 0x10000000000000000 - 0x8000000000000000

/-- The test of `Activate()` on a host interface: the pointer is set to null
when `(intptr_t)vtable[i] - (intptr_t)vtable[0] > 0x10000`. -/
def probe_interface (i : Nat) (p : Option HostInterface) : Option HostInterface :=
  match p with
  | none => none
  | some iface =>
    if intptr_sub (iface.vtable i) (iface.vtable 0) > 0x10000 then none else some iface

/-- The eye-tracking part of `HmdShimDriver::Activate` (lines 102-155): the
probe of the two interfaces, the creation of the component, and
`m_active = true`. -/
def Activate (host : HostEnv) (st : HmdShimDriver G) (hw : HostWorld) :
    HmdShimDriver G × HostWorld :=
  let st1 : HmdShimDriver G :=
    { st with IVRDriverInput_XXX :=
        probe_interface 9 (host.GetGenericInterface InterfaceKind.IVRDriverInput_004) }
  let hw1 := hw ++ [HostCall.GetGenericInterface InterfaceKind.IVRDriverInput_004]
  let (st2, hw2) : HmdShimDriver G × HostWorld :=
    if st1.IVRDriverInput_XXX.isNone then
      ({ st1 with IVRDriverInputInternal_XXX :=
          probe_interface 1 (host.GetGenericInterface InterfaceKind.IVRDriverInputInternal_XXX) },
        hw1 ++ [HostCall.GetGenericInterface InterfaceKind.IVRDriverInputInternal_XXX])
    else (st1, hw1)
  let (st3, hw3) : HmdShimDriver G × HostWorld :=
    if st2.IVRDriverInput_XXX.isSome then
      ({ st2 with m_eyeTrackingComponent :=
          host.CreateEyeTrackingComponent InterfaceKind.IVRDriverInput_004 },
        hw2 ++ [HostCall.CreateEyeTrackingComponent InterfaceKind.IVRDriverInput_004])
    else if st2.IVRDriverInputInternal_XXX.isSome then
      ({ st2 with m_eyeTrackingComponent :=
          host.CreateEyeTrackingComponent InterfaceKind.IVRDriverInputInternal_XXX },
        hw2 ++ [HostCall.CreateEyeTrackingComponent InterfaceKind.IVRDriverInputInternal_XXX])
    else (st2, hw2)
  ({ st3 with m_active := true }, hw3)

/-- The end of an iteration of `UpdateThread()` (lines 267-274): the publish
call. -/
def publish (st : HmdShimDriver G) (data : VREyeTrackingData_t) (hw : HostWorld) :
    HostWorld :=
  if st.IVRDriverInput_XXX.isSome then
    hw ++ [HostCall.UpdateEyeTrackingComponent InterfaceKind.IVRDriverInput_004
      st.m_eyeTrackingComponent data]
  else if st.IVRDriverInputInternal_XXX.isSome then
    hw ++ [HostCall.UpdateEyeTrackingComponent InterfaceKind.IVRDriverInputInternal_XXX
      st.m_eyeTrackingComponent data]
  else hw

/-- One iteration of the loop of `UpdateThread()` in which `m_active` is
found true after the sleep (lines 236-274). The local `combined_gaze` is not
initialised in the source; it is read only after `get_combined_gaze` wrote
it. `none` when `connect()` has not returned within `fuel` iterations. -/
def UpdateThread_tick (d : Defines) (api : GazeCalibrationApi G P) (env : PipeEnv)
    (fuel : Nat) (st : HmdShimDriver G) (data : VREyeTrackingData_t)
    (pw : PipeWorld) (hw : HostWorld) :
    Option (HmdShimDriver G × VREyeTrackingData_t × PipeWorld × HostWorld) :=
  let data1 : VREyeTrackingData_t := { data with vector := ⟨0, 0, 0xBF800000, 0x3F800000⟩ }
  let connected : Option (PSVR2EyeTracker G × PipeWorld) :=
    if !st.psvr2_eye_tracker_.is_connected then
      (PSVR2EyeTracker.connect d env fuel st.psvr2_eye_tracker_ pw).map fun r => (r.2.1, r.2.2)
    else some (st.psvr2_eye_tracker_, pw)
  match connected with
  | none => none
  | some (t1, pw1) =>
    let combined_gaze : XrVector3f := ⟨0, 0, 0⟩
    let r : Bool × XrVector3f × PSVR2EyeTracker G × PipeWorld :=
      if t1.is_connected then
        let u := PSVR2EyeTracker.update_gazes d env t1 pw1
        if u.1 then
          let g := TrackerBase.get_combined_gaze d api u.2.1.toTrackerBase combined_gaze false
          (g.1, g.2, u.2.1, u.2.2)
        else (false, combined_gaze, u.2.1, u.2.2)
      else (false, combined_gaze, t1, pw1)
    let isEyeTrackingDataAvailable := r.1
    let data2 : VREyeTrackingData_t :=
      if isEyeTrackingDataAvailable then
        { data1 with vector := ⟨r.2.1.x, r.2.1.y, r.2.1.z, 0x3F800000⟩ }
      else data1
    let data3 : VREyeTrackingData_t :=
      if isEyeTrackingDataAvailable then { data2 with flag1 := 0x101, flag2 := 0x1 }
      else { data2 with flag1 := 0, flag2 := 0 }
    let st1 : HmdShimDriver G := { st with psvr2_eye_tracker_ := r.2.2.1 }
    some (st1, data3, r.2.2.2, publish st1 data3 hw)

/-- The first `n` iterations of the loop of `UpdateThread()`, `m_active`
being true after each sleep. -/
def UpdateThread_ticks (d : Defines) (api : GazeCalibrationApi G P) (env : PipeEnv)
    (fuel : Nat) :
    Nat → HmdShimDriver G → VREyeTrackingData_t → PipeWorld → HostWorld →
      Option (HmdShimDriver G × VREyeTrackingData_t × PipeWorld × HostWorld)
  | 0, st, data, pw, hw => some (st, data, pw, hw)
  | n + 1, st, data, pw, hw =>
    match UpdateThread_tick d api env fuel st data pw hw with
    | none => none
    | some (st1, data1, pw1, hw1) => UpdateThread_ticks d api env fuel n st1 data1 pw1 hw1

end HmdShimDriver

/-! ## More concrete inputs -/

/-- A calibration for evaluating the tracker on concrete inputs: its two
flags, one raster point (calibrated by one sample) and the counter of
calibrated points. Starting does nothing to a calibrated target, loading
restores a fitted target, resetting clears everything. -/
structure SampleCalibration where
  calibrated : Bool := false
  calibrating : Bool := false
  point_calibrated : Bool := false
  num_calibrated_ : Int := 0
deriving DecidableEq, Repr

def rasterApi : GazeCalibrationApi SampleCalibration Bool :=
  { is_calibrated := fun g => g.calibrated
    is_calibrating := fun g => g.calibrating
    start_calibration := fun g => if g.calibrated then g else { g with calibrating := true }
    stop_calibration := fun g => { g with calibrating := false }
    reset_calibration := fun _ => (true, {})
    load_calibration := fun g => (true, { g with calibrated := true, calibrating := false })
    save_calibration := fun g => (true, g)
    increment_raster := fun g =>
      if g.point_calibrated then { g with calibrated := true, calibrating := false } else g
    apply_calibration := fun _ v => ⟨v.y, v.x, v.z⟩
    get_raster_point := fun g => g.point_calibrated
    set_raster_point := fun g p => { g with point_calibrated := p }
    num_calibrated_ := fun g => g.num_calibrated_
    set_num_calibrated_ := fun g n => { g with num_calibrated_ := n }
    point_is_calibrated_ := fun p => p
    add_sample := fun _ _ => (true, true) }

/-- A freshly constructed tracker: every target Idle. -/
def idleBase : TrackerBase SampleCalibration := { calibrations_ := ⟨{}, {}, {}⟩ }

/-- Both eyes Idle, the combined target calibrating. -/
def combinedCalibratingBase : TrackerBase SampleCalibration :=
  { calibrations_ := ⟨{}, {}, { calibrating := true }⟩ }

/-- The right eye calibrating, the left eye Idle. -/
def rightCalibratingBase : TrackerBase SampleCalibration :=
  { calibrations_ := ⟨{}, { calibrating := true }, {}⟩, calibrating_eye_index_ := RIGHT }

/-- The left eye calibrated and still the eye of `calibrating_eye_index_`. -/
def leftDoneBase : TrackerBase SampleCalibration :=
  { calibrations_ := ⟨{ calibrated := true }, {}, {}⟩, calibrating_eye_index_ := LEFT }

/-- Every target calibrated. -/
def calibratedBase : TrackerBase SampleCalibration :=
  { calibrations_ := ⟨{ calibrated := true }, { calibrated := true }, { calibrated := true }⟩ }

/-- The left eye calibrating with a valid cached sample. -/
def samplingBase : TrackerBase SampleCalibration :=
  { calibrations_ := ⟨{ calibrating := true }, {}, {}⟩, calibrating_eye_index_ := LEFT,
    per_eye_gazes_ := ⟨{ direction_ := ⟨4, 5, 6⟩, is_valid_ := true }, {}⟩ }

/-- An instance of the socket header whose gaze response carries, after the
three floats of each eye, the eye's `is_gaze_dir_valid_` flag (10 bytes: kind,
length, then x, y, z, valid of the left and of the right eye); the rest is
`sampleHeader`. -/
def flagsHeader : SocketsHeader :=
  { sampleHeader with
    sizeof_GazeResponse := 10
    GazeResponse_of_bytes := fun b =>
      ⟨⟨(b.getD 0 0 : Nat), (b.getD 1 0 : Nat)⟩,
        ⟨⟨⟨⟨b.getD 2 0, b.getD 3 0, b.getD 4 0⟩, decide (b.getD 5 0 ≠ 0), false, false⟩,
          ⟨⟨b.getD 6 0, b.getD 7 0, b.getD 8 0⟩, decide (b.getD 9 0 ≠ 0), false, false⟩⟩⟩⟩ }

/-- A server whose gaze response (under `flagsHeader`) marks the left gaze
as not valid and the right gaze as valid. -/
def invalidLeftEnv : SocketEnv :=
  { socket := fun _ => 5
    connect := fun _ => (0, 0)
    recv := fun _ => RecvResult.data [4, 8, 1, 2, 3, 0, 4, 5, 6, 1]
    processId := 4242 }

/-- A freshly constructed pipe client with `SampleCalibration` targets. -/
def freshPipeCal : PSVR2EyeTracker SampleCalibration := { calibrations_ := ⟨{}, {}, {}⟩ }

/-- What a tick without eye-tracking data publishes: both flags 0 and the
vector (0, 0, -1, 1). -/
def failedTickData : VREyeTrackingData_t :=
  { flag1 := 0, flag2 := 0, vector := ⟨0, 0, 0xBF800000, 0x3F800000⟩ }

/-- An activated driver whose primary interface passed the probe (component
handle 11), with a fresh pipe client. -/
def probedDriver : HmdShimDriver SampleCalibration :=
  { psvr2_eye_tracker_ := freshPipeCal, m_active := true, m_eyeTrackingComponent := 11,
    IVRDriverInput_XXX := some ⟨fun i => 0x7FF000000000 + 8 * i⟩ }

/-- A driver before activation, with a fresh pipe client. -/
def freshDriver : HmdShimDriver SampleCalibration := { psvr2_eye_tracker_ := freshPipeCal }

/-- A host whose primary interface has entry 9 of its operation table
0x200000 below entry 0, and that has no secondary interface. -/
def farBelowHost : HostEnv :=
  { GetGenericInterface := fun k =>
      match k with
      | InterfaceKind.IVRDriverInput_004 =>
        some ⟨fun i => if i = 0 then 0x7FF000200000 else 0x7FF000000000⟩
      | InterfaceKind.IVRDriverInputInternal_XXX => none
    CreateEyeTrackingComponent := fun _ => 11 }

/-- A host whose primary interface has entry 9 of its operation table
0x200000 above entry 0, and whose secondary interface has entries 0 and 1
eight bytes apart. -/
def farAboveHost : HostEnv :=
  { GetGenericInterface := fun k =>
      match k with
      | InterfaceKind.IVRDriverInput_004 =>
        some ⟨fun i => if i = 0 then 0x7FF000000000 else 0x7FF000200000⟩
      | InterfaceKind.IVRDriverInputInternal_XXX => some ⟨fun i => 0x7FF000000000 + 8 * i⟩
    CreateEyeTrackingComponent := fun _ => 11 }

/-! ## Sequences of calibration calls -/

/-- The member functions that read or write `calibrating_eye_index_`, as
calls with their arguments. -/
inductive CalibrationCall where
  | start_calibrating
  | start_eye_calibration (eye : Int)
  | stop_eye_calibration
  | reset_calibrations
  | increment_raster
  | get_per_eye_gaze (eye : Int) (per_eye_gaze_direction : XrVector3f)
      (should_apply_gaze : Bool)
deriving DecidableEq, Repr

/-- The eye argument of a call, if it has one, is LEFT or RIGHT. -/
def CalibrationCall.eye_ok : CalibrationCall → Bool
  | CalibrationCall.start_eye_calibration eye => decide (eye = LEFT ∨ eye = RIGHT)
  | CalibrationCall.get_per_eye_gaze eye _ _ => decide (eye = LEFT ∨ eye = RIGHT)
  | _ => true

/-- The state after one call; `none` when the call indexes outside an
array. -/
def TrackerBase.call {G P : Type} (d : Defines) (api : GazeCalibrationApi G P)
    (s : TrackerBase G) : CalibrationCall → Option (TrackerBase G)
  | CalibrationCall.start_calibrating => TrackerBase.start_calibrating d api s
  | CalibrationCall.start_eye_calibration eye => TrackerBase.start_eye_calibration api s eye
  | CalibrationCall.stop_eye_calibration => TrackerBase.stop_eye_calibration api s
  | CalibrationCall.reset_calibrations => some (TrackerBase.reset_calibrations d api s)
  | CalibrationCall.increment_raster => TrackerBase.increment_raster d api s
  | CalibrationCall.get_per_eye_gaze eye per_eye_gaze_direction should_apply_gaze =>
    (TrackerBase.get_per_eye_gaze d api s eye per_eye_gaze_direction should_apply_gaze).map
      fun r => r.2.2

/-- The state after a sequence of calls, the first call first. -/
def TrackerBase.calls {G P : Type} (d : Defines) (api : GazeCalibrationApi G P) :
    List CalibrationCall → TrackerBase G → Option (TrackerBase G)
  | [], s => some s
  | c :: cs, s =>
    match TrackerBase.call d api s c with
    | none => none
    | some s1 => TrackerBase.calls d api cs s1

/-- A session of calibration calls on the fresh tracker `idleBase`. -/
def sampleCalls : List CalibrationCall :=
  [CalibrationCall.start_calibrating,
   CalibrationCall.get_per_eye_gaze LEFT ⟨0, 0, 0⟩ true,
   CalibrationCall.increment_raster,
   CalibrationCall.start_eye_calibration RIGHT,
   CalibrationCall.get_per_eye_gaze RIGHT ⟨0, 0, 0⟩ true,
   CalibrationCall.stop_eye_calibration,
   CalibrationCall.start_eye_calibration LEFT,
   CalibrationCall.reset_calibrations,
   CalibrationCall.start_eye_calibration RIGHT]


/-! ## The `recv` loop -/

theorem received_length_ge (env : SocketEnv) (size : Nat) :
    ∀ (k t : Nat) (acc : List Byte), acc.length ≤ (received env size k t acc).length := by
  intro k
  induction k with
  | zero => intro t acc; simp [received]
  | succ k ih =>
    intro t acc
    have h := ih (t + 2) (acc ++ ((env.recv t).bytes.take (size - acc.length)))
    simp only [received]
    simp only [List.length_append] at h
    omega

theorem received_full (env : SocketEnv) (size : Nat) :
    ∀ (k t : Nat) (acc : List Byte), size ≤ acc.length → received env size k t acc = acc := by
  intro k
  induction k with
  | zero => intro t acc _; simp [received]
  | succ k ih =>
    intro t acc h
    have h0 : size - acc.length = 0 := by omega
    simp only [received, h0, List.take_zero, List.append_nil]
    exact ih (t + 2) acc h

theorem received_length_le (env : SocketEnv) (size : Nat) :
    ∀ (k t : Nat) (acc : List Byte), acc.length ≤ size →
      (received env size k t acc).length ≤ size := by
  intro k
  induction k with
  | zero => intro t acc h; simpa [received] using h
  | succ k ih =>
    intro t acc h
    simp only [received]
    apply ih
    simp only [List.length_append, List.length_take]
    omega

/-- One attempt of the loop, on a buffer whose first `offset` bytes are `acc`:
the return value of `recv` and the buffer after it. -/
theorem recv_on_prefix (r : RecvResult) (acc pad : List Byte) (size : Nat) :
    (recv r (acc ++ pad) acc.length (size - acc.length)).2
        = (acc ++ r.bytes.take (size - acc.length))
            ++ pad.drop (r.bytes.take (size - acc.length)).length
      ∧ (if (recv r (acc ++ pad) acc.length (size - acc.length)).1 > 0
          then acc.length + (recv r (acc ++ pad) acc.length (size - acc.length)).1.toNat
          else acc.length)
        = (acc ++ r.bytes.take (size - acc.length)).length := by
  cases r with
  | data bytes =>
    constructor
    · simp [recv, RecvResult.bytes, List.drop_append]
    · simp only [recv, RecvResult.bytes, List.length_append]
      generalize bytes.take (size - acc.length) = got
      split <;> rename_i h
      · rw [Int.toNat_ofNat]
      · have : got.length = 0 := by
          have := h
          simp only [gt_iff_lt, Nat.cast_pos, not_lt, Nat.le_zero_eq] at this
          exact this
        omega
  | closed => simp [recv, RecvResult.bytes]
  | error e => simp [recv, RecvResult.bytes, SOCKET_ERROR]

namespace PSVR2EyeTrackerSockets

/-- One iteration of the `recv` loop on a buffer that starts with the bytes
read so far. -/
theorem recv_loop_succ (env : SocketEnv) (sock : SOCKET) (size ms retries : Nat)
    (acc pad : List Byte) (w : SocketWorld) :
    recv_loop env sock size ms (retries + 1) acc.length (acc ++ pad) w =
      if size ≤ (acc ++ (env.recv w.length).bytes.take (size - acc.length)).length then
        (retries + 1, (acc ++ (env.recv w.length).bytes.take (size - acc.length)).length,
          (acc ++ (env.recv w.length).bytes.take (size - acc.length))
            ++ pad.drop ((env.recv w.length).bytes.take (size - acc.length)).length,
          w ++ [SocketCall.recv sock acc.length (size - acc.length)])
      else
        recv_loop env sock size ms retries
          (acc ++ (env.recv w.length).bytes.take (size - acc.length)).length
          ((acc ++ (env.recv w.length).bytes.take (size - acc.length))
            ++ pad.drop ((env.recv w.length).bytes.take (size - acc.length)).length)
          (w ++ [SocketCall.recv sock acc.length (size - acc.length)] ++ [SocketCall.Sleep ms]) := by
  obtain ⟨h1, h2⟩ := recv_on_prefix (env.recv w.length) acc pad size
  rw [recv_loop]
  simp only [h1, h2, ge_iff_le]

/-- What the `recv` loop returns, in terms of the bytes read in order: it ends
with retries left exactly when the bytes read within the budget fill the
record; the offset is the number of bytes read and the buffer holds them in
order, followed by the part of the buffer not yet written. -/
theorem recv_loop_spec (env : SocketEnv) (sock : SOCKET) (size ms : Nat) :
    ∀ (retries : Nat) (acc pad : List Byte) (w : SocketWorld),
      acc.length + pad.length = size →
      (0 < (recv_loop env sock size ms retries acc.length (acc ++ pad) w).1
          ↔ 0 < retries ∧ size ≤ (received env size retries w.length acc).length)
        ∧ (recv_loop env sock size ms retries acc.length (acc ++ pad) w).2.1
            = (received env size retries w.length acc).length
        ∧ (recv_loop env sock size ms retries acc.length (acc ++ pad) w).2.2.1
            = received env size retries w.length acc
                ++ pad.drop ((received env size retries w.length acc).length - acc.length) := by
  intro retries
  induction retries with
  | zero => intro acc pad w _; simp [recv_loop, received]
  | succ retries ih =>
    intro acc pad w hsize
    rw [recv_loop_succ]
    simp only [received]
    by_cases hfull : size ≤ (acc ++ (env.recv w.length).bytes.take (size - acc.length)).length
    · rw [if_pos hfull, received_full env size retries _ _ hfull]
      refine ⟨?_, rfl, ?_⟩
      · exact ⟨fun _ => ⟨Nat.succ_pos _, hfull⟩, fun _ => Nat.succ_pos _⟩
      · simp
    · rw [if_neg hfull]
      have hlen : (acc ++ (env.recv w.length).bytes.take (size - acc.length)).length
          + (pad.drop ((env.recv w.length).bytes.take (size - acc.length)).length).length
            = size := by
        simp only [List.length_append, List.length_drop, List.length_take]
        omega
      have h := ih (acc ++ (env.recv w.length).bytes.take (size - acc.length))
        (pad.drop ((env.recv w.length).bytes.take (size - acc.length)).length)
        (w ++ [SocketCall.recv sock acc.length (size - acc.length)] ++ [SocketCall.Sleep ms]) hlen
      have hw : (w ++ [SocketCall.recv sock acc.length (size - acc.length)]
          ++ [SocketCall.Sleep ms]).length = w.length + 2 := by simp
      rw [hw] at h
      obtain ⟨h1, h2, h3⟩ := h
      refine ⟨?_, h2, ?_⟩
      · rw [h1]
        constructor
        · intro hh; exact ⟨Nat.succ_pos _, hh.2⟩
        · intro hh
          refine ⟨?_, hh.2⟩
          rcases Nat.eq_zero_or_pos retries with h0 | h0
          · subst h0
            simp only [received] at hh
            exact absurd hh.2 hfull
          · exact h0
      · rw [h3, List.drop_drop]
        have hge := received_length_ge env size retries (w.length + 2)
          (acc ++ (env.recv w.length).bytes.take (size - acc.length))
        congr 2
        simp only [List.length_append] at hge ⊢
        omega

/-- The attempt at which the `recv` loop ends: when the bytes read by the
first `k` attempts do not fill the record, those of the first `k + 1` do, and
the budget allows `k + 1` attempts, the loop makes exactly `k + 1` calls of
`recv` (with `k` sleeps between them) and leaves `retries - k` retries. -/
theorem recv_loop_attempts (env : SocketEnv) (sock : SOCKET) (size ms : Nat) :
    ∀ (k retries : Nat) (acc pad : List Byte) (w : SocketWorld),
      acc.length + pad.length = size →
      (received env size k w.length acc).length < size →
      size ≤ (received env size (k + 1) w.length acc).length →
      k < retries →
      (recv_loop env sock size ms retries acc.length (acc ++ pad) w).1 = retries - k
        ∧ (recv_loop env sock size ms retries acc.length (acc ++ pad) w).2.2.2.length
            = w.length + 2 * k + 1
        ∧ (recv_loop env sock size ms retries acc.length (acc ++ pad) w).2.2.2.countP
            SocketCall.is_recv = w.countP SocketCall.is_recv + (k + 1) := by
  intro k
  induction k with
  | zero =>
    intro retries acc pad w _ h1 h2 hk
    obtain ⟨r, rfl⟩ : ∃ r, retries = r + 1 := ⟨retries - 1, by omega⟩
    simp only [received] at h1 h2
    rw [recv_loop_succ, if_pos h2]
    simp [SocketCall.is_recv]
  | succ k ih =>
    intro retries acc pad w hsize h1 h2 hk
    obtain ⟨r, rfl⟩ : ∃ r, retries = r + 1 := ⟨retries - 1, by omega⟩
    rw [received] at h1 h2
    have hge := received_length_ge env size k (w.length + 2)
      (acc ++ (env.recv w.length).bytes.take (size - acc.length))
    have hnot : ¬ size ≤ (acc ++ (env.recv w.length).bytes.take (size - acc.length)).length := by
      omega
    rw [recv_loop_succ, if_neg hnot]
    have hlen : (acc ++ (env.recv w.length).bytes.take (size - acc.length)).length
        + (pad.drop ((env.recv w.length).bytes.take (size - acc.length)).length).length
          = size := by
      simp only [List.length_append, List.length_drop, List.length_take]
      omega
    have hw : (w ++ [SocketCall.recv sock acc.length (size - acc.length)]
        ++ [SocketCall.Sleep ms]).length = w.length + 2 := by simp
    have h := ih r (acc ++ (env.recv w.length).bytes.take (size - acc.length))
      (pad.drop ((env.recv w.length).bytes.take (size - acc.length)).length)
      (w ++ [SocketCall.recv sock acc.length (size - acc.length)] ++ [SocketCall.Sleep ms])
      hlen (by rw [hw]; exact h1) (by rw [hw]; exact h2) (by omega)
    obtain ⟨e1, e2, e3⟩ := h
    refine ⟨by rw [e1]; omega, by rw [e2, hw]; omega, ?_⟩
    rw [e3]
    simp [SocketCall.is_recv]
    omega

/-- The `recv` loop makes at most `retries` calls of `recv` and at most
`2 * retries` system calls, whatever the network answers. -/
theorem recv_loop_bound (env : SocketEnv) (sock : SOCKET) (size ms : Nat) :
    ∀ (retries offset : Nat) (buffer : List Byte) (w : SocketWorld),
      (recv_loop env sock size ms retries offset buffer w).2.2.2.length
          ≤ w.length + 2 * retries
        ∧ (recv_loop env sock size ms retries offset buffer w).2.2.2.countP
            SocketCall.is_recv ≤ w.countP SocketCall.is_recv + retries
        ∧ (recv_loop env sock size ms retries offset buffer w).2.2.2.countP
            SocketCall.is_connect = w.countP SocketCall.is_connect := by
  intro retries
  induction retries with
  | zero => intro offset buffer w; simp [recv_loop]
  | succ retries ih =>
    intro offset buffer w
    rw [recv_loop]
    generalize (if (recv (env.recv w.length) buffer offset (size - offset)).1 > 0
      then offset + (recv (env.recv w.length) buffer offset (size - offset)).1.toNat
      else offset) = offset1
    by_cases hfull : offset1 ≥ size
    · rw [if_pos hfull]
      simp [SocketCall.is_recv, SocketCall.is_connect]
      omega
    · rw [if_neg hfull]
      obtain ⟨h1, h2, h3⟩ := ih offset1
        (recv (env.recv w.length) buffer offset (size - offset)).2
        (w ++ [SocketCall.recv sock offset (size - offset)] ++ [SocketCall.Sleep ms])
      refine ⟨?_, ?_, ?_⟩
      · refine le_trans h1 ?_
        simp
        omega
      · refine le_trans h2 ?_
        simp [SocketCall.is_recv]
        omega
      · rw [h3]
        simp [SocketCall.is_connect]

/-- The `::connect` loop makes at most `retries` calls of `::connect` and at
most `2 * retries` system calls, whatever the network answers. -/
theorem connect_loop_bound (hdr : SocketsHeader) (env : SocketEnv) (sock : SOCKET) :
    ∀ (retries : Nat) (w : SocketWorld),
      (connect_loop hdr env sock retries w).2.length ≤ w.length + 2 * retries
        ∧ (connect_loop hdr env sock retries w).2.countP SocketCall.is_connect
            ≤ w.countP SocketCall.is_connect + retries
        ∧ (connect_loop hdr env sock retries w).2.countP SocketCall.is_recv
            = w.countP SocketCall.is_recv := by
  intro retries
  induction retries with
  | zero => intro w; simp [connect_loop]
  | succ retries ih =>
    intro w
    rw [connect_loop]
    split
    · simp [SocketCall.is_recv, SocketCall.is_connect]
      omega
    · split
      · simp [SocketCall.is_recv, SocketCall.is_connect]
        omega
      · obtain ⟨h1, h2, h3⟩ := ih
          (w ++ [SocketCall.connect sock hdr.IPC_PORT]
            ++ [SocketCall.Sleep hdr.SOCKET_CONNECT_SLEEP_TIME_MS])
        refine ⟨?_, ?_, ?_⟩
        · refine le_trans h1 ?_
          simp
          omega
        · refine le_trans h2 ?_
          simp [SocketCall.is_connect]
          omega
        · rw [h3]
          simp [SocketCall.is_recv]

end PSVR2EyeTrackerSockets

/-! ## Accepting a gaze reply -/

/-- What the pipe client's `update_gazes()` accepts: on a connected client
it returns true exactly when the write succeeded and the read (successful, or
failed with `ERROR_MORE_DATA`) delivered `sizeof(Response)` bytes. The kind
of the reply is not looked at. -/
theorem pipe_update_gazes_accepts_iff {G : Type} (d : Defines) (env : PipeEnv)
    (s : PSVR2EyeTracker G) (w : PipeWorld) (hc : s.is_connected_ = true) :
    (PSVR2EyeTracker.update_gazes d env s w).1 = true ↔
      env.WriteFile w.length = true
        ∧ ((env.ReadFile (w.length + 1)).success = true
            ∨ (env.ReadFile (w.length + 1)).lastError = ERROR_MORE_DATA)
        ∧ (env.ReadFile (w.length + 1)).read_size = sizeof_Response := by
  simp only [PSVR2EyeTracker.update_gazes, PSVR2EyeTracker.send_and_receive,
    PSVR2EyeTracker.send_request, PSVR2EyeTracker.receive_request, hc]
  cases hw : env.WriteFile w.length <;>
    cases hs : (env.ReadFile (w.length + 1)).success <;>
    by_cases he : (env.ReadFile (w.length + 1)).lastError = ERROR_MORE_DATA <;>
    by_cases hz : (env.ReadFile (w.length + 1)).read_size = sizeof_Response <;>
    simp [hw, hs, he, hz]

/-- The `recv` loop started on an empty record: it ends with retries left
exactly when the bytes read within the budget fill the record, and the
buffer then holds exactly those bytes, in the order read. -/
theorem recv_loop_from_start (env : SocketEnv) (sock : SOCKET) (size ms retries : Nat)
    (w : SocketWorld) :
    (0 < (PSVR2EyeTrackerSockets.recv_loop env sock size ms retries 0
          (List.replicate size 0) w).1
        ↔ 0 < retries ∧ (received env size retries w.length []).length = size)
      ∧ (0 < (PSVR2EyeTrackerSockets.recv_loop env sock size ms retries 0
          (List.replicate size 0) w).1 →
        (PSVR2EyeTrackerSockets.recv_loop env sock size ms retries 0
          (List.replicate size 0) w).2.2.1 = received env size retries w.length []) := by
  have hspec := PSVR2EyeTrackerSockets.recv_loop_spec env sock size ms retries []
    (List.replicate size 0) w (by simp)
  have hle := received_length_le env size retries w.length [] (Nat.zero_le _)
  simp only [List.length_nil, List.nil_append, Nat.sub_zero] at hspec
  obtain ⟨h1, -, h3⟩ := hspec
  refine ⟨?_, ?_⟩
  · rw [h1]
    constructor
    · intro hh; exact ⟨hh.1, le_antisymm hle hh.2⟩
    · intro hh; exact ⟨hh.1, le_of_eq hh.2.symm⟩
  · intro hok
    have hfull := h1.mp hok
    have heq : (received env size retries w.length []).length = size :=
      le_antisymm hle hfull.2
    rw [h3, heq]
    simp

/-- What the socket client's `update_gazes()` accepts: on a connected client
it returns true exactly when the bytes read within the retry budget fill the
gaze record and the record's kind is `REQUEST_GAZES_RESULT_`. -/
theorem sockets_update_gazes_accepts_iff {G : Type} (hdr : SocketsHeader) (d : Defines)
    (env : SocketEnv) (s : PSVR2EyeTrackerSockets G) (w : SocketWorld)
    (hc : s.is_connected_ = true) :
    (PSVR2EyeTrackerSockets.update_gazes hdr d env s w).1 = true ↔
      (0 < hdr.GET_GAZE_RETRIES
        ∧ (received env hdr.sizeof_GazeResponse hdr.GET_GAZE_RETRIES (w.length + 1) []).length
            = hdr.sizeof_GazeResponse)
        ∧ (hdr.GazeResponse_of_bytes
            (received env hdr.sizeof_GazeResponse hdr.GET_GAZE_RETRIES (w.length + 1) [])).header.type
            = hdr.REQUEST_GAZES_RESULT_ := by
  obtain ⟨h1, h2⟩ := recv_loop_from_start env s.socket_ hdr.sizeof_GazeResponse
    hdr.GET_GAZE_SLEEP_TIME_MS hdr.GET_GAZE_RETRIES
    (w ++ [SocketCall.send s.socket_ (SocketRequest.GazeRequest hdr.REQUEST_GAZES_ 0)])
  simp only [List.length_append, List.length_singleton] at h1 h2
  simp only [PSVR2EyeTrackerSockets.update_gazes, hc]
  by_cases hok : 0 < (PSVR2EyeTrackerSockets.recv_loop env s.socket_ hdr.sizeof_GazeResponse
      hdr.GET_GAZE_SLEEP_TIME_MS hdr.GET_GAZE_RETRIES 0
      (List.replicate hdr.sizeof_GazeResponse 0)
      (w ++ [SocketCall.send s.socket_ (SocketRequest.GazeRequest hdr.REQUEST_GAZES_ 0)])).1
  · have hfull := h1.mp hok
    have hbuf := h2 hok
    by_cases hk : (hdr.GazeResponse_of_bytes
        (received env hdr.sizeof_GazeResponse hdr.GET_GAZE_RETRIES (w.length + 1) [])).header.type
        = hdr.REQUEST_GAZES_RESULT_
    · simp [hok, hbuf, hk, hfull.1, hfull.2]
    · simp [hok, hbuf, hk]
  · have hnot : ¬ (0 < hdr.GET_GAZE_RETRIES
        ∧ (received env hdr.sizeof_GazeResponse hdr.GET_GAZE_RETRIES (w.length + 1) []).length
            = hdr.sizeof_GazeResponse) := fun hh => hok (h1.mpr hh)
    simp [hok, hnot]

/-- C1, on the pipe client: `update_gazes()` accepts a full-size reply of kind
`ERROR_`. On the connected client `connectedPipe`, with a server that answers
the gaze request with `errorReply`, it returns true and copies the reply's
gaze states into the cache. -/
theorem pipe_update_gazes_accepts_error_reply :
    errorReply.buffer.type_ = ResponseType.ERROR_
      ∧ errorReply.buffer.type_ ≠ ResponseType.GET_GAZES_OK_
      ∧ errorReply.read_size = sizeof_Response
      ∧ PSVR2EyeTracker.update_gazes sampleDefines errorEnv connectedPipe [] =
          (true,
            { connectedPipe with
              combined_gaze_ := { direction_ := ⟨1, 2, 3⟩, is_valid_ := true },
              per_eye_gazes_ :=
                ⟨{ direction_ := ⟨4, 5, 6⟩, is_valid_ := true },
                 { direction_ := ⟨7, 8, 9⟩, is_valid_ := true }⟩ },
            [PipeCall.WriteFile 7 ⟨RequestType.GET_GAZES_⟩, PipeCall.ReadFile 7]) := by
  decide

/-! ## `connect()` and `disconnect()` -/

/-- C2: `connect()` is idempotent. On a client with `is_connected()` true,
any number `n` of `connect()` calls in a row all return true, make no system
call (the world is the one given) and leave the whole client state, handle
included, as it was; in the pipe client and in the socket client. -/
theorem connect_idempotent {G : Type} (hdr : SocketsHeader) (d : Defines) (penv : PipeEnv)
    (senv : SocketEnv) (fuel n : Nat) (p : PSVR2EyeTracker G) (pw : PipeWorld)
    (s : PSVR2EyeTrackerSockets G) (sw : SocketWorld)
    (hp : p.is_connected = true) (hs : s.is_connected = true) :
    PSVR2EyeTracker.connect_repeat d penv fuel n p pw = some (List.replicate n true, p, pw)
      ∧ PSVR2EyeTrackerSockets.connect_repeat hdr d senv n s sw
          = (List.replicate n true, s, sw) := by
  have hp1 : p.is_connected_ = true := hp
  have hs1 : s.is_connected_ = true := hs
  have hpc : PSVR2EyeTracker.connect d penv fuel p pw = some (true, p, pw) := by
    simp [PSVR2EyeTracker.connect, hp1]
  have hsc : PSVR2EyeTrackerSockets.connect hdr d senv s sw = (true, s, sw) := by
    simp [PSVR2EyeTrackerSockets.connect, hs1]
  induction n with
  | zero => exact ⟨rfl, rfl⟩
  | succ n ih =>
    constructor
    · simp only [PSVR2EyeTracker.connect_repeat, hpc, ih.1]
      rfl
    · simp only [PSVR2EyeTrackerSockets.connect_repeat, hsc, ih.2]
      rfl

/-- C2 at a concrete input: three `connect()` calls on the connected clients
`connectedPipe` and `connectedSockets`. -/
theorem connect_idempotent_witness :
    connectedPipe.is_connected = true ∧ connectedSockets.is_connected = true
      ∧ PSVR2EyeTracker.connect_repeat sampleDefines errorEnv 1 3 connectedPipe []
          = some ([true, true, true], connectedPipe, [])
      ∧ PSVR2EyeTrackerSockets.connect_repeat sampleHeader sampleDefines errorSocketEnv 3
          connectedSockets [] = ([true, true, true], connectedSockets, []) :=
  ⟨rfl, rfl,
    connect_idempotent sampleHeader sampleDefines errorEnv errorSocketEnv 1 3
      connectedPipe [] connectedSockets [] rfl rfl⟩

/-- C9: an absent connection never answers a request. On a client with
`is_connected()` false, `update_gazes()` returns false, makes no system call
and leaves the whole client state (the cached combined and per-eye samples
among it) as it was; in the pipe client and in the socket client. -/
theorem update_gazes_not_connected {G : Type} (hdr : SocketsHeader) (d : Defines)
    (penv : PipeEnv) (senv : SocketEnv) (p : PSVR2EyeTracker G) (pw : PipeWorld)
    (s : PSVR2EyeTrackerSockets G) (sw : SocketWorld)
    (hp : p.is_connected = false) (hs : s.is_connected = false) :
    PSVR2EyeTracker.update_gazes d penv p pw = (false, p, pw)
      ∧ PSVR2EyeTrackerSockets.update_gazes hdr d senv s sw = (false, s, sw) := by
  have hp1 : p.is_connected_ = false := hp
  have hs1 : s.is_connected_ = false := hs
  constructor
  · simp [PSVR2EyeTracker.update_gazes, hp1]
  · simp [PSVR2EyeTrackerSockets.update_gazes, hs1]

/-- C9 at a concrete input: the freshly constructed clients. -/
theorem update_gazes_not_connected_witness :
    freshPipe.is_connected = false ∧ freshSockets.is_connected = false
      ∧ PSVR2EyeTracker.update_gazes sampleDefines errorEnv freshPipe [] = (false, freshPipe, [])
      ∧ PSVR2EyeTrackerSockets.update_gazes sampleHeader sampleDefines errorSocketEnv
          freshSockets [] = (false, freshSockets, []) :=
  ⟨rfl, rfl,
    update_gazes_not_connected sampleHeader sampleDefines errorEnv errorSocketEnv
      freshPipe [] freshSockets [] rfl rfl⟩

/-- C4: a handshake answered with kind `ERROR_` leaves the handle open. On
the fresh pipe client, with a server that opens the pipe on handle 7 and
answers the handshake with a full-size `ERROR_` reply, `connect()` returns
false and `is_connected()` stays false, but the stored handle is 7, not
`INVALID_HANDLE_VALUE`, and no `CloseHandle` was called. The socket client
does the same with its socket: after a complete handshake response of
another kind than `REQUEST_HANDSHAKE_RESULT_` the stored socket is 5, not
`INVALID_SOCKET`, and neither `closesocket` nor `WSACleanup` was called. -/
theorem connect_error_handshake_leaves_handle_open :
    PSVR2EyeTracker.connect sampleDefines errorEnv 1 freshPipe [] =
        some (false, { freshPipe with named_pipe_handle_ := 7 },
          [PipeCall.CreateFile 7, PipeCall.SetNamedPipeHandleState 7,
            PipeCall.WriteFile 7 ⟨RequestType.START_HANDSHAKE_⟩, PipeCall.ReadFile 7])
      ∧ (7 : HANDLE) ≠ INVALID_HANDLE_VALUE
      ∧ PSVR2EyeTrackerSockets.connect sampleHeader sampleDefines errorSocketEnv freshSockets [] =
        (false, { freshSockets with socket_ := 5 },
          [SocketCall.WSAStartup, SocketCall.socket 5, SocketCall.ioctlsocket 5,
            SocketCall.connect 5 3364,
            SocketCall.send 5 (SocketRequest.HandShakeRequest 1 2 1 4242),
            SocketCall.recv 5 0 3])
      ∧ (5 : SOCKET) ≠ INVALID_SOCKET := by
  decide

/-- What `disconnect()` does hold to, in both clients: afterwards
`is_connected_` is false; from a connected client the stored handle is the
invalid one; on a client that is not connected it changes nothing and makes
no system call; and a second `disconnect()` changes nothing. -/
theorem disconnect_spec {G : Type} (p : PSVR2EyeTracker G) (pw : PipeWorld)
    (s : PSVR2EyeTrackerSockets G) (sw : SocketWorld) :
    ((PSVR2EyeTracker.disconnect p pw).1.is_connected_ = false
        ∧ (p.is_connected_ = true →
            (PSVR2EyeTracker.disconnect p pw).1.named_pipe_handle_ = INVALID_HANDLE_VALUE)
        ∧ (p.is_connected_ = false → PSVR2EyeTracker.disconnect p pw = (p, pw))
        ∧ PSVR2EyeTracker.disconnect (PSVR2EyeTracker.disconnect p pw).1
            (PSVR2EyeTracker.disconnect p pw).2 = PSVR2EyeTracker.disconnect p pw)
      ∧ ((PSVR2EyeTrackerSockets.disconnect s sw).1.is_connected_ = false
        ∧ (s.is_connected_ = true →
            (PSVR2EyeTrackerSockets.disconnect s sw).1.socket_ = INVALID_SOCKET)
        ∧ (s.is_connected_ = false → PSVR2EyeTrackerSockets.disconnect s sw = (s, sw))
        ∧ PSVR2EyeTrackerSockets.disconnect (PSVR2EyeTrackerSockets.disconnect s sw).1
            (PSVR2EyeTrackerSockets.disconnect s sw).2
              = PSVR2EyeTrackerSockets.disconnect s sw) := by
  constructor
  · cases hc : p.is_connected_ <;>
      by_cases hh : p.named_pipe_handle_ = INVALID_HANDLE_VALUE <;>
      simp [PSVR2EyeTracker.disconnect, hc, hh]
  · cases hc : s.is_connected_ <;>
      by_cases hh : s.socket_ = INVALID_SOCKET <;>
      simp [PSVR2EyeTrackerSockets.disconnect, hc, hh]

/-- C5: `disconnect()` after a failed `connect()` does not close the
channel. From the fresh pipe client, a `connect()` that fails at the
handshake followed by `disconnect()` ends with `is_connected()` false and the
stored handle 7, not `INVALID_HANDLE_VALUE`; `disconnect()` made no system
call. The socket client likewise keeps socket 5. -/
theorem disconnect_after_failed_connect_keeps_handle :
    (PSVR2EyeTracker.connect sampleDefines errorEnv 1 freshPipe []).map
        (fun r => PSVR2EyeTracker.disconnect r.2.1 r.2.2) =
        some ({ freshPipe with named_pipe_handle_ := 7 },
          [PipeCall.CreateFile 7, PipeCall.SetNamedPipeHandleState 7,
            PipeCall.WriteFile 7 ⟨RequestType.START_HANDSHAKE_⟩, PipeCall.ReadFile 7])
      ∧ (7 : HANDLE) ≠ INVALID_HANDLE_VALUE
      ∧ (PSVR2EyeTrackerSockets.disconnect
          (PSVR2EyeTrackerSockets.connect sampleHeader sampleDefines errorSocketEnv
            freshSockets []).2.1
          (PSVR2EyeTrackerSockets.connect sampleHeader sampleDefines errorSocketEnv
            freshSockets []).2.2).1 = { freshSockets with socket_ := 5 }
      ∧ (5 : SOCKET) ≠ INVALID_SOCKET := by
  decide

/-! ## The handshake -/

/-- The socket client's handshake: `connect_handshake` returns true exactly
when the bytes read within the handshake budget fill the response record, the
record's kind is `REQUEST_HANDSHAKE_RESULT_` and its result code is
`HANDSHAKE_RESULT_SUCCESS_`; and `is_connected_` afterwards is the value
returned. -/
theorem sockets_connect_handshake_iff {G : Type} (hdr : SocketsHeader) (d : Defines)
    (env : SocketEnv) (s : PSVR2EyeTrackerSockets G) (w : SocketWorld)
    (hc : s.is_connected_ = false) :
    ((PSVR2EyeTrackerSockets.connect_handshake hdr d env s w).1 = true ↔
      (0 < hdr.HANDSHAKE_RETRIES
        ∧ (received env hdr.sizeof_HandShakeResponse hdr.HANDSHAKE_RETRIES
            (w.length + 1) []).length = hdr.sizeof_HandShakeResponse)
        ∧ (hdr.HandShakeResponse_of_bytes
            (received env hdr.sizeof_HandShakeResponse hdr.HANDSHAKE_RETRIES
              (w.length + 1) [])).header.type = hdr.REQUEST_HANDSHAKE_RESULT_
        ∧ (hdr.HandShakeResponse_of_bytes
            (received env hdr.sizeof_HandShakeResponse hdr.HANDSHAKE_RETRIES
              (w.length + 1) [])).payload.result = hdr.HANDSHAKE_RESULT_SUCCESS_)
      ∧ (PSVR2EyeTrackerSockets.connect_handshake hdr d env s w).2.1.is_connected_
          = (PSVR2EyeTrackerSockets.connect_handshake hdr d env s w).1 := by
  obtain ⟨h1, h2⟩ := recv_loop_from_start env s.socket_ hdr.sizeof_HandShakeResponse
    hdr.HANDSHAKE_SLEEP_TIME_MS hdr.HANDSHAKE_RETRIES
    (w ++ [SocketCall.send s.socket_
      (SocketRequest.HandShakeRequest hdr.REQUEST_HANDSHAKE_
        hdr.sizeof_HandShakeRequest_payload hdr.IPC_VERSION env.processId)])
  simp only [List.length_append, List.length_singleton] at h1 h2
  simp only [PSVR2EyeTrackerSockets.connect_handshake]
  by_cases hok : 0 < (PSVR2EyeTrackerSockets.recv_loop env s.socket_
      hdr.sizeof_HandShakeResponse hdr.HANDSHAKE_SLEEP_TIME_MS hdr.HANDSHAKE_RETRIES 0
      (List.replicate hdr.sizeof_HandShakeResponse 0)
      (w ++ [SocketCall.send s.socket_
        (SocketRequest.HandShakeRequest hdr.REQUEST_HANDSHAKE_
          hdr.sizeof_HandShakeRequest_payload hdr.IPC_VERSION env.processId)])).1
  · have hfull := h1.mp hok
    have hbuf := h2 hok
    by_cases hk : (hdr.HandShakeResponse_of_bytes
        (received env hdr.sizeof_HandShakeResponse hdr.HANDSHAKE_RETRIES
          (w.length + 1) [])).header.type = hdr.REQUEST_HANDSHAKE_RESULT_
    · by_cases hr : (hdr.HandShakeResponse_of_bytes
          (received env hdr.sizeof_HandShakeResponse hdr.HANDSHAKE_RETRIES
            (w.length + 1) [])).payload.result = hdr.HANDSHAKE_RESULT_SUCCESS_
      · cases hauto : d.ENABLE_PSVR2_EYE_TRACKING_AUTOMATICALLY <;>
          simp [hok, hbuf, hk, hr, hfull.1, hfull.2, TrackerBase.set_enabled]
      · simp [hok, hbuf, hk, hr, hc]
    · simp [hok, hbuf, hk, hc]
  · have hnot : ¬ (0 < hdr.HANDSHAKE_RETRIES
        ∧ (received env hdr.sizeof_HandShakeResponse hdr.HANDSHAKE_RETRIES
            (w.length + 1) []).length = hdr.sizeof_HandShakeResponse) :=
      fun hh => hok (h1.mpr hh)
    simp [hok, hnot, hc]

/-- The pipe client's handshake: once the pipe is open and in message mode,
`connect_handshake` returns true exactly when the request was written, the
read (successful, or failed with `ERROR_MORE_DATA`) delivered
`sizeof(Response)` bytes, and the response's kind is `HANDSHAKE_OK_`; and
`is_connected_` afterwards is the value returned. -/
theorem pipe_connect_handshake_iff {G : Type} (d : Defines) (env : PipeEnv)
    (s : PSVR2EyeTracker G) (w : PipeWorld) (hc : s.is_connected_ = false)
    (hmode : env.SetNamedPipeHandleState w.length = true) :
    ((PSVR2EyeTracker.connect_handshake d env s w).1 = true ↔
      (env.WriteFile (w.length + 1) = true
        ∧ ((env.ReadFile (w.length + 2)).success = true
            ∨ (env.ReadFile (w.length + 2)).lastError = ERROR_MORE_DATA)
        ∧ (env.ReadFile (w.length + 2)).read_size = sizeof_Response)
        ∧ (env.ReadFile (w.length + 2)).buffer.type_ = ResponseType.HANDSHAKE_OK_)
      ∧ (PSVR2EyeTracker.connect_handshake d env s w).2.1.is_connected_
          = (PSVR2EyeTracker.connect_handshake d env s w).1 := by
  simp only [PSVR2EyeTracker.connect_handshake, PSVR2EyeTracker.send_and_receive,
    PSVR2EyeTracker.send_request, PSVR2EyeTracker.receive_request, hmode]
  cases hw : env.WriteFile (w.length + 1) <;>
    cases hs : (env.ReadFile (w.length + 2)).success <;>
    by_cases he : (env.ReadFile (w.length + 2)).lastError = ERROR_MORE_DATA <;>
    by_cases hz : (env.ReadFile (w.length + 2)).read_size = sizeof_Response <;>
    by_cases hk : (env.ReadFile (w.length + 2)).buffer.type_ = ResponseType.HANDSHAKE_OK_ <;>
    cases hauto : d.ENABLE_PSVR2_EYE_TRACKING_AUTOMATICALLY <;>
    simp [hw, hs, he, hz, hk, hc, TrackerBase.set_enabled]

/-- The open loop of the pipe client's `connect()` changes the stored handle
only: `is_connected_` is as before. -/
theorem pipe_connect_pipe_job_is_connected {G : Type} (env : PipeEnv) :
    ∀ (fuel : Nat) (q : PSVR2EyeTracker G) (w : PipeWorld) (r : PSVR2EyeTracker.PipeJob)
      (q1 : PSVR2EyeTracker G) (w1 : PipeWorld),
      PSVR2EyeTracker.connect_pipe_job env fuel q w = some (r, q1, w1) →
        q1.is_connected_ = q.is_connected_ := by
  intro fuel
  induction fuel with
  | zero => intro q w r q1 w1 h; simp [PSVR2EyeTracker.connect_pipe_job] at h
  | succ fuel ih =>
    intro q w r q1 w1 h
    rw [PSVR2EyeTracker.connect_pipe_job] at h
    simp only at h
    split at h
    · simp only [Option.some.injEq, Prod.mk.injEq] at h
      rw [← h.2.1]
    · split at h
      · simp only [Option.some.injEq, Prod.mk.injEq] at h
        rw [← h.2.1]
      · split at h
        · simp only [Option.some.injEq, Prod.mk.injEq] at h
          rw [← h.2.1]
        · have h2 := ih _ _ _ _ _ h
          exact h2

/-- C3: from a disconnected client whose channel was opened, `connect()`
returns true, and sets `is_connected()`, exactly when a complete handshake
response was received with the acknowledged kind and the result code
success; in every other case it returns false and `is_connected()` is false.
Socket client: the channel is open when the `::connect` loop left retries;
the response is complete when the bytes read within `HANDSHAKE_RETRIES`
attempts fill the record. Pipe client: the channel is open when `CreateFile`
gave a handle and the message mode was set; the response is complete when the
request was written and one read delivered `sizeof(Response)` bytes; its
record carries a kind and no result code, and the kind must be
`HANDSHAKE_OK_`. -/
theorem connect_succeeds_iff_handshake_ok {G : Type} (hdr : SocketsHeader) (d : Defines)
    (senv : SocketEnv) (s : PSVR2EyeTrackerSockets G) (sw : SocketWorld)
    (penv : PipeEnv) (fuel : Nat) (p p1 : PSVR2EyeTracker G) (pw pw1 : PipeWorld)
    (hs : s.is_connected = false)
    (hsopen : 0 < (PSVR2EyeTrackerSockets.connect_open hdr senv s sw).1)
    (hp : p.is_connected = false)
    (hpopen : PSVR2EyeTracker.connect_pipe_job penv fuel p pw
      = some (PSVR2EyeTracker.PipeJob.opened, p1, pw1))
    (hmode : penv.SetNamedPipeHandleState pw1.length = true) :
    (((PSVR2EyeTrackerSockets.connect hdr d senv s sw).1 = true ↔
        (0 < hdr.HANDSHAKE_RETRIES
          ∧ (received senv hdr.sizeof_HandShakeResponse hdr.HANDSHAKE_RETRIES
              ((PSVR2EyeTrackerSockets.connect_open hdr senv s sw).2.2.length + 1) []).length
                = hdr.sizeof_HandShakeResponse)
          ∧ (hdr.HandShakeResponse_of_bytes
              (received senv hdr.sizeof_HandShakeResponse hdr.HANDSHAKE_RETRIES
                ((PSVR2EyeTrackerSockets.connect_open hdr senv s sw).2.2.length + 1)
                  [])).header.type = hdr.REQUEST_HANDSHAKE_RESULT_
          ∧ (hdr.HandShakeResponse_of_bytes
              (received senv hdr.sizeof_HandShakeResponse hdr.HANDSHAKE_RETRIES
                ((PSVR2EyeTrackerSockets.connect_open hdr senv s sw).2.2.length + 1)
                  [])).payload.result = hdr.HANDSHAKE_RESULT_SUCCESS_)
      ∧ (PSVR2EyeTrackerSockets.connect hdr d senv s sw).2.1.is_connected
          = (PSVR2EyeTrackerSockets.connect hdr d senv s sw).1)
    ∧ ∃ r p2 pw2, PSVR2EyeTracker.connect d penv fuel p pw = some (r, p2, pw2)
        ∧ (r = true ↔
            (penv.WriteFile (pw1.length + 1) = true
              ∧ ((penv.ReadFile (pw1.length + 2)).success = true
                  ∨ (penv.ReadFile (pw1.length + 2)).lastError = ERROR_MORE_DATA)
              ∧ (penv.ReadFile (pw1.length + 2)).read_size = sizeof_Response)
            ∧ (penv.ReadFile (pw1.length + 2)).buffer.type_ = ResponseType.HANDSHAKE_OK_)
        ∧ p2.is_connected = r := by
  have hs1 : s.is_connected_ = false := hs
  have hp1 : p.is_connected_ = false := hp
  constructor
  · have hopen1 : (PSVR2EyeTrackerSockets.connect_open hdr senv s sw).2.1.is_connected_
        = false := by
      simp [PSVR2EyeTrackerSockets.connect_open, hs1]
    have h := sockets_connect_handshake_iff hdr d senv
      (PSVR2EyeTrackerSockets.connect_open hdr senv s sw).2.1
      (PSVR2EyeTrackerSockets.connect_open hdr senv s sw).2.2 hopen1
    have hc : PSVR2EyeTrackerSockets.connect hdr d senv s sw
        = PSVR2EyeTrackerSockets.connect_handshake hdr d senv
            (PSVR2EyeTrackerSockets.connect_open hdr senv s sw).2.1
            (PSVR2EyeTrackerSockets.connect_open hdr senv s sw).2.2 := by
      simp [PSVR2EyeTrackerSockets.connect, hs1, hsopen]
    rw [hc]
    exact h
  · have hjob1 : p1.is_connected_ = false := by
      rw [pipe_connect_pipe_job_is_connected penv fuel p pw _ p1 pw1 hpopen, hp1]
    have h := pipe_connect_handshake_iff d penv p1 pw1 hjob1 hmode
    refine ⟨(PSVR2EyeTracker.connect_handshake d penv p1 pw1).1,
      (PSVR2EyeTracker.connect_handshake d penv p1 pw1).2.1,
      (PSVR2EyeTracker.connect_handshake d penv p1 pw1).2.2, ?_, h.1, h.2⟩
    simp [PSVR2EyeTracker.connect, hp1, hpopen]

/-- C3 at a concrete input: the fresh clients, with servers that accept the
connection and acknowledge the handshake. -/
theorem connect_succeeds_iff_handshake_ok_witness :
    freshSockets.is_connected = false
      ∧ 0 < (PSVR2EyeTrackerSockets.connect_open sampleHeader okSocketEnv freshSockets []).1
      ∧ freshPipe.is_connected = false
      ∧ PSVR2EyeTracker.connect_pipe_job okEnv 1 freshPipe []
          = some (PSVR2EyeTracker.PipeJob.opened, { freshPipe with named_pipe_handle_ := 7 },
              [PipeCall.CreateFile 7])
      ∧ (PSVR2EyeTrackerSockets.connect sampleHeader sampleDefines okSocketEnv
            freshSockets []).2.1.is_connected
          = (PSVR2EyeTrackerSockets.connect sampleHeader sampleDefines okSocketEnv
            freshSockets []).1
      ∧ ∃ r p2 pw2, PSVR2EyeTracker.connect sampleDefines okEnv 1 freshPipe [] = some (r, p2, pw2)
          ∧ p2.is_connected = r :=
  ⟨rfl, by decide, rfl, by decide,
    (connect_succeeds_iff_handshake_ok sampleHeader sampleDefines okSocketEnv freshSockets []
      okEnv 1 freshPipe { freshPipe with named_pipe_handle_ := 7 } [] [PipeCall.CreateFile 7]
      rfl (by decide) rfl (by decide) rfl).1.2,
    (connect_succeeds_iff_handshake_ok sampleHeader sampleDefines okSocketEnv freshSockets []
      okEnv 1 freshPipe { freshPipe with named_pipe_handle_ := 7 } [] [PipeCall.CreateFile 7]
      rfl (by decide) rfl (by decide) rfl).2.elim
      fun r h => h.elim fun p2 h => h.elim fun pw2 h => ⟨r, p2, pw2, h.1, h.2.2⟩⟩

/-! ## Partial reads -/

/-- C6: partial reads of a gaze response are accumulated across retries. In
the socket client's `update_gazes()` on a connected client, let the bytes
read by the first `k` attempts not fill the record and those read by the
first `k + 1` attempts fill it. If attempt `k + 1` is within the budget
`GET_GAZE_RETRIES`, the `recv` loop ends at that attempt and not before
(`update_gazes()` makes exactly `k + 1` calls of `recv`), the buffer holds
the bytes read, in the order read, and `update_gazes()` returns true exactly
when the kind of that record is `REQUEST_GAZES_RESULT_`. If the budget is
`k` attempts or fewer, `update_gazes()` returns false. -/
theorem partial_reads_accumulate {G : Type} (hdr : SocketsHeader) (d : Defines)
    (env : SocketEnv) (s : PSVR2EyeTrackerSockets G) (w : SocketWorld) (k : Nat)
    (hc : s.is_connected = true)
    (h1 : (received env hdr.sizeof_GazeResponse k (w.length + 1) []).length
        < hdr.sizeof_GazeResponse)
    (h2 : hdr.sizeof_GazeResponse
        ≤ (received env hdr.sizeof_GazeResponse (k + 1) (w.length + 1) []).length) :
    (k < hdr.GET_GAZE_RETRIES →
        (PSVR2EyeTrackerSockets.recv_loop env s.socket_ hdr.sizeof_GazeResponse
            hdr.GET_GAZE_SLEEP_TIME_MS hdr.GET_GAZE_RETRIES 0
            (List.replicate hdr.sizeof_GazeResponse 0)
            (w ++ [SocketCall.send s.socket_
              (SocketRequest.GazeRequest hdr.REQUEST_GAZES_ 0)])).2.2.1
          = received env hdr.sizeof_GazeResponse (k + 1) (w.length + 1) []
        ∧ (PSVR2EyeTrackerSockets.update_gazes hdr d env s w).2.2.countP SocketCall.is_recv
            = w.countP SocketCall.is_recv + (k + 1)
        ∧ ((PSVR2EyeTrackerSockets.update_gazes hdr d env s w).1 = true ↔
            (hdr.GazeResponse_of_bytes
              (received env hdr.sizeof_GazeResponse (k + 1) (w.length + 1) [])).header.type
              = hdr.REQUEST_GAZES_RESULT_))
      ∧ (hdr.GET_GAZE_RETRIES ≤ k →
          (PSVR2EyeTrackerSockets.update_gazes hdr d env s w).1 = false) := by
  have hc1 : s.is_connected_ = true := hc
  have hiff := sockets_update_gazes_accepts_iff hdr d env s w hc1
  have hfullk : (received env hdr.sizeof_GazeResponse (k + 1) (w.length + 1) []).length
      = hdr.sizeof_GazeResponse :=
    le_antisymm (received_length_le env _ (k + 1) (w.length + 1) [] (Nat.zero_le _)) h2
  -- once the record is full, further attempts read nothing
  have hstable : ∀ n, k + 1 ≤ n →
      received env hdr.sizeof_GazeResponse n (w.length + 1) []
        = received env hdr.sizeof_GazeResponse (k + 1) (w.length + 1) [] := by
    have gen : ∀ (j m t : Nat) (acc : List Byte),
        hdr.sizeof_GazeResponse ≤ (received env hdr.sizeof_GazeResponse j t acc).length →
        received env hdr.sizeof_GazeResponse (j + m) t acc
          = received env hdr.sizeof_GazeResponse j t acc := by
      intro j
      induction j with
      | zero =>
        intro m t acc h
        simp only [received] at h
        simp only [Nat.zero_add, received]
        exact received_full env _ m t acc h
      | succ j ih =>
        intro m t acc h
        have e : j + 1 + m = (j + m) + 1 := by omega
        rw [e]
        simp only [received] at h ⊢
        exact ih m _ _ h
    intro n hn
    obtain ⟨m, rfl⟩ : ∃ m, n = (k + 1) + m := ⟨n - (k + 1), by omega⟩
    exact gen (k + 1) m _ _ h2
  -- before attempt `k + 1`, the record is not full
  have hshort : ∀ n, n ≤ k →
      (received env hdr.sizeof_GazeResponse n (w.length + 1) []).length
        < hdr.sizeof_GazeResponse := by
    have gen : ∀ (j m t : Nat) (acc : List Byte),
        (received env hdr.sizeof_GazeResponse j t acc).length
          ≤ (received env hdr.sizeof_GazeResponse (j + m) t acc).length := by
      intro j
      induction j with
      | zero =>
        intro m t acc
        simp only [Nat.zero_add, received]
        exact received_length_ge env _ m t acc
      | succ j ih =>
        intro m t acc
        have e : j + 1 + m = (j + m) + 1 := by omega
        rw [e]
        simp only [received]
        exact ih m _ _
    intro n hn
    obtain ⟨m, rfl⟩ : ∃ m, k = n + m := ⟨k - n, by omega⟩
    exact lt_of_le_of_lt (gen n m _ _) h1
  constructor
  · intro hk
    have hatt := PSVR2EyeTrackerSockets.recv_loop_attempts env s.socket_
      hdr.sizeof_GazeResponse hdr.GET_GAZE_SLEEP_TIME_MS k hdr.GET_GAZE_RETRIES []
      (List.replicate hdr.sizeof_GazeResponse 0)
      (w ++ [SocketCall.send s.socket_ (SocketRequest.GazeRequest hdr.REQUEST_GAZES_ 0)])
      (by simp) (by simpa using h1) (by simpa using h2) hk
    simp only [List.length_nil, List.nil_append] at hatt
    obtain ⟨hleft, -, hcount⟩ := hatt
    obtain ⟨-, hbuf⟩ := recv_loop_from_start env s.socket_ hdr.sizeof_GazeResponse
      hdr.GET_GAZE_SLEEP_TIME_MS hdr.GET_GAZE_RETRIES
      (w ++ [SocketCall.send s.socket_ (SocketRequest.GazeRequest hdr.REQUEST_GAZES_ 0)])
    simp only [List.length_append, List.length_singleton] at hbuf
    have hst := hstable hdr.GET_GAZE_RETRIES (by omega)
    refine ⟨?_, ?_, ?_⟩
    · rw [hbuf (by rw [hleft]; omega), hst]
    · have hw : (PSVR2EyeTrackerSockets.update_gazes hdr d env s w).2.2
          = (PSVR2EyeTrackerSockets.recv_loop env s.socket_ hdr.sizeof_GazeResponse
              hdr.GET_GAZE_SLEEP_TIME_MS hdr.GET_GAZE_RETRIES 0
              (List.replicate hdr.sizeof_GazeResponse 0)
              (w ++ [SocketCall.send s.socket_
                (SocketRequest.GazeRequest hdr.REQUEST_GAZES_ 0)])).2.2.2 := by
        simp only [PSVR2EyeTrackerSockets.update_gazes, hc1, Bool.not_true,
          Bool.false_eq_true, if_false]
        split <;> rfl
      rw [hw, hcount]
      simp [SocketCall.is_recv]
    · rw [hiff, hst]
      constructor
      · intro hh; exact hh.2
      · intro hh; exact ⟨⟨by omega, hfullk⟩, hh⟩
  · intro hk
    have hlt := hshort hdr.GET_GAZE_RETRIES hk
    have hne : ¬ (PSVR2EyeTrackerSockets.update_gazes hdr d env s w).1 = true := by
      rw [hiff]
      intro hh
      omega
    simpa using hne

/-- C6 at the input of the claim: the first read delivers all but 3 bytes of
the record, the second nothing, the third the last 3 bytes; with a budget of
3 attempts `update_gazes()` accepts at the third attempt. -/
theorem partial_reads_accumulate_witness :
    connectedSockets.is_connected = true
      ∧ received partialEnv sampleHeader.sizeof_GazeResponse 1 1 [] = [4, 6, 10, 20, 30]
      ∧ received partialEnv sampleHeader.sizeof_GazeResponse 2 1 [] = [4, 6, 10, 20, 30]
      ∧ received partialEnv sampleHeader.sizeof_GazeResponse 3 1 []
          = [4, 6, 10, 20, 30, 40, 50, 60]
      ∧ (PSVR2EyeTrackerSockets.update_gazes sampleHeader sampleDefines partialEnv
          connectedSockets []).2.2.countP SocketCall.is_recv = 3
      ∧ (PSVR2EyeTrackerSockets.update_gazes sampleHeader sampleDefines partialEnv
          connectedSockets []).1 = true :=
  ⟨rfl, by decide, by decide, by decide,
    ((partial_reads_accumulate sampleHeader sampleDefines partialEnv connectedSockets [] 2
      rfl (by decide) (by decide)).1 (by decide)).2.1,
    ((partial_reads_accumulate sampleHeader sampleDefines partialEnv connectedSockets [] 2
      rfl (by decide) (by decide)).1 (by decide)).2.2.mpr (by decide)⟩

/-! ## Retry bounds -/

/-- While the pipe is busy the open loop of the pipe client goes on: `k` busy
rounds use up `k` iterations, `2 * k` system calls and `k` calls of
`CreateFile`. -/
theorem pipe_job_busy_rounds {G : Type} (env : PipeEnv) :
    ∀ (k fuel : Nat) (s : PSVR2EyeTracker G) (w : PipeWorld),
      (∀ j, j < k → busy_at env (w.length + 2 * j)) →
      ∃ (s1 : PSVR2EyeTracker G) (w1 : PipeWorld),
        PSVR2EyeTracker.connect_pipe_job env (k + fuel) s w
            = PSVR2EyeTracker.connect_pipe_job env fuel s1 w1
          ∧ s1.toTrackerBase = s.toTrackerBase
          ∧ w1.length = w.length + 2 * k
          ∧ w1.countP PipeCall.is_CreateFile = w.countP PipeCall.is_CreateFile + k := by
  intro k
  induction k with
  | zero =>
    intro fuel s w _
    exact ⟨s, w, by rw [Nat.zero_add], rfl, rfl, rfl⟩
  | succ k ih =>
    intro fuel s w hbusy
    obtain ⟨hb1, hb2, hb3⟩ := hbusy 0 (Nat.succ_pos k)
    simp only [Nat.mul_zero, Nat.add_zero] at hb1 hb2 hb3
    have e : k + 1 + fuel = (k + fuel) + 1 := by omega
    rw [e, PSVR2EyeTracker.connect_pipe_job]
    simp only [hb1, hb2, ne_eq, not_true_eq_false, if_false, List.length_append,
      List.length_singleton, hb3, Bool.not_true, Bool.false_eq_true]
    obtain ⟨s1, w1, h1, h2, h3, h4⟩ := ih fuel
      ({ s with named_pipe_handle_ := INVALID_HANDLE_VALUE } : PSVR2EyeTracker G)
      (w ++ [PipeCall.CreateFile INVALID_HANDLE_VALUE]
        ++ [PipeCall.WaitNamedPipe PSVR2_SERVER_CONNECT_WAIT_TIME])
      (by
        intro j hj
        have := hbusy (j + 1) (by omega)
        simp only [List.length_append, List.length_singleton]
        have e2 : w.length + 1 + 1 + 2 * j = w.length + 2 * (j + 1) := by omega
        rw [e2]
        exact this)
    refine ⟨s1, w1, h1, h2, ?_, ?_⟩
    · rw [h3]
      simp only [List.length_append, List.length_singleton]
      omega
    · rw [h4]
      simp [PipeCall.is_CreateFile]
      omega

/-- When the pipe is not busy the open loop of the pipe client ends in this
iteration, after one `CreateFile` and at most one `WaitNamedPipe`; it ends
opened exactly when `CreateFile` gave a handle. -/
theorem pipe_job_ends {G : Type} (env : PipeEnv) (fuel : Nat) (s : PSVR2EyeTracker G)
    (w : PipeWorld) (h : ¬ busy_at env w.length) :
    ∃ (r : PSVR2EyeTracker.PipeJob) (s1 : PSVR2EyeTracker G) (w1 : PipeWorld),
      PSVR2EyeTracker.connect_pipe_job env (fuel + 1) s w = some (r, s1, w1)
        ∧ s1.toTrackerBase = s.toTrackerBase
        ∧ w1.length ≤ w.length + 2
        ∧ w1.countP PipeCall.is_CreateFile = w.countP PipeCall.is_CreateFile + 1
        ∧ (r = PSVR2EyeTracker.PipeJob.opened
            ↔ (env.CreateFile w.length).1 ≠ INVALID_HANDLE_VALUE) := by
  rw [PSVR2EyeTracker.connect_pipe_job]
  simp only
  by_cases h1 : (env.CreateFile w.length).1 = INVALID_HANDLE_VALUE
  · by_cases h2 : (env.CreateFile w.length).2 = ERROR_PIPE_BUSY
    · have h3 : env.WaitNamedPipe (w.length + 1) = false := by
        cases hw : env.WaitNamedPipe (w.length + 1)
        · rfl
        · exact absurd ⟨h1, h2, hw⟩ h
      refine ⟨PSVR2EyeTracker.PipeJob.failed,
        { s with named_pipe_handle_ := (env.CreateFile w.length).1 },
        w ++ [PipeCall.CreateFile (env.CreateFile w.length).1]
          ++ [PipeCall.WaitNamedPipe PSVR2_SERVER_CONNECT_WAIT_TIME], ?_, rfl, ?_, ?_, ?_⟩
      · simp [h1, h2, h3]
      · simp
      · simp [PipeCall.is_CreateFile]
      · simp [h1]
    · refine ⟨PSVR2EyeTracker.PipeJob.failed,
        { s with named_pipe_handle_ := (env.CreateFile w.length).1 },
        w ++ [PipeCall.CreateFile (env.CreateFile w.length).1], ?_, rfl, ?_, ?_, ?_⟩
      · simp [h1, h2]
      · simp
      · simp [PipeCall.is_CreateFile]
      · simp [h1]
  · refine ⟨PSVR2EyeTracker.PipeJob.opened,
      { s with named_pipe_handle_ := (env.CreateFile w.length).1 },
      w ++ [PipeCall.CreateFile (env.CreateFile w.length).1], ?_, rfl, ?_, ?_, ?_⟩
    · simp [h1]
    · simp
    · simp [PipeCall.is_CreateFile]
    · simp [h1]

/-- The handshake part of the pipe client's `connect()` makes at most three
system calls, none of them `CreateFile`. -/
theorem pipe_connect_handshake_calls {G : Type} (d : Defines) (env : PipeEnv)
    (s : PSVR2EyeTracker G) (w : PipeWorld) :
    (PSVR2EyeTracker.connect_handshake d env s w).2.2.length ≤ w.length + 3
      ∧ (PSVR2EyeTracker.connect_handshake d env s w).2.2.countP PipeCall.is_CreateFile
          = w.countP PipeCall.is_CreateFile := by
  simp only [PSVR2EyeTracker.connect_handshake, PSVR2EyeTracker.send_and_receive,
    PSVR2EyeTracker.send_request, PSVR2EyeTracker.receive_request]
  cases hm : env.SetNamedPipeHandleState w.length <;>
    cases hw : env.WriteFile (w.length + 1) <;>
    cases hs : (env.ReadFile (w.length + 2)).success <;>
    by_cases he : (env.ReadFile (w.length + 2)).lastError = ERROR_MORE_DATA <;>
    by_cases hz : (env.ReadFile (w.length + 2)).read_size = sizeof_Response <;>
    by_cases hk : (env.ReadFile (w.length + 2)).buffer.type_ = ResponseType.HANDSHAKE_OK_ <;>
    simp [hm, hw, hs, he, hz, hk, PipeCall.is_CreateFile]

/-- The pipe client's `connect()` returns at the first open attempt at which
the pipe is not busy: after `k` busy rounds and one more attempt it has called
`CreateFile` exactly `k + 1` times. -/
theorem pipe_connect_returns {G : Type} (d : Defines) (env : PipeEnv) (k fuel : Nat)
    (s : PSVR2EyeTracker G) (w : PipeWorld) (hc : s.is_connected_ = false)
    (hbusy : ∀ j, j < k → busy_at env (w.length + 2 * j))
    (hend : ¬ busy_at env (w.length + 2 * k)) (hfuel : k < fuel) :
    ∃ r, PSVR2EyeTracker.connect d env fuel s w = some r
      ∧ r.2.2.countP PipeCall.is_CreateFile = w.countP PipeCall.is_CreateFile + (k + 1)
      ∧ r.2.2.length ≤ w.length + 2 * k + 5 := by
  obtain ⟨f, rfl⟩ : ∃ f, fuel = k + (f + 1) := ⟨fuel - k - 1, by omega⟩
  obtain ⟨s1, w1, h1, -, h3, h4⟩ := pipe_job_busy_rounds env k (f + 1) s w hbusy
  obtain ⟨r, s2, w2, e1, -, e3, e4, -⟩ := pipe_job_ends env f s1 w1 (by rw [h3]; exact hend)
  have hjob : PSVR2EyeTracker.connect_pipe_job env (k + (f + 1)) s w = some (r, s2, w2) := by
    rw [h1, e1]
  cases r with
  | failed =>
    refine ⟨(false, s2, w2), ?_, ?_, ?_⟩
    · simp [PSVR2EyeTracker.connect, hc, hjob]
    · simp only [e4, h4]; omega
    · simp only; omega
  | opened =>
    obtain ⟨c1, c2⟩ := pipe_connect_handshake_calls d env s2 w2
    refine ⟨PSVR2EyeTracker.connect_handshake d env s2 w2, ?_, ?_, ?_⟩
    · simp [PSVR2EyeTracker.connect, hc, hjob]
    · rw [c2, e4, h4]; omega
    · omega

/-- The channel-opening part of the socket client's `connect()` makes at
most `3 + 2 * SOCKET_CONNECT_RETRIES` system calls, at most
`SOCKET_CONNECT_RETRIES` of them `::connect` and none of them `recv`. -/
theorem sockets_connect_open_bound {G : Type} (hdr : SocketsHeader) (env : SocketEnv)
    (s : PSVR2EyeTrackerSockets G) (w : SocketWorld) :
    (PSVR2EyeTrackerSockets.connect_open hdr env s w).2.2.length
        ≤ w.length + (3 + 2 * hdr.SOCKET_CONNECT_RETRIES)
      ∧ (PSVR2EyeTrackerSockets.connect_open hdr env s w).2.2.countP SocketCall.is_connect
          ≤ w.countP SocketCall.is_connect + hdr.SOCKET_CONNECT_RETRIES
      ∧ (PSVR2EyeTrackerSockets.connect_open hdr env s w).2.2.countP SocketCall.is_recv
          = w.countP SocketCall.is_recv := by
  simp only [PSVR2EyeTrackerSockets.connect_open]
  refine ⟨le_trans (PSVR2EyeTrackerSockets.connect_loop_bound hdr env _ _ _).1 ?_,
    le_trans (PSVR2EyeTrackerSockets.connect_loop_bound hdr env _ _ _).2.1 ?_,
    (PSVR2EyeTrackerSockets.connect_loop_bound hdr env _ _ _).2.2.trans ?_⟩
  · simp only [List.length_append, List.length_singleton]; omega
  · simp [SocketCall.is_connect]
  · simp [SocketCall.is_recv]

/-- The handshake part of the socket client's `connect()` makes at most
`1 + 2 * HANDSHAKE_RETRIES` system calls, at most `HANDSHAKE_RETRIES` of them
`recv` and none of them `::connect`. -/
theorem sockets_connect_handshake_bound {G : Type} (hdr : SocketsHeader) (d : Defines)
    (env : SocketEnv) (s : PSVR2EyeTrackerSockets G) (w : SocketWorld) :
    (PSVR2EyeTrackerSockets.connect_handshake hdr d env s w).2.2.length
        ≤ w.length + (1 + 2 * hdr.HANDSHAKE_RETRIES)
      ∧ (PSVR2EyeTrackerSockets.connect_handshake hdr d env s w).2.2.countP SocketCall.is_recv
          ≤ w.countP SocketCall.is_recv + hdr.HANDSHAKE_RETRIES
      ∧ (PSVR2EyeTrackerSockets.connect_handshake hdr d env s w).2.2.countP SocketCall.is_connect
          = w.countP SocketCall.is_connect := by
  have hw : (PSVR2EyeTrackerSockets.connect_handshake hdr d env s w).2.2
      = (PSVR2EyeTrackerSockets.recv_loop env s.socket_
          hdr.sizeof_HandShakeResponse hdr.HANDSHAKE_SLEEP_TIME_MS hdr.HANDSHAKE_RETRIES 0
          (List.replicate hdr.sizeof_HandShakeResponse 0)
          (w ++ [SocketCall.send s.socket_
              (SocketRequest.HandShakeRequest hdr.REQUEST_HANDSHAKE_
                hdr.sizeof_HandShakeRequest_payload hdr.IPC_VERSION env.processId)])).2.2.2 := by
    simp only [PSVR2EyeTrackerSockets.connect_handshake]
    split <;> rfl
  rw [hw]
  refine ⟨le_trans (PSVR2EyeTrackerSockets.recv_loop_bound env _ _ _ _ _ _ _).1 ?_,
    le_trans (PSVR2EyeTrackerSockets.recv_loop_bound env _ _ _ _ _ _ _).2.1 ?_,
    (PSVR2EyeTrackerSockets.recv_loop_bound env _ _ _ _ _ _ _).2.2.trans ?_⟩
  · simp only [List.length_append, List.length_singleton]; omega
  · simp [SocketCall.is_recv]
  · simp [SocketCall.is_connect]

/-- The socket client's `connect()` makes at most
`4 + 2 * SOCKET_CONNECT_RETRIES + 2 * HANDSHAKE_RETRIES` system calls, at most
`SOCKET_CONNECT_RETRIES` of them `::connect` and at most `HANDSHAKE_RETRIES`
of them `recv`. -/
theorem sockets_connect_bound {G : Type} (hdr : SocketsHeader) (d : Defines) (env : SocketEnv)
    (s : PSVR2EyeTrackerSockets G) (w : SocketWorld) :
    (PSVR2EyeTrackerSockets.connect hdr d env s w).2.2.length
        ≤ w.length + (4 + 2 * hdr.SOCKET_CONNECT_RETRIES + 2 * hdr.HANDSHAKE_RETRIES)
      ∧ (PSVR2EyeTrackerSockets.connect hdr d env s w).2.2.countP SocketCall.is_connect
          ≤ w.countP SocketCall.is_connect + hdr.SOCKET_CONNECT_RETRIES
      ∧ (PSVR2EyeTrackerSockets.connect hdr d env s w).2.2.countP SocketCall.is_recv
          ≤ w.countP SocketCall.is_recv + hdr.HANDSHAKE_RETRIES := by
  obtain ⟨o1, o2, o3⟩ := sockets_connect_open_bound hdr env s w
  cases hc : s.is_connected_
  · by_cases hopen : 0 < (PSVR2EyeTrackerSockets.connect_open hdr env s w).1
    · have hcon : PSVR2EyeTrackerSockets.connect hdr d env s w
          = PSVR2EyeTrackerSockets.connect_handshake hdr d env
              (PSVR2EyeTrackerSockets.connect_open hdr env s w).2.1
              (PSVR2EyeTrackerSockets.connect_open hdr env s w).2.2 := by
        simp [PSVR2EyeTrackerSockets.connect, hc, hopen]
      rw [hcon]
      obtain ⟨r1, r2, r3⟩ := sockets_connect_handshake_bound hdr d env
        (PSVR2EyeTrackerSockets.connect_open hdr env s w).2.1
        (PSVR2EyeTrackerSockets.connect_open hdr env s w).2.2
      refine ⟨?_, ?_, ?_⟩ <;> omega
    · have hcon : PSVR2EyeTrackerSockets.connect hdr d env s w
          = (false, (PSVR2EyeTrackerSockets.connect_open hdr env s w).2.1,
              (PSVR2EyeTrackerSockets.connect_open hdr env s w).2.2) := by
        simp [PSVR2EyeTrackerSockets.connect, hc, hopen]
      rw [hcon]
      refine ⟨?_, ?_, ?_⟩ <;> simp only <;> omega
  · have hcon : PSVR2EyeTrackerSockets.connect hdr d env s w = (true, s, w) := by
      simp [PSVR2EyeTrackerSockets.connect, hc]
    rw [hcon]
    simp

/-- The socket client's `update_gazes()` makes at most
`1 + 2 * GET_GAZE_RETRIES` system calls, at most `GET_GAZE_RETRIES` of them
`recv`. -/
theorem sockets_update_gazes_bound {G : Type} (hdr : SocketsHeader) (d : Defines)
    (env : SocketEnv) (s : PSVR2EyeTrackerSockets G) (w : SocketWorld) :
    (PSVR2EyeTrackerSockets.update_gazes hdr d env s w).2.2.length
        ≤ w.length + (1 + 2 * hdr.GET_GAZE_RETRIES)
      ∧ (PSVR2EyeTrackerSockets.update_gazes hdr d env s w).2.2.countP SocketCall.is_recv
          ≤ w.countP SocketCall.is_recv + hdr.GET_GAZE_RETRIES := by
  cases hc : s.is_connected_
  · simp [PSVR2EyeTrackerSockets.update_gazes, hc]
  · have hw : (PSVR2EyeTrackerSockets.update_gazes hdr d env s w).2.2
        = (PSVR2EyeTrackerSockets.recv_loop env s.socket_ hdr.sizeof_GazeResponse
            hdr.GET_GAZE_SLEEP_TIME_MS hdr.GET_GAZE_RETRIES 0
            (List.replicate hdr.sizeof_GazeResponse 0)
            (w ++ [SocketCall.send s.socket_
              (SocketRequest.GazeRequest hdr.REQUEST_GAZES_ 0)])).2.2.2 := by
      simp only [PSVR2EyeTrackerSockets.update_gazes, hc, Bool.not_true,
        Bool.false_eq_true, if_false]
      split <;> rfl
    rw [hw]
    refine ⟨le_trans (PSVR2EyeTrackerSockets.recv_loop_bound env _ _ _ _ _ _ _).1 ?_,
      le_trans (PSVR2EyeTrackerSockets.recv_loop_bound env _ _ _ _ _ _ _).2.1 ?_⟩
    · simp only [List.length_append, List.length_singleton]; omega
    · simp [SocketCall.is_recv]

/-- The pipe client's `update_gazes()` makes at most two system calls: one
`WriteFile` and at most one `ReadFile`. -/
theorem pipe_update_gazes_bound {G : Type} (d : Defines) (env : PipeEnv)
    (s : PSVR2EyeTracker G) (w : PipeWorld) :
    (PSVR2EyeTracker.update_gazes d env s w).2.2.length ≤ w.length + 2
      ∧ (PSVR2EyeTracker.update_gazes d env s w).2.2.countP PipeCall.is_ReadFile
          ≤ w.countP PipeCall.is_ReadFile + 1 := by
  simp only [PSVR2EyeTracker.update_gazes, PSVR2EyeTracker.send_and_receive,
    PSVR2EyeTracker.send_request, PSVR2EyeTracker.receive_request]
  cases hc : s.is_connected_ <;>
    cases hw : env.WriteFile w.length <;>
    cases hs : (env.ReadFile (w.length + 1)).success <;>
    by_cases he : (env.ReadFile (w.length + 1)).lastError = ERROR_MORE_DATA <;>
    by_cases hz : (env.ReadFile (w.length + 1)).read_size = sizeof_Response <;>
    simp [hc, hw, hs, he, hz, PipeCall.is_ReadFile]

/-- C7, as amended: the socket client's `connect()` and `update_gazes()` and
the pipe client's `update_gazes()` return after a number of attempts bounded
by constants of the code, whatever the environment answers: at most
`SOCKET_CONNECT_RETRIES` calls of `::connect` and `HANDSHAKE_RETRIES` calls of
`recv`; at most `GET_GAZE_RETRIES` calls of `recv`; at most one `ReadFile`.
The pipe client's `connect()` repeats `CreateFile` for as long as the pipe is
busy and returns at the first attempt at which it is not: after `k` busy
rounds it returns with at most `k + 1` calls of `CreateFile`. -/
theorem retries_bounded {G : Type} (hdr : SocketsHeader) (d : Defines) (senv : SocketEnv)
    (s : PSVR2EyeTrackerSockets G) (sw : SocketWorld) (penv : PipeEnv)
    (p : PSVR2EyeTracker G) (pw : PipeWorld) (k fuel : Nat)
    (hbusy : ∀ j, j < k → busy_at penv (pw.length + 2 * j))
    (hend : ¬ busy_at penv (pw.length + 2 * k)) (hfuel : k < fuel) :
    ((PSVR2EyeTrackerSockets.connect hdr d senv s sw).2.2.length
          ≤ sw.length + (4 + 2 * hdr.SOCKET_CONNECT_RETRIES + 2 * hdr.HANDSHAKE_RETRIES)
        ∧ (PSVR2EyeTrackerSockets.connect hdr d senv s sw).2.2.countP SocketCall.is_connect
            ≤ sw.countP SocketCall.is_connect + hdr.SOCKET_CONNECT_RETRIES
        ∧ (PSVR2EyeTrackerSockets.connect hdr d senv s sw).2.2.countP SocketCall.is_recv
            ≤ sw.countP SocketCall.is_recv + hdr.HANDSHAKE_RETRIES)
      ∧ ((PSVR2EyeTrackerSockets.update_gazes hdr d senv s sw).2.2.length
            ≤ sw.length + (1 + 2 * hdr.GET_GAZE_RETRIES)
          ∧ (PSVR2EyeTrackerSockets.update_gazes hdr d senv s sw).2.2.countP SocketCall.is_recv
              ≤ sw.countP SocketCall.is_recv + hdr.GET_GAZE_RETRIES)
      ∧ ((PSVR2EyeTracker.update_gazes d penv p pw).2.2.length ≤ pw.length + 2
          ∧ (PSVR2EyeTracker.update_gazes d penv p pw).2.2.countP PipeCall.is_ReadFile
              ≤ pw.countP PipeCall.is_ReadFile + 1)
      ∧ ∃ r, PSVR2EyeTracker.connect d penv fuel p pw = some r
          ∧ r.2.2.countP PipeCall.is_CreateFile ≤ pw.countP PipeCall.is_CreateFile + (k + 1)
          ∧ r.2.2.length ≤ pw.length + 2 * k + 5 := by
  refine ⟨sockets_connect_bound hdr d senv s sw, sockets_update_gazes_bound hdr d senv s sw,
    pipe_update_gazes_bound d penv p pw, ?_⟩
  cases hc : p.is_connected_
  · obtain ⟨r, h1, h2, h3⟩ := pipe_connect_returns d penv k fuel p pw hc hbusy hend hfuel
    exact ⟨r, h1, le_of_eq h2, h3⟩
  · refine ⟨(true, p, pw), ?_, ?_, ?_⟩
    · simp [PSVR2EyeTracker.connect, hc]
    · simp only; omega
    · simp only; omega

/-- C7 at a concrete input: the fresh clients, with a pipe that is busy for
two rounds and is opened at the third attempt. -/
theorem retries_bounded_witness :
    (∀ j, j < 2 → busy_at (busyFor 2) (([] : PipeWorld).length + 2 * j))
      ∧ ¬ busy_at (busyFor 2) (([] : PipeWorld).length + 2 * 2)
      ∧ ∃ r, PSVR2EyeTracker.connect sampleDefines (busyFor 2) 3 freshPipe [] = some r
          ∧ r.2.2.countP PipeCall.is_CreateFile
              ≤ ([] : PipeWorld).countP PipeCall.is_CreateFile + (2 + 1)
          ∧ r.2.2.length ≤ ([] : PipeWorld).length + 2 * 2 + 5 :=
  ⟨by decide, by decide,
    (retries_bounded sampleHeader sampleDefines okSocketEnv freshSockets [] (busyFor 2)
      freshPipe [] 2 3 (by decide) (by decide) (by decide)).2.2.2⟩

/-- C7 as stated fails for the pipe client's `connect()`: no constant bounds
its attempts. For every `N` there is a server (the pipe busy for `N + 1`
rounds, then opened) with which `connect()` on the fresh client returns after
more than `N` calls of `CreateFile`. -/
theorem pipe_connect_attempts_unbounded :
    ¬ ∃ N : Nat, ∀ (env : PipeEnv) (fuel : Nat)
        (r : Bool × PSVR2EyeTracker Unit × PipeWorld),
        PSVR2EyeTracker.connect sampleDefines env fuel freshPipe [] = some r →
          r.2.2.countP PipeCall.is_CreateFile ≤ N := by
  rintro ⟨N, hN⟩
  have hbusy : ∀ j, j < N + 1 → busy_at (busyFor (N + 1)) (([] : PipeWorld).length + 2 * j) := by
    intro j hj
    have hlt : 2 * j < 2 * (N + 1) := by omega
    simp [busy_at, busyFor, hlt]
  have hend : ¬ busy_at (busyFor (N + 1)) (([] : PipeWorld).length + 2 * (N + 1)) := by
    simp [busy_at, busyFor, INVALID_HANDLE_VALUE]
  obtain ⟨r, h1, h2, -⟩ := pipe_connect_returns sampleDefines (busyFor (N + 1)) (N + 1) (N + 2)
    freshPipe [] rfl hbusy hend (by omega)
  have := hN (busyFor (N + 1)) (N + 2) r h1
  rw [h2] at this
  simp only [List.countP_nil, Nat.zero_add] at this
  omega

/-! ## Errors that are not the try-again signal -/

namespace TrackerBase

variable {G P : Type}

/-- The index of the calibrating eye is `INVALID_INDEX` or indexes
`calibrations_`. -/
theorem index_cases (i : Int)
    (h : i = INVALID_INDEX ∨ (0 ≤ i ∧ i < NUM_CALIBRATIONS)) :
    i = -1 ∨ i = 0 ∨ i = 1 ∨ i = 2 := by
  simp only [INVALID_INDEX, NUM_CALIBRATIONS, COMBINED_CALIBRATION_INDEX, RIGHT] at h
  omega

/-- Function `increment_raster()` returns when the index of the calibrating eye is in
range, and changes `calibrations_` only. -/
theorem increment_raster_frame (d : Defines) (api : GazeCalibrationApi G P) (s : TrackerBase G)
    (hidx : s.calibrating_eye_index_ = INVALID_INDEX
      ∨ (0 ≤ s.calibrating_eye_index_ ∧ s.calibrating_eye_index_ < NUM_CALIBRATIONS)) :
    ∃ s1, increment_raster d api s = some s1
      ∧ s1.per_eye_gazes_ = s.per_eye_gazes_
      ∧ s1.apply_calibration_ = s.apply_calibration_
      ∧ s1.calibrating_eye_index_ = s.calibrating_eye_index_ := by
  rcases index_cases _ hidx with h | h | h | h <;>
    cases h0 : api.is_calibrating s.calibrations_.a0 <;>
    cases h1 : api.is_calibrating s.calibrations_.a1 <;>
    cases h2 : api.is_calibrating s.calibrations_.a2 <;>
    cases hper : d.ENABLE_PSVR2_EYE_TRACKING_PER_EYE_GAZES <;>
    cases hcomb : d.ENABLE_PSVR2_EYE_TRACKING_COMBINED_GAZE <;>
    simp [increment_raster, h, h0, h1, h2, hper, hcomb, INVALID_INDEX, Arr3.get?, Arr3.set?]

/-- The `AUTO_CALIBRATE` block returns for an eye index and an index of the
calibrating eye in range, and changes `calibrations_` and the countdown
only. -/
theorem auto_calibrate_step_frame (d : Defines) (api : GazeCalibrationApi G P)
    (s : TrackerBase G) (eye : Int) (heye : eye = LEFT ∨ eye = RIGHT)
    (hidx : s.calibrating_eye_index_ = INVALID_INDEX
      ∨ (0 ≤ s.calibrating_eye_index_ ∧ s.calibrating_eye_index_ < NUM_CALIBRATIONS)) :
    ∃ s1, auto_calibrate_step d api s eye = some s1
      ∧ s1.per_eye_gazes_ = s.per_eye_gazes_
      ∧ s1.apply_calibration_ = s.apply_calibration_
      ∧ s1.calibrating_eye_index_ = s.calibrating_eye_index_ := by
  unfold auto_calibrate_step
  by_cases hauto : d.AUTO_CALIBRATE = true
  · have hget : ∃ c, s.calibrations_.get? eye = some c := by
      rcases heye with h | h <;> simp [h, LEFT, RIGHT, Arr3.get?]
    obtain ⟨c, hc⟩ := hget
    simp only [hauto, if_true, hc]
    by_cases hcal : api.is_calibrating c = true ∧ s.increment_countdown_ > 0
    · simp only [hcal, and_self, if_true]
      by_cases hzero : s.increment_countdown_ - 1 = 0
      · simp only [hzero, if_true]
        exact increment_raster_frame d api _ hidx
      · simp only [hzero, if_false]
        exact ⟨_, rfl, rfl, rfl, rfl⟩
    · simp only [hcal, if_false]
      exact ⟨_, rfl, rfl, rfl, rfl⟩
  · simp only [hauto, Bool.false_eq_true, if_false]
    exact ⟨_, rfl, rfl, rfl, rfl⟩

/-- The sampling step returns for an eye index and an index of the
calibrating eye in range, and changes `calibrations_` and the countdown
only. -/
theorem sampling_step_frame (d : Defines) (api : GazeCalibrationApi G P)
    (s : TrackerBase G) (eye : Int) (c : G) (direction : XrVector3f) (b : Bool)
    (heye : eye = LEFT ∨ eye = RIGHT)
    (hidx : s.calibrating_eye_index_ = INVALID_INDEX
      ∨ (0 ≤ s.calibrating_eye_index_ ∧ s.calibrating_eye_index_ < NUM_CALIBRATIONS)) :
    ∃ s1, sampling_step d api s eye c direction b = some s1
      ∧ s1.per_eye_gazes_ = s.per_eye_gazes_
      ∧ s1.apply_calibration_ = s.apply_calibration_
      ∧ s1.calibrating_eye_index_ = s.calibrating_eye_index_ := by
  unfold sampling_step
  simp only
  split_ifs
  · exact increment_raster_frame d api s hidx
  · exact ⟨_, rfl, rfl, rfl, rfl⟩
  · rcases heye with h | h <;> simp [h, LEFT, RIGHT, Arr3.set?]
  · rcases heye with h | h <;> simp [h, LEFT, RIGHT, Arr3.set?]
  · rcases heye with h | h <;> simp [h, LEFT, RIGHT, Arr3.set?]
  · exact ⟨_, rfl, rfl, rfl, rfl⟩

/-- An eye index has an element in an array of three. -/
theorem arr3_get_eye {α : Type} (xs : Arr3 α) (eye : Int) (heye : eye = LEFT ∨ eye = RIGHT) :
    ∃ c, xs.get? eye = some c := by
  rcases heye with h | h <;> simp [h, LEFT, RIGHT, Arr3.get?]

/-- An eye index has an element in an array of two. -/
theorem arr2_get_eye {α : Type} (xs : Arr2 α) (eye : Int) (heye : eye = LEFT ∨ eye = RIGHT) :
    ∃ c, xs.get? eye = some c := by
  rcases heye with h | h <;> simp [h, LEFT, RIGHT, Arr2.get?]

/-- What `get_per_eye_gaze` returns, for an eye index and an index of the
calibrating eye in range: the call returns; with a cached sample that is not
valid it returns false and the output is the one passed in; with a valid one
it returns true, and the output is the correction of the cached direction
when calibration is compiled in, `apply_calibration_` is true and the eye's
target, as the sampling step left it, is calibrated, and the cached direction
itself otherwise. -/
theorem get_per_eye_gaze_spec (d : Defines) (api : GazeCalibrationApi G P)
    (s : TrackerBase G) (eye : Int) (out : XrVector3f) (b : Bool)
    (heye : eye = LEFT ∨ eye = RIGHT)
    (hidx : s.calibrating_eye_index_ = INVALID_INDEX
      ∨ (0 ≤ s.calibrating_eye_index_ ∧ s.calibrating_eye_index_ < NUM_CALIBRATIONS)) :
    ∃ gaze ret out1 s1,
      s.per_eye_gazes_.get? eye = some gaze
        ∧ get_per_eye_gaze d api s eye out b = some (ret, out1, s1)
        ∧ s1.per_eye_gazes_ = s.per_eye_gazes_
        ∧ s1.apply_calibration_ = s.apply_calibration_
        ∧ (gaze.is_valid_ = false → ret = false ∧ out1 = out)
        ∧ (gaze.is_valid_ = true → ret = true ∧ ∃ c, s1.calibrations_.get? eye = some c
            ∧ out1 = if d.ENABLE_GAZE_CALIBRATION = true ∧ s.apply_calibration_ = true
                  ∧ api.is_calibrated c = true
                then api.apply_calibration c gaze.direction_ else gaze.direction_) := by
  obtain ⟨sa, ha, ga, aa, ia⟩ := auto_calibrate_step_frame d api s eye heye hidx
  obtain ⟨gaze, hgaze⟩ := arr2_get_eye s.per_eye_gazes_ eye heye
  have hgaze1 : sa.per_eye_gazes_.get? eye = some gaze := by rw [ga]; exact hgaze
  obtain ⟨c, hc⟩ := arr3_get_eye sa.calibrations_ eye heye
  unfold get_per_eye_gaze
  simp only [ha, hgaze1]
  cases hv : gaze.is_valid_
  · exact ⟨gaze, false, out, sa, hgaze, by simp, ga, aa, by simp, by simp [hv]⟩
  · cases hen : d.ENABLE_GAZE_CALIBRATION
    · refine ⟨gaze, true, gaze.direction_, sa, hgaze, by simp, ga, aa, by simp [hv], ?_⟩
      intro _
      exact ⟨rfl, c, hc, by simp⟩
    · have hsampled : ∃ s2, (if api.is_calibrating c = true then
            sampling_step d api sa eye c gaze.direction_ b else some sa) = some s2
          ∧ s2.per_eye_gazes_ = sa.per_eye_gazes_
          ∧ s2.apply_calibration_ = sa.apply_calibration_ := by
        by_cases hcal : api.is_calibrating c = true
        · rw [if_pos hcal]
          obtain ⟨s2, e1, e2, e3, -⟩ := sampling_step_frame d api sa eye c gaze.direction_ b
            heye (by rw [ia]; exact hidx)
          exact ⟨s2, e1, e2, e3⟩
        · rw [if_neg hcal]
          exact ⟨sa, rfl, rfl, rfl⟩
      obtain ⟨s2, e1, e2, e3⟩ := hsampled
      obtain ⟨c2, hc2⟩ := arr3_get_eye s2.calibrations_ eye heye
      simp only [if_true, hc, e1, hc2]
      by_cases hap : s2.apply_calibration_ = true ∧ api.is_calibrated c2 = true
      · refine ⟨gaze, true, api.apply_calibration c2 gaze.direction_, s2, hgaze, ?_,
          e2.trans ga, e3.trans aa, by simp [hv], ?_⟩
        · simp [hap]
        · intro _
          refine ⟨rfl, c2, hc2, ?_⟩
          have h1 : s.apply_calibration_ = true := by rw [← aa, ← e3]; exact hap.1
          simp [h1, hap.2]
      · refine ⟨gaze, true, gaze.direction_, s2, hgaze, ?_,
          e2.trans ga, e3.trans aa, by simp [hv], ?_⟩
        · simp [hap]
        · intro _
          refine ⟨rfl, c2, hc2, ?_⟩
          have h1 : ¬ (s.apply_calibration_ = true ∧ api.is_calibrated c2 = true) := by
            rw [← aa, ← e3]; exact hap
          simp only [true_and]
          rw [if_neg h1]

end TrackerBase

/-- C10: what the gaze getters put out. `get_combined_gaze`: with a cached
combined sample that is not valid it returns false and the output is the one
passed in; with a valid one it returns true, and the output is the correction
of the cached direction when calibration is compiled in, `apply_calibration_`
is true and the combined target is calibrated, and the cached direction itself
in every other case. `get_per_eye_gaze(eye)` for `eye` LEFT or RIGHT: the
same, with the eye's cached sample and the eye's target as it is at the check,
after the sampling step. -/
theorem calibration_applied_only_when_enabled_and_calibrated {G P : Type} (d : Defines)
    (api : GazeCalibrationApi G P) (s : TrackerBase G) (eye : Int) (out : XrVector3f)
    (b : Bool) (heye : eye = LEFT ∨ eye = RIGHT)
    (hidx : s.calibrating_eye_index_ = INVALID_INDEX
      ∨ (0 ≤ s.calibrating_eye_index_ ∧ s.calibrating_eye_index_ < NUM_CALIBRATIONS)) :
    (s.combined_gaze_.is_valid_ = false →
        TrackerBase.get_combined_gaze d api s out b = (false, out))
      ∧ (s.combined_gaze_.is_valid_ = true →
          TrackerBase.get_combined_gaze d api s out b
            = (true, if d.ENABLE_GAZE_CALIBRATION = true ∧ s.apply_calibration_ = true
                  ∧ api.is_calibrated s.calibrations_.a2 = true
                then api.apply_calibration s.calibrations_.a2 s.combined_gaze_.direction_
                else s.combined_gaze_.direction_))
      ∧ ∃ gaze ret out1 s1,
          s.per_eye_gazes_.get? eye = some gaze
            ∧ TrackerBase.get_per_eye_gaze d api s eye out b = some (ret, out1, s1)
            ∧ s1.per_eye_gazes_ = s.per_eye_gazes_
            ∧ s1.apply_calibration_ = s.apply_calibration_
            ∧ (gaze.is_valid_ = false → ret = false ∧ out1 = out)
            ∧ (gaze.is_valid_ = true → ret = true ∧ ∃ c, s1.calibrations_.get? eye = some c
                ∧ out1 = if d.ENABLE_GAZE_CALIBRATION = true ∧ s.apply_calibration_ = true
                      ∧ api.is_calibrated c = true
                    then api.apply_calibration c gaze.direction_ else gaze.direction_) := by
  refine ⟨?_, ?_, TrackerBase.get_per_eye_gaze_spec d api s eye out b heye hidx⟩
  · intro hv
    simp [TrackerBase.get_combined_gaze, hv]
  · intro hv
    simp only [TrackerBase.get_combined_gaze, hv, if_true]
    split_ifs <;> rfl

/-- C10 at a concrete input: `sampleBase` has valid samples, calibration on,
the left eye and the combined target calibrated and the right eye not; the
left and the combined output are corrected (x and y swapped by `sampleApi`),
the right output is the cached direction. -/
theorem calibration_applied_only_when_enabled_and_calibrated_witness :
    TrackerBase.get_combined_gaze sampleDefines sampleApi sampleBase ⟨0, 0, 0⟩ false
        = (true, ⟨2, 1, 3⟩)
      ∧ TrackerBase.get_per_eye_gaze sampleDefines sampleApi sampleBase LEFT ⟨0, 0, 0⟩ false
          = some (true, ⟨5, 4, 6⟩, sampleBase)
      ∧ TrackerBase.get_per_eye_gaze sampleDefines sampleApi sampleBase RIGHT ⟨0, 0, 0⟩ false
          = some (true, ⟨7, 8, 9⟩, sampleBase)
      ∧ ∃ gaze ret out1 s1,
          sampleBase.per_eye_gazes_.get? RIGHT = some gaze
            ∧ TrackerBase.get_per_eye_gaze sampleDefines sampleApi sampleBase RIGHT ⟨0, 0, 0⟩
                false = some (ret, out1, s1)
            ∧ (gaze.is_valid_ = true → ret = true) :=
  ⟨by decide, by decide, by decide,
    (calibration_applied_only_when_enabled_and_calibrated sampleDefines sampleApi sampleBase
      RIGHT ⟨0, 0, 0⟩ false (Or.inr rfl) (Or.inl rfl)).2.2.elim
      fun gaze h => h.elim fun ret h => h.elim fun out1 h => h.elim fun s1 h =>
        ⟨gaze, ret, out1, s1, h.1, h.2.1, fun hv => (h.2.2.2.2.2 hv).1⟩⟩

/-! ## Calibration state -/

/-- C13: `is_fully_calibrated()` with per-eye and combined gaze both enabled
is the conjunction of `is_eye_calibrated(LEFT)`, `is_eye_calibrated(RIGHT)`
and `is_combined_calibrated()`: it returns true exactly when every one of the
three targets reports calibrated. It is a function of the state alone and
returns nothing but its value. -/
theorem is_fully_calibrated_is_conjunction {G P : Type} (d : Defines)
    (api : GazeCalibrationApi G P) (s : TrackerBase G)
    (hper : d.ENABLE_PSVR2_EYE_TRACKING_PER_EYE_GAZES = true)
    (hcomb : d.ENABLE_PSVR2_EYE_TRACKING_COMBINED_GAZE = true) :
    ∃ l r, TrackerBase.is_eye_calibrated api s LEFT = some l
      ∧ TrackerBase.is_eye_calibrated api s RIGHT = some r
      ∧ TrackerBase.is_fully_calibrated d api s
          = some (l && r && TrackerBase.is_combined_calibrated api s)
      ∧ (TrackerBase.is_fully_calibrated d api s = some true ↔
          l = true ∧ r = true ∧ TrackerBase.is_combined_calibrated api s = true) := by
  refine ⟨api.is_calibrated s.calibrations_.a0, api.is_calibrated s.calibrations_.a1,
    by simp [TrackerBase.is_eye_calibrated, Arr3.get?, LEFT],
    by simp [TrackerBase.is_eye_calibrated, Arr3.get?, RIGHT], ?_, ?_⟩
  · simp [TrackerBase.is_fully_calibrated, TrackerBase.is_eye_calibrated, Arr3.get?, LEFT,
      RIGHT, hper, hcomb]
  · simp [TrackerBase.is_fully_calibrated, TrackerBase.is_eye_calibrated, Arr3.get?, LEFT,
      RIGHT, hper, hcomb, and_assoc]

/-- C13 at a concrete input: the tracker with every target calibrated, and
the tracker with only the left eye calibrated. -/
theorem is_fully_calibrated_is_conjunction_witness :
    TrackerBase.is_fully_calibrated sampleDefines rasterApi calibratedBase = some true
      ∧ TrackerBase.is_fully_calibrated sampleDefines rasterApi leftDoneBase = some false
      ∧ ∃ l r, TrackerBase.is_eye_calibrated rasterApi leftDoneBase LEFT = some l
          ∧ TrackerBase.is_eye_calibrated rasterApi leftDoneBase RIGHT = some r
          ∧ TrackerBase.is_fully_calibrated sampleDefines rasterApi leftDoneBase
              = some (l && r && TrackerBase.is_combined_calibrated rasterApi leftDoneBase) :=
  ⟨by decide, by decide,
    (is_fully_calibrated_is_conjunction sampleDefines rasterApi leftDoneBase rfl rfl).elim
      fun l h => h.elim fun r h => ⟨l, r, h.1, h.2.1, h.2.2.1⟩⟩

/-- C15: the pipe client's `load_calibrations()` resets the combined target
instead of loading it. On the tracker with every target calibrated, the pipe
client's `load_calibrations()` returns true and leaves the combined target
reset (not calibrated), where the socket client's loads it; the two differ.
`save_calibrations()` saves the three targets. -/
theorem pipe_load_calibrations_resets_combined :
    TrackerBase.load_calibrations_pipe sampleDefines rasterApi calibratedBase
        = (true, { calibratedBase with
            calibrations_ := ⟨{ calibrated := true }, { calibrated := true }, {}⟩ })
      ∧ TrackerBase.load_calibrations_sockets sampleDefines rasterApi calibratedBase
        = (true, calibratedBase)
      ∧ (rasterApi.reset_calibration { calibrated := true }).2
          ≠ (rasterApi.load_calibration { calibrated := true }).2
      ∧ TrackerBase.save_calibrations sampleDefines rasterApi calibratedBase
        = (true, calibratedBase) := by
  decide

/-- What `load_calibrations()` and `save_calibrations()` do, with per-eye and
combined gaze both enabled: the socket client's `load_calibrations()` loads
the three targets and returns the conjunction of the three results; the pipe
client's loads the two eyes and resets the combined target, and returns the
conjunction of the two load results and the reset result;
`save_calibrations()` saves the three targets and returns the conjunction of
the three results. -/
theorem load_save_calibrations_spec {G P : Type} (d : Defines) (api : GazeCalibrationApi G P)
    (s : TrackerBase G)
    (hper : d.ENABLE_PSVR2_EYE_TRACKING_PER_EYE_GAZES = true)
    (hcomb : d.ENABLE_PSVR2_EYE_TRACKING_COMBINED_GAZE = true) :
    TrackerBase.load_calibrations_sockets d api s
        = ((api.load_calibration s.calibrations_.a0).1
            && (api.load_calibration s.calibrations_.a1).1
            && (api.load_calibration s.calibrations_.a2).1,
          { s with calibrations_ :=
              ⟨(api.load_calibration s.calibrations_.a0).2,
               (api.load_calibration s.calibrations_.a1).2,
               (api.load_calibration s.calibrations_.a2).2⟩ })
      ∧ TrackerBase.load_calibrations_pipe d api s
        = ((api.load_calibration s.calibrations_.a0).1
            && (api.load_calibration s.calibrations_.a1).1
            && (api.reset_calibration s.calibrations_.a2).1,
          { s with calibrations_ :=
              ⟨(api.load_calibration s.calibrations_.a0).2,
               (api.load_calibration s.calibrations_.a1).2,
               (api.reset_calibration s.calibrations_.a2).2⟩ })
      ∧ TrackerBase.save_calibrations d api s
        = ((api.save_calibration s.calibrations_.a0).1
            && (api.save_calibration s.calibrations_.a1).1
            && (api.save_calibration s.calibrations_.a2).1,
          { s with calibrations_ :=
              ⟨(api.save_calibration s.calibrations_.a0).2,
               (api.save_calibration s.calibrations_.a1).2,
               (api.save_calibration s.calibrations_.a2).2⟩ }) := by
  refine ⟨?_, ?_, ?_⟩ <;>
    simp [TrackerBase.load_calibrations_sockets, TrackerBase.load_calibrations_pipe,
      TrackerBase.save_calibrations, TrackerBase.load_eye_calibrations, hper, hcomb]

/-! ## Starting a calibration -/

/-- Both eye indices are inside `calibrations_`, so the eye queries return. -/
theorem is_eye_calibrated_eyes {G P : Type} (api : GazeCalibrationApi G P) (s : TrackerBase G) :
    TrackerBase.is_eye_calibrated api s LEFT = some (api.is_calibrated s.calibrations_.a0)
      ∧ TrackerBase.is_eye_calibrated api s RIGHT
          = some (api.is_calibrated s.calibrations_.a1) := by
  constructor <;> simp [TrackerBase.is_eye_calibrated, Arr3.get?, LEFT, RIGHT]

/-- What `start_eye_calibration(LEFT)` does when `calibrating_eye_index_` is
an eye or `INVALID_INDEX`: a selected right eye is stopped first; then the
left eye is started and selected unless it is calibrated, in which case no
eye is selected. -/
theorem start_eye_calibration_LEFT {G P : Type} (api : GazeCalibrationApi G P)
    (s : TrackerBase G)
    (hidx : s.calibrating_eye_index_ = INVALID_INDEX ∨ s.calibrating_eye_index_ = LEFT
      ∨ s.calibrating_eye_index_ = RIGHT) :
    TrackerBase.start_eye_calibration api s LEFT
      = some
          { s with
            calibrations_ :=
              { a0 := if api.is_calibrated s.calibrations_.a0 = true then s.calibrations_.a0
                  else api.start_calibration s.calibrations_.a0
                a1 := if s.calibrating_eye_index_ = RIGHT then
                    api.stop_calibration s.calibrations_.a1
                  else s.calibrations_.a1
                a2 := s.calibrations_.a2 }
            calibrating_eye_index_ :=
              if api.is_calibrated s.calibrations_.a0 = true then INVALID_INDEX else LEFT } := by
  rcases hidx with h | h | h <;>
    cases hc : api.is_calibrated s.calibrations_.a0 <;>
    simp [TrackerBase.start_eye_calibration, TrackerBase.stop_eye_calibration, h, hc,
      Arr3.get?, Arr3.set?, LEFT, RIGHT, INVALID_INDEX]

/-- What `start_eye_calibration(RIGHT)` does when `calibrating_eye_index_` is
an eye or `INVALID_INDEX`: a selected left eye is stopped first; then the
right eye is started and selected unless it is calibrated, in which case no
eye is selected. -/
theorem start_eye_calibration_RIGHT {G P : Type} (api : GazeCalibrationApi G P)
    (s : TrackerBase G)
    (hidx : s.calibrating_eye_index_ = INVALID_INDEX ∨ s.calibrating_eye_index_ = LEFT
      ∨ s.calibrating_eye_index_ = RIGHT) :
    TrackerBase.start_eye_calibration api s RIGHT
      = some
          { s with
            calibrations_ :=
              { a0 := if s.calibrating_eye_index_ = LEFT then
                    api.stop_calibration s.calibrations_.a0
                  else s.calibrations_.a0
                a1 := if api.is_calibrated s.calibrations_.a1 = true then s.calibrations_.a1
                  else api.start_calibration s.calibrations_.a1
                a2 := s.calibrations_.a2 }
            calibrating_eye_index_ :=
              if api.is_calibrated s.calibrations_.a1 = true then INVALID_INDEX else RIGHT } := by
  rcases hidx with h | h | h <;>
    cases hc : api.is_calibrated s.calibrations_.a1 <;>
    simp [TrackerBase.start_eye_calibration, TrackerBase.stop_eye_calibration, h, hc,
      Arr3.get?, Arr3.set?, LEFT, RIGHT, INVALID_INDEX]

/-- Function `is_calibrating()` with per-eye gaze enabled, as one Boolean
expression of the state. -/
theorem is_calibrating_eyes {G P : Type} (d : Defines) (api : GazeCalibrationApi G P)
    (s : TrackerBase G) (hper : d.ENABLE_PSVR2_EYE_TRACKING_PER_EYE_GAZES = true) :
    TrackerBase.is_calibrating d api s
      = some ((!api.is_calibrated s.calibrations_.a0 && decide (s.calibrating_eye_index_ = LEFT))
          || (!api.is_calibrated s.calibrations_.a1 && decide (s.calibrating_eye_index_ = RIGHT))
          || (d.ENABLE_PSVR2_EYE_TRACKING_COMBINED_GAZE
              && TrackerBase.is_combined_calibrating api s)) := by
  obtain ⟨hl, hr⟩ := is_eye_calibrated_eyes api s
  simp only [TrackerBase.is_calibrating, TrackerBase.is_eye_calibrating, hl, hr, hper, if_true]
  cases api.is_calibrated s.calibrations_.a0 <;> cases api.is_calibrated s.calibrations_.a1 <;>
    cases d.ENABLE_PSVR2_EYE_TRACKING_COMBINED_GAZE <;>
    cases TrackerBase.is_combined_calibrating api s <;>
    by_cases h0 : s.calibrating_eye_index_ = LEFT <;>
    by_cases h1 : s.calibrating_eye_index_ = RIGHT <;> simp_all [LEFT, RIGHT]

/-- C11, as amended: `start_calibrating()` changes nothing while a target is
calibrating (`is_calibrating()` true). On a state that is not fully
calibrated and in which no target is calibrating, it starts the left eye if
the left eye is not calibrated (`calibrating_eye_index_` becomes LEFT and the
left target gets `start_calibration()`; `is_eye_calibrating(RIGHT)` is false
afterwards, and with the right eye not calibrated either the right target is
left as it was), otherwise the right eye if it is not calibrated, otherwise
the combined target. -/
theorem start_calibrating_order {G P : Type} (d : Defines) (api : GazeCalibrationApi G P)
    (s : TrackerBase G)
    (hper : d.ENABLE_PSVR2_EYE_TRACKING_PER_EYE_GAZES = true)
    (hidx : s.calibrating_eye_index_ = INVALID_INDEX ∨ s.calibrating_eye_index_ = LEFT
      ∨ s.calibrating_eye_index_ = RIGHT) :
    (TrackerBase.is_calibrating d api s = some true
        → TrackerBase.start_calibrating d api s = some s)
      ∧ (TrackerBase.is_fully_calibrated d api s = some false
        → TrackerBase.is_calibrating d api s = some false
        → (TrackerBase.is_eye_calibrated api s LEFT = some false →
            ∃ s1, TrackerBase.start_calibrating d api s = some s1
              ∧ TrackerBase.start_eye_calibration api s LEFT = some s1
              ∧ s1.calibrating_eye_index_ = LEFT
              ∧ s1.calibrations_.a0 = api.start_calibration s.calibrations_.a0
              ∧ s1.calibrations_.a2 = s.calibrations_.a2
              ∧ TrackerBase.is_eye_calibrating api s1 RIGHT = some false
              ∧ (TrackerBase.is_eye_calibrated api s RIGHT = some false
                  → s1.calibrations_.a1 = s.calibrations_.a1)
              ∧ (api.is_calibrated (api.start_calibration s.calibrations_.a0) = false
                  → TrackerBase.is_eye_calibrating api s1 LEFT = some true))
          ∧ (TrackerBase.is_eye_calibrated api s LEFT = some true
            → TrackerBase.is_eye_calibrated api s RIGHT = some false →
            ∃ s1, TrackerBase.start_calibrating d api s = some s1
              ∧ TrackerBase.start_eye_calibration api s RIGHT = some s1
              ∧ s1.calibrating_eye_index_ = RIGHT
              ∧ s1.calibrations_.a1 = api.start_calibration s.calibrations_.a1
              ∧ s1.calibrations_.a2 = s.calibrations_.a2)
          ∧ (TrackerBase.is_eye_calibrated api s LEFT = some true
            → TrackerBase.is_eye_calibrated api s RIGHT = some true →
            TrackerBase.start_calibrating d api s
                = some (TrackerBase.start_combined_calibration api s)
              ∧ TrackerBase.is_combined_calibrated api s = false)) := by
  obtain ⟨hl, hr⟩ := is_eye_calibrated_eyes api s
  have hcals := is_calibrating_eyes d api s hper
  have hL := start_eye_calibration_LEFT api s hidx
  have hR := start_eye_calibration_RIGHT api s hidx
  constructor
  · intro hcal
    cases hful : TrackerBase.is_fully_calibrated d api s with
    | none =>
      simp [TrackerBase.is_fully_calibrated, hl, hr, hper] at hful
      split at hful <;> simp at hful
    | some f => simp [TrackerBase.start_calibrating, hful, hcal]
  · intro hful hcal
    have hstart : TrackerBase.start_calibrating d api s
        = (if (!api.is_calibrated s.calibrations_.a0) = true then
              TrackerBase.start_eye_calibration api s LEFT
            else if (api.is_calibrated s.calibrations_.a0
                && !api.is_calibrated s.calibrations_.a1) = true then
              TrackerBase.start_eye_calibration api s RIGHT
            else some (TrackerBase.start_calibrating_combined d api s)) := by
      simp [TrackerBase.start_calibrating, hful, hcal, hper, hl, hr]
    refine ⟨?_, ?_, ?_⟩
    · intro hl0
      rw [hl] at hl0
      have ha0 : api.is_calibrated s.calibrations_.a0 = false := by simpa using hl0
      have hidxL : s.calibrating_eye_index_ ≠ LEFT := by
        intro h
        rw [hcals] at hcal
        simp [ha0, h] at hcal
      refine ⟨_, ?_, hL, ?_⟩
      · rw [hstart, hL]; simp [ha0]
      · refine ⟨by simp [ha0], by simp [ha0], rfl, ?_, ?_, ?_⟩
        · simp [TrackerBase.is_eye_calibrating, TrackerBase.is_eye_calibrated, Arr3.get?, ha0,
            LEFT, RIGHT]
          split <;> simp_all
        · intro hr0
          rw [hr] at hr0
          have ha1 : api.is_calibrated s.calibrations_.a1 = false := by simpa using hr0
          have hidxR : s.calibrating_eye_index_ ≠ RIGHT := by
            intro h
            rw [hcals] at hcal
            simp [ha1, h] at hcal
          simp [hidxR]
        · intro hs
          simp [TrackerBase.is_eye_calibrating, TrackerBase.is_eye_calibrated, Arr3.get?, ha0,
            hs, LEFT]
    · intro hl1 hr0
      rw [hl] at hl1
      rw [hr] at hr0
      have ha0 : api.is_calibrated s.calibrations_.a0 = true := by simpa using hl1
      have ha1 : api.is_calibrated s.calibrations_.a1 = false := by simpa using hr0
      refine ⟨_, ?_, hR, ?_⟩
      · rw [hstart, hR]; simp [ha0, ha1]
      · exact ⟨by simp [ha1], by simp [ha1], rfl⟩
    · intro hl1 hr1
      rw [hl] at hl1
      rw [hr] at hr1
      have ha0 : api.is_calibrated s.calibrations_.a0 = true := by simpa using hl1
      have ha1 : api.is_calibrated s.calibrations_.a1 = true := by simpa using hr1
      have hc : d.ENABLE_PSVR2_EYE_TRACKING_COMBINED_GAZE = true
          ∧ TrackerBase.is_combined_calibrated api s = false := by
        simp [TrackerBase.is_fully_calibrated, hl, hr, hper, ha0, ha1] at hful
        split at hful
        · rename_i h
          exact ⟨h, by simpa using hful⟩
        · simp at hful
      refine ⟨?_, hc.2⟩
      rw [hstart]
      simp [ha0, ha1, TrackerBase.start_calibrating_combined, hc.1, hc.2]

/-- C11 at a concrete input: on the freshly constructed tracker (every target
Idle) `start_calibrating()` selects and starts the left eye and leaves the
right eye Idle. -/
theorem start_calibrating_order_witness :
    ∃ s1, TrackerBase.start_calibrating sampleDefines rasterApi idleBase = some s1
      ∧ TrackerBase.start_eye_calibration rasterApi idleBase LEFT = some s1
      ∧ s1.calibrating_eye_index_ = LEFT
      ∧ s1.calibrations_.a0 = rasterApi.start_calibration idleBase.calibrations_.a0
      ∧ s1.calibrations_.a2 = idleBase.calibrations_.a2
      ∧ TrackerBase.is_eye_calibrating rasterApi s1 RIGHT = some false
      ∧ (TrackerBase.is_eye_calibrated rasterApi idleBase RIGHT = some false
          → s1.calibrations_.a1 = idleBase.calibrations_.a1)
      ∧ (rasterApi.is_calibrated (rasterApi.start_calibration idleBase.calibrations_.a0) = false
          → TrackerBase.is_eye_calibrating rasterApi s1 LEFT = some true) :=
  (start_calibrating_order sampleDefines rasterApi idleBase rfl (Or.inl rfl)).2
    (by decide) (by decide) |>.1 (by decide)

/-- C11, the claim as stated fails: with both eye targets Idle and the
combined target calibrating, the tracker is not fully calibrated, and
`start_calibrating()` returns without starting the left eye. -/
theorem start_calibrating_skips_when_calibrating :
    TrackerBase.is_fully_calibrated sampleDefines rasterApi combinedCalibratingBase = some false
      ∧ TrackerBase.is_eye_calibrated rasterApi combinedCalibratingBase LEFT = some false
      ∧ TrackerBase.is_eye_calibrating rasterApi combinedCalibratingBase LEFT = some false
      ∧ TrackerBase.is_eye_calibrating rasterApi combinedCalibratingBase RIGHT = some false
      ∧ TrackerBase.start_calibrating sampleDefines rasterApi combinedCalibratingBase
          = some combinedCalibratingBase
      ∧ combinedCalibratingBase.calibrating_eye_index_ = INVALID_INDEX
      ∧ combinedCalibratingBase.calibrations_.a0.calibrating = false := by
  decide

/-- C12, as amended: `start_eye_calibration(eye)`, for an eye and with
`calibrating_eye_index_` an eye or `INVALID_INDEX`, returns, and: when the eye
is calibrated its target is left as it was and `calibrating_eye_index_`
becomes `INVALID_INDEX` (so the state is unchanged only if no eye was selected
before); when the eye is not calibrated its target gets `start_calibration()`
and the eye is selected; a selected other eye is pre-empted, its target gets
`stop_calibration()`; without a selected other eye the other targets are left
as they were; the combined target and the members other than `calibrations_`
and `calibrating_eye_index_` are never changed. Starting and stopping the
combined target changes neither eye target nor `calibrating_eye_index_`;
`increment_raster()`, when the selected eye's target is not calibrating or no
eye is selected, returns and changes neither eye target nor
`calibrating_eye_index_`; and what `get_combined_gaze()` returns is the same
in two states that agree on `combined_gaze_`, `apply_calibration_` and the
combined target. -/
theorem start_eye_calibration_effect {G P : Type} (api : GazeCalibrationApi G P)
    (s : TrackerBase G) (eye : Int) (heye : eye = LEFT ∨ eye = RIGHT)
    (hidx : s.calibrating_eye_index_ = INVALID_INDEX ∨ s.calibrating_eye_index_ = LEFT
      ∨ s.calibrating_eye_index_ = RIGHT) :
    (∃ s1, TrackerBase.start_eye_calibration api s eye = some s1
      ∧ (TrackerBase.is_eye_calibrated api s eye = some true →
          s1.calibrating_eye_index_ = INVALID_INDEX
            ∧ s1.calibrations_.get? eye = s.calibrations_.get? eye
            ∧ (s.calibrating_eye_index_ = INVALID_INDEX → s1 = s))
      ∧ (TrackerBase.is_eye_calibrated api s eye = some false →
          s1.calibrating_eye_index_ = eye
            ∧ s1.calibrations_.get? eye = (s.calibrations_.get? eye).map api.start_calibration)
      ∧ (s.calibrating_eye_index_ ≠ INVALID_INDEX → s.calibrating_eye_index_ ≠ eye →
          s1.calibrations_.get? s.calibrating_eye_index_
            = (s.calibrations_.get? s.calibrating_eye_index_).map api.stop_calibration)
      ∧ (s.calibrating_eye_index_ = INVALID_INDEX ∨ s.calibrating_eye_index_ = eye →
          ∀ i, i ≠ eye → s1.calibrations_.get? i = s.calibrations_.get? i)
      ∧ s1.calibrations_.a2 = s.calibrations_.a2
      ∧ { s1 with calibrations_ := s.calibrations_,
                  calibrating_eye_index_ := s.calibrating_eye_index_ } = s)
      ∧ ((TrackerBase.start_combined_calibration api s).calibrations_.a0 = s.calibrations_.a0
        ∧ (TrackerBase.start_combined_calibration api s).calibrations_.a1 = s.calibrations_.a1
        ∧ (TrackerBase.start_combined_calibration api s).calibrating_eye_index_
            = s.calibrating_eye_index_)
      ∧ ((TrackerBase.stop_combined_calibration api s).calibrations_.a0 = s.calibrations_.a0
        ∧ (TrackerBase.stop_combined_calibration api s).calibrations_.a1 = s.calibrations_.a1
        ∧ (TrackerBase.stop_combined_calibration api s).calibrating_eye_index_
            = s.calibrating_eye_index_)
      ∧ (∀ d : Defines,
          (∀ c, s.calibrations_.get? s.calibrating_eye_index_ = some c →
            api.is_calibrating c = false) →
          ∃ s1, TrackerBase.increment_raster d api s = some s1
            ∧ s1.calibrations_.a0 = s.calibrations_.a0
            ∧ s1.calibrations_.a1 = s.calibrations_.a1
            ∧ s1.calibrating_eye_index_ = s.calibrating_eye_index_)
      ∧ (∀ (d : Defines) (s2 : TrackerBase G) (out : XrVector3f) (b : Bool),
          s2.combined_gaze_ = s.combined_gaze_ →
          s2.apply_calibration_ = s.apply_calibration_ →
          s2.calibrations_.a2 = s.calibrations_.a2 →
          TrackerBase.get_combined_gaze d api s2 out b
            = TrackerBase.get_combined_gaze d api s out b) := by
  obtain ⟨hl, hr⟩ := is_eye_calibrated_eyes api s
  refine ⟨?_, ⟨rfl, rfl, rfl⟩, ⟨rfl, rfl, rfl⟩, ?_, ?_⟩
  rotate_left 1
  · intro d hnot
    rcases hidx with h | h | h
    · cases hper : d.ENABLE_PSVR2_EYE_TRACKING_PER_EYE_GAZES <;>
        cases hcomb : d.ENABLE_PSVR2_EYE_TRACKING_COMBINED_GAZE <;>
        cases h2 : api.is_calibrating s.calibrations_.a2 <;>
        simp [TrackerBase.increment_raster, h, hper, hcomb, h2]
    · have h0 : api.is_calibrating s.calibrations_.a0 = false :=
        hnot _ (by simp [h, Arr3.get?, LEFT])
      cases hper : d.ENABLE_PSVR2_EYE_TRACKING_PER_EYE_GAZES <;>
        cases hcomb : d.ENABLE_PSVR2_EYE_TRACKING_COMBINED_GAZE <;>
        cases h2 : api.is_calibrating s.calibrations_.a2 <;>
        simp [TrackerBase.increment_raster, h, hper, hcomb, h2, h0, Arr3.get?, LEFT,
          INVALID_INDEX]
    · have h1 : api.is_calibrating s.calibrations_.a1 = false :=
        hnot _ (by simp [h, Arr3.get?, RIGHT])
      cases hper : d.ENABLE_PSVR2_EYE_TRACKING_PER_EYE_GAZES <;>
        cases hcomb : d.ENABLE_PSVR2_EYE_TRACKING_COMBINED_GAZE <;>
        cases h2 : api.is_calibrating s.calibrations_.a2 <;>
        simp [TrackerBase.increment_raster, h, hper, hcomb, h2, h1, Arr3.get?, RIGHT,
          INVALID_INDEX]
  · intro d s2 out b e1 e2 e3
    simp only [TrackerBase.get_combined_gaze, e1, e2, e3]
  rcases heye with rfl | rfl
  · refine ⟨_, start_eye_calibration_LEFT api s hidx, ?_, ?_, ?_, ?_, rfl, rfl⟩
    · intro h
      rw [hl] at h
      have ha : api.is_calibrated s.calibrations_.a0 = true := by simpa using h
      refine ⟨by simp [ha], by simp [ha, Arr3.get?, LEFT], ?_⟩
      intro hi
      obtain ⟨ic, con, en, ipd, cg, pg, ⟨c0, c1, c2⟩, idx, ac⟩ := s
      have hi1 : idx = INVALID_INDEX := hi
      subst hi1
      have ha1 : api.is_calibrated c0 = true := ha
      simp [ha1, INVALID_INDEX, RIGHT]
    · intro h
      rw [hl] at h
      have ha : api.is_calibrated s.calibrations_.a0 = false := by simpa using h
      exact ⟨by simp [ha], by simp [ha, Arr3.get?, LEFT]⟩
    · intro h1 h2
      rcases hidx with h | h | h
      · exact absurd h h1
      · exact absurd h h2
      · simp [h, Arr3.get?, RIGHT]
    · intro h i hi
      have hne : s.calibrating_eye_index_ ≠ RIGHT := by
        rcases h with h | h <;> rw [h] <;> decide
      have hi0 : i ≠ 0 := hi
      simp [hne, Arr3.get?, hi0]
  · refine ⟨_, start_eye_calibration_RIGHT api s hidx, ?_, ?_, ?_, ?_, rfl, rfl⟩
    · intro h
      rw [hr] at h
      have ha : api.is_calibrated s.calibrations_.a1 = true := by simpa using h
      refine ⟨by simp [ha], by simp [ha, Arr3.get?, RIGHT], ?_⟩
      intro hi
      obtain ⟨ic, con, en, ipd, cg, pg, ⟨c0, c1, c2⟩, idx, ac⟩ := s
      have hi1 : idx = INVALID_INDEX := hi
      subst hi1
      have ha1 : api.is_calibrated c1 = true := ha
      simp [ha1, INVALID_INDEX, LEFT]
    · intro h
      rw [hr] at h
      have ha : api.is_calibrated s.calibrations_.a1 = false := by simpa using h
      exact ⟨by simp [ha], by simp [ha, Arr3.get?, RIGHT]⟩
    · intro h1 h2
      rcases hidx with h | h | h
      · exact absurd h h1
      · simp [h, Arr3.get?, LEFT]
      · exact absurd h h2
    · intro h i hi
      have hne : s.calibrating_eye_index_ ≠ LEFT := by
        rcases h with h | h <;> rw [h] <;> decide
      have hi1 : i ≠ 1 := hi
      simp [hne, Arr3.get?, hi1]

/-- C12 at a concrete input: `start_eye_calibration(LEFT)` while the right
eye is calibrating. -/
theorem start_eye_calibration_effect_witness :
    ∃ s1, TrackerBase.start_eye_calibration rasterApi rightCalibratingBase LEFT = some s1
      ∧ s1.calibrating_eye_index_ = LEFT
      ∧ s1.calibrations_.get? LEFT = some { calibrating := true }
      ∧ s1.calibrations_.get? RIGHT = some { calibrating := false } :=
  (start_eye_calibration_effect rasterApi rightCalibratingBase LEFT (Or.inl rfl)
      (Or.inr (Or.inr rfl))).1.elim
    fun s1 h => ⟨s1, h.1, (h.2.2.1 (by decide)).1, (h.2.2.1 (by decide)).2,
      h.2.2.2.1 (by decide) (by decide)⟩

/-- C12, the claim as stated fails: `start_eye_calibration(LEFT)` while the
right eye is calibrating stops the right eye and starts the left one; and
`start_eye_calibration(LEFT)` on a calibrated left eye that is still selected
sets `calibrating_eye_index_` to `INVALID_INDEX`. Neither leaves the state as
it was. -/
theorem start_eye_calibration_changes_state :
    TrackerBase.is_eye_calibrating rasterApi rightCalibratingBase RIGHT = some true
      ∧ TrackerBase.start_eye_calibration rasterApi rightCalibratingBase LEFT
          = some { rightCalibratingBase with
              calibrations_ := ⟨{ calibrating := true }, { calibrating := false }, {}⟩
              calibrating_eye_index_ := LEFT }
      ∧ TrackerBase.start_eye_calibration rasterApi rightCalibratingBase LEFT
          ≠ some rightCalibratingBase
      ∧ TrackerBase.is_eye_calibrated rasterApi leftDoneBase LEFT = some true
      ∧ TrackerBase.start_eye_calibration rasterApi leftDoneBase LEFT
          = some { leftDoneBase with calibrating_eye_index_ := INVALID_INDEX }
      ∧ TrackerBase.start_eye_calibration rasterApi leftDoneBase LEFT ≠ some leftDoneBase := by
  decide

/-! ## Sampling a raster point -/

/-- An index that is an eye or `INVALID_INDEX` is `INVALID_INDEX` or inside
`calibrations_`. -/
theorem eye_index_in_range (i : Int)
    (h : i = INVALID_INDEX ∨ i = LEFT ∨ i = RIGHT) :
    i = INVALID_INDEX ∨ (0 ≤ i ∧ i < NUM_CALIBRATIONS) := by
  rcases h with h | h | h <;> rw [h] <;> decide

/-- Function `increment_raster()` leaves `num_calibrated_` of every target as
it was, when `GazeCalibration::increment_raster()` does: it returns, and each
target afterwards is the target before or its `increment_raster()`. -/
theorem increment_raster_num {G P : Type} (d : Defines) (api : GazeCalibrationApi G P)
    (s : TrackerBase G)
    (hidx : s.calibrating_eye_index_ = INVALID_INDEX ∨ s.calibrating_eye_index_ = LEFT
      ∨ s.calibrating_eye_index_ = RIGHT)
    (hinc : ∀ g, api.num_calibrated_ (api.increment_raster g) = api.num_calibrated_ g) :
    ∃ s1, TrackerBase.increment_raster d api s = some s1
      ∧ api.num_calibrated_ s1.calibrations_.a0 = api.num_calibrated_ s.calibrations_.a0
      ∧ api.num_calibrated_ s1.calibrations_.a1 = api.num_calibrated_ s.calibrations_.a1
      ∧ api.num_calibrated_ s1.calibrations_.a2 = api.num_calibrated_ s.calibrations_.a2 := by
  rcases hidx with h | h | h <;>
    cases h0 : api.is_calibrating s.calibrations_.a0 <;>
    cases h1 : api.is_calibrating s.calibrations_.a1 <;>
    cases h2 : api.is_calibrating s.calibrations_.a2 <;>
    cases hper : d.ENABLE_PSVR2_EYE_TRACKING_PER_EYE_GAZES <;>
    cases hcomb : d.ENABLE_PSVR2_EYE_TRACKING_COMBINED_GAZE <;>
    simp [TrackerBase.increment_raster, h, h0, h1, h2, hper, hcomb, INVALID_INDEX, LEFT, RIGHT,
      Arr3.get?, Arr3.set?, hinc]

/-- The `AUTO_CALIBRATE` block leaves `num_calibrated_` of both eye targets
and `calibrating_eye_index_` as they were, when
`GazeCalibration::increment_raster()` does not touch the counter. -/
theorem auto_calibrate_step_num {G P : Type} (d : Defines) (api : GazeCalibrationApi G P)
    (s : TrackerBase G) (eye : Int) (heye : eye = LEFT ∨ eye = RIGHT)
    (hidx : s.calibrating_eye_index_ = INVALID_INDEX ∨ s.calibrating_eye_index_ = LEFT
      ∨ s.calibrating_eye_index_ = RIGHT)
    (hinc : ∀ g, api.num_calibrated_ (api.increment_raster g) = api.num_calibrated_ g) :
    ∃ s1, TrackerBase.auto_calibrate_step d api s eye = some s1
      ∧ s1.calibrating_eye_index_ = s.calibrating_eye_index_
      ∧ api.num_calibrated_ s1.calibrations_.a0 = api.num_calibrated_ s.calibrations_.a0
      ∧ api.num_calibrated_ s1.calibrations_.a1 = api.num_calibrated_ s.calibrations_.a1 := by
  obtain ⟨sf, hf, -, -, hi⟩ := TrackerBase.auto_calibrate_step_frame d api s eye heye
    (eye_index_in_range _ hidx)
  refine ⟨sf, hf, hi, ?_⟩
  unfold TrackerBase.auto_calibrate_step at hf
  by_cases hauto : d.AUTO_CALIBRATE = true
  · obtain ⟨c, hc⟩ := TrackerBase.arr3_get_eye s.calibrations_ eye heye
    simp only [hauto, if_true, hc] at hf
    by_cases hcal : api.is_calibrating c = true ∧ s.increment_countdown_ > 0
    · simp only [hcal, and_self, if_true] at hf
      by_cases hzero : s.increment_countdown_ - 1 = 0
      · simp only [hzero, if_true] at hf
        obtain ⟨s2, e, n0, n1, -⟩ := increment_raster_num d api
          { s with increment_countdown_ := s.increment_countdown_ - 1 } hidx hinc
        rw [hzero] at e
        rw [e] at hf
        have hs : s2 = sf := Option.some.inj hf
        subst hs
        exact ⟨n0, n1⟩
      · simp only [hzero, if_false] at hf
        have hs := Option.some.inj hf
        subst hs
        exact ⟨rfl, rfl⟩
    · simp only [hcal, if_false] at hf
      have hs := Option.some.inj hf
      subst hs
      exact ⟨rfl, rfl⟩
  · simp only [hauto, Bool.false_eq_true, if_false] at hf
    have hs := Option.some.inj hf
    subst hs
    exact ⟨rfl, rfl⟩

/-- The sampling step returns, and `num_calibrated_` of the eye's target
afterwards is its value before plus one if the point was not yet calibrated,
`should_apply_gaze` holds, the sample is accepted and the point is calibrated
afterwards, and its value before in every other case. -/
theorem sampling_step_num {G P : Type} (d : Defines) (api : GazeCalibrationApi G P)
    (s : TrackerBase G) (eye : Int) (c : G) (dir : XrVector3f) (should_apply_gaze : Bool)
    (heye : eye = LEFT ∨ eye = RIGHT)
    (hidx : s.calibrating_eye_index_ = INVALID_INDEX ∨ s.calibrating_eye_index_ = LEFT
      ∨ s.calibrating_eye_index_ = RIGHT)
    (hset : ∀ g n, api.num_calibrated_ (api.set_num_calibrated_ g n) = n)
    (hpt : ∀ g p, api.num_calibrated_ (api.set_raster_point g p) = api.num_calibrated_ g)
    (hinc : ∀ g, api.num_calibrated_ (api.increment_raster g) = api.num_calibrated_ g)
    (hc : s.calibrations_.get? eye = some c) :
    (∃ s1 c1, TrackerBase.sampling_step d api s eye c dir should_apply_gaze = some s1
        ∧ s1.calibrations_.get? eye = some c1
        ∧ api.num_calibrated_ c1 = api.num_calibrated_ c
            + (if api.point_is_calibrated_ (api.get_raster_point c) = false
                  ∧ should_apply_gaze = true
                  ∧ (api.add_sample (api.get_raster_point c) dir).1 = true
                  ∧ api.point_is_calibrated_
                      (api.add_sample (api.get_raster_point c) dir).2 = true
                then 1 else 0))
      ∧ (api.point_is_calibrated_ (api.get_raster_point c) = true ∨ should_apply_gaze = false →
        TrackerBase.sampling_step d api s eye c dir should_apply_gaze
          = if api.point_is_calibrated_ (api.get_raster_point c) = true
                ∧ d.AUTO_INCREMENT_ON_CALIBRATION_DONE = true
              then TrackerBase.increment_raster d api s else some s) := by
  have hother : api.point_is_calibrated_ (api.get_raster_point c) = true
      ∨ should_apply_gaze = false →
      TrackerBase.sampling_step d api s eye c dir should_apply_gaze
        = if api.point_is_calibrated_ (api.get_raster_point c) = true
              ∧ d.AUTO_INCREMENT_ON_CALIBRATION_DONE = true
            then TrackerBase.increment_raster d api s else some s := by
    intro h
    rcases h with h | h
    · simp [TrackerBase.sampling_step, h]
    · subst h
      cases hp : api.point_is_calibrated_ (api.get_raster_point c) <;>
        simp [TrackerBase.sampling_step, hp]
  refine ⟨?_, hother⟩
  have hsame : ∀ s1, (s1 = s ∨ (TrackerBase.increment_raster d api s = some s1)) →
      ∃ c1, s1.calibrations_.get? eye = some c1
        ∧ api.num_calibrated_ c1 = api.num_calibrated_ c := by
    intro s1 h
    obtain ⟨s2, e, n0, n1, -⟩ := increment_raster_num d api s hidx hinc
    rcases h with h | h
    · subst h; exact ⟨c, hc, rfl⟩
    · rw [e] at h
      have hs : s2 = s1 := Option.some.inj h
      subst hs
      rcases heye with rfl | rfl
      · have hc0 : c = s.calibrations_.a0 := by
          simpa [Arr3.get?, LEFT] using hc.symm
        exact ⟨s2.calibrations_.a0, by simp [Arr3.get?, LEFT], by rw [n0, hc0]⟩
      · have hc1 : c = s.calibrations_.a1 := by
          simpa [Arr3.get?, RIGHT] using hc.symm
        exact ⟨s2.calibrations_.a1, by simp [Arr3.get?, RIGHT], by rw [n1, hc1]⟩
  cases hp : api.point_is_calibrated_ (api.get_raster_point c)
  · cases ha : should_apply_gaze
    · have hstep := hother (Or.inr ha)
      subst ha
      rw [hp] at hstep
      simp only [Bool.false_eq_true, false_and, if_false] at hstep
      obtain ⟨c1, e1, e2⟩ := hsame s (Or.inl rfl)
      exact ⟨s, c1, hstep, e1, by simp [e2]⟩
    · subst ha
      cases hok : (api.add_sample (api.get_raster_point c) dir).1 <;>
        cases hdone :
          api.point_is_calibrated_ (api.add_sample (api.get_raster_point c) dir).2 <;>
        rcases heye with rfl | rfl <;>
        simp [TrackerBase.sampling_step, hp, hok, hdone, Arr3.get?, Arr3.set?, LEFT, RIGHT,
          hset, hpt]
  · have hstep := hother (Or.inl hp)
    rw [hp] at hstep
    cases hai : d.AUTO_INCREMENT_ON_CALIBRATION_DONE
    · rw [hai] at hstep
      simp only [Bool.false_eq_true, and_false, if_false] at hstep
      obtain ⟨c1, e1, e2⟩ := hsame s (Or.inl rfl)
      exact ⟨s, c1, hstep, e1, by simp [e2]⟩
    · rw [hai] at hstep
      simp only [and_self, if_true] at hstep
      obtain ⟨s2, e, -⟩ := increment_raster_num d api s hidx hinc
      obtain ⟨c1, e1, e2⟩ := hsame s2 (Or.inr e)
      exact ⟨s2, c1, hstep.trans e, e1, by simp [e2]⟩

/-- C14: in `get_per_eye_gaze(eye, out, should_apply_gaze)`, for an eye, with
`calibrating_eye_index_` an eye or `INVALID_INDEX`, and with
`num_calibrated_` a member that neither `set_raster_point` nor
`GazeCalibration::increment_raster()` touches. The sampling step returns, and
`num_calibrated_` of the eye's target afterwards is its value before plus
one if the point was not yet calibrated, `should_apply_gaze` holds, the
sample is accepted and the point is calibrated afterwards, and its value
before in every other case; in particular it keeps its value when the point
is already calibrated. A sample is offered to the current raster point only
when the point is not yet calibrated and `should_apply_gaze` holds: when the
point is already calibrated, or `should_apply_gaze` is false, the step is
`increment_raster()` under `AUTO_INCREMENT_ON_CALIBRATION_DONE` and the
identity otherwise. The step is reached only when the cached sample is valid
and the eye's target is calibrating: in every other case `get_per_eye_gaze`
leaves the state as the `AUTO_CALIBRATE` block left it. Over the whole call,
`get_per_eye_gaze` returns and `num_calibrated_` of the eye's target grows by
one exactly when the cached sample is valid, the target is calibrating, the
point is not yet calibrated, `should_apply_gaze` holds, the sample is
accepted and the point is calibrated afterwards; it keeps its value in every
other case. -/
theorem sample_counted_once {G P : Type} (d : Defines) (api : GazeCalibrationApi G P)
    (s : TrackerBase G) (eye : Int) (out : XrVector3f) (should_apply_gaze : Bool)
    (heye : eye = LEFT ∨ eye = RIGHT)
    (hidx : s.calibrating_eye_index_ = INVALID_INDEX ∨ s.calibrating_eye_index_ = LEFT
      ∨ s.calibrating_eye_index_ = RIGHT)
    (hset : ∀ g n, api.num_calibrated_ (api.set_num_calibrated_ g n) = n)
    (hpt : ∀ g p, api.num_calibrated_ (api.set_raster_point g p) = api.num_calibrated_ g)
    (hinc : ∀ g, api.num_calibrated_ (api.increment_raster g) = api.num_calibrated_ g) :
    (∀ c dir, s.calibrations_.get? eye = some c →
        (∃ s1 c1, TrackerBase.sampling_step d api s eye c dir should_apply_gaze = some s1
          ∧ s1.calibrations_.get? eye = some c1
          ∧ api.num_calibrated_ c1 = api.num_calibrated_ c
              + (if api.point_is_calibrated_ (api.get_raster_point c) = false
                    ∧ should_apply_gaze = true
                    ∧ (api.add_sample (api.get_raster_point c) dir).1 = true
                    ∧ api.point_is_calibrated_
                        (api.add_sample (api.get_raster_point c) dir).2 = true
                  then 1 else 0))
        ∧ (api.point_is_calibrated_ (api.get_raster_point c) = true ∨ should_apply_gaze = false →
          TrackerBase.sampling_step d api s eye c dir should_apply_gaze
            = if api.point_is_calibrated_ (api.get_raster_point c) = true
                  ∧ d.AUTO_INCREMENT_ON_CALIBRATION_DONE = true
                then TrackerBase.increment_raster d api s else some s))
      ∧ (∀ s1 gaze c, TrackerBase.auto_calibrate_step d api s eye = some s1 →
          s1.per_eye_gazes_.get? eye = some gaze → s1.calibrations_.get? eye = some c →
          (gaze.is_valid_ = false ∨ api.is_calibrating c = false
              ∨ d.ENABLE_GAZE_CALIBRATION = false →
            (TrackerBase.get_per_eye_gaze d api s eye out should_apply_gaze).map
                (fun r => r.2.2) = some s1)
          ∧ (gaze.is_valid_ = true → api.is_calibrating c = true
              → d.ENABLE_GAZE_CALIBRATION = true →
            (TrackerBase.get_per_eye_gaze d api s eye out should_apply_gaze).map
                (fun r => r.2.2)
              = TrackerBase.sampling_step d api s1 eye c gaze.direction_ should_apply_gaze))
      ∧ (∃ sa gaze c c0 r c1, TrackerBase.auto_calibrate_step d api s eye = some sa
          ∧ sa.per_eye_gazes_.get? eye = some gaze
          ∧ sa.calibrations_.get? eye = some c
          ∧ s.calibrations_.get? eye = some c0
          ∧ TrackerBase.get_per_eye_gaze d api s eye out should_apply_gaze = some r
          ∧ r.2.2.calibrations_.get? eye = some c1
          ∧ api.num_calibrated_ c1 = api.num_calibrated_ c0
              + (if gaze.is_valid_ = true ∧ d.ENABLE_GAZE_CALIBRATION = true
                    ∧ api.is_calibrating c = true
                    ∧ api.point_is_calibrated_ (api.get_raster_point c) = false
                    ∧ should_apply_gaze = true
                    ∧ (api.add_sample (api.get_raster_point c) gaze.direction_).1 = true
                    ∧ api.point_is_calibrated_
                        (api.add_sample (api.get_raster_point c) gaze.direction_).2 = true
                  then 1 else 0)) := by
  have hget : ∀ t : TrackerBase G, ∃ c, t.calibrations_.get? eye = some c := by
    intro t
    rcases heye with rfl | rfl <;> simp [Arr3.get?, LEFT, RIGHT]
  have hB : ∀ s1 gaze c, TrackerBase.auto_calibrate_step d api s eye = some s1 →
      s1.per_eye_gazes_.get? eye = some gaze → s1.calibrations_.get? eye = some c →
      (gaze.is_valid_ = false ∨ api.is_calibrating c = false
          ∨ d.ENABLE_GAZE_CALIBRATION = false →
        (TrackerBase.get_per_eye_gaze d api s eye out should_apply_gaze).map
            (fun r => r.2.2) = some s1)
      ∧ (gaze.is_valid_ = true → api.is_calibrating c = true
          → d.ENABLE_GAZE_CALIBRATION = true →
        (TrackerBase.get_per_eye_gaze d api s eye out should_apply_gaze).map
            (fun r => r.2.2)
          = TrackerBase.sampling_step d api s1 eye c gaze.direction_ should_apply_gaze) := by
    intro s1 gaze c hauto hgaze hc
    refine ⟨?_, ?_⟩
    · intro h
      simp only [TrackerBase.get_per_eye_gaze, hauto, hgaze, hc]
      cases hv : gaze.is_valid_
      · simp
      · cases hen : d.ENABLE_GAZE_CALIBRATION
        · simp
        · have hcal : api.is_calibrating c = false := by
            rcases h with h | h | h
            · rw [hv] at h; cases h
            · exact h
            · rw [hen] at h; cases h
          simp [hcal, hc]
          split <;> simp
    · intro hv hcal hen
      simp only [TrackerBase.get_per_eye_gaze, hauto, hgaze, hc]
      simp only [hv, hen, hcal, if_true]
      cases hs : TrackerBase.sampling_step d api s1 eye c gaze.direction_ should_apply_gaze with
      | none => simp
      | some s2 =>
        obtain ⟨c2, hc2⟩ := hget s2
        simp [hc2]
        split <;> simp
  refine ⟨?_, hB, ?_⟩
  · intro c dir hc
    exact sampling_step_num d api s eye c dir should_apply_gaze heye hidx hset hpt hinc hc
  · obtain ⟨sa, ha, hia, n0, n1⟩ := auto_calibrate_step_num d api s eye heye hidx hinc
    obtain ⟨gaze, hgaze⟩ := TrackerBase.arr2_get_eye sa.per_eye_gazes_ eye heye
    obtain ⟨c, hc⟩ := hget sa
    obtain ⟨c0, hc0⟩ := hget s
    have hnum : api.num_calibrated_ c = api.num_calibrated_ c0 := by
      rcases heye with rfl | rfl
      · have e1 : c = sa.calibrations_.a0 := by simpa [Arr3.get?, LEFT] using hc.symm
        have e2 : c0 = s.calibrations_.a0 := by simpa [Arr3.get?, LEFT] using hc0.symm
        rw [e1, e2, n0]
      · have e1 : c = sa.calibrations_.a1 := by simpa [Arr3.get?, RIGHT] using hc.symm
        have e2 : c0 = s.calibrations_.a1 := by simpa [Arr3.get?, RIGHT] using hc0.symm
        rw [e1, e2, n1]
    obtain ⟨hb1, hb2⟩ := hB sa gaze c ha hgaze hc
    by_cases hcond : gaze.is_valid_ = true ∧ api.is_calibrating c = true
        ∧ d.ENABLE_GAZE_CALIBRATION = true
    · obtain ⟨hv, hcal, hen⟩ := hcond
      have hmap := hb2 hv hcal hen
      obtain ⟨⟨s1, c1, e1, e2, e3⟩, -⟩ := sampling_step_num d api sa eye c gaze.direction_
        should_apply_gaze heye (by rw [hia]; exact hidx) hset hpt hinc hc
      rw [e1] at hmap
      obtain ⟨r, hr1, hr2⟩ := Option.map_eq_some'.mp hmap
      refine ⟨sa, gaze, c, c0, r, c1, ha, hgaze, hc, hc0, hr1, by rw [hr2]; exact e2, ?_⟩
      rw [e3, hnum]
      simp [hv, hcal, hen]
    · have hdis : gaze.is_valid_ = false ∨ api.is_calibrating c = false
          ∨ d.ENABLE_GAZE_CALIBRATION = false := by
        cases hv : gaze.is_valid_ <;> cases hcal : api.is_calibrating c <;>
          cases hen : d.ENABLE_GAZE_CALIBRATION <;> simp_all
      have hmap := hb1 hdis
      obtain ⟨r, hr1, hr2⟩ := Option.map_eq_some'.mp hmap
      refine ⟨sa, gaze, c, c0, r, c, ha, hgaze, hc, hc0, hr1, by rw [hr2]; exact hc, ?_⟩
      rw [hnum]
      have hfalse : ¬ (gaze.is_valid_ = true ∧ d.ENABLE_GAZE_CALIBRATION = true
          ∧ api.is_calibrating c = true
          ∧ api.point_is_calibrated_ (api.get_raster_point c) = false
          ∧ should_apply_gaze = true
          ∧ (api.add_sample (api.get_raster_point c) gaze.direction_).1 = true
          ∧ api.point_is_calibrated_
              (api.add_sample (api.get_raster_point c) gaze.direction_).2 = true) := by
        intro h
        exact hcond ⟨h.1, h.2.2.1, h.2.1⟩
      rw [if_neg hfalse]
      simp

/-- C14 at a concrete input: the left eye calibrating with a valid cached
sample. The first `get_per_eye_gaze(LEFT, out, true)` calibrates the point and
counts it; the second finds the point calibrated and does not count it
again. -/
theorem sample_counted_once_witness :
    (∃ s1 c1, TrackerBase.sampling_step sampleDefines rasterApi samplingBase LEFT
          { calibrating := true } ⟨4, 5, 6⟩ true = some s1
        ∧ s1.calibrations_.get? LEFT = some c1
        ∧ rasterApi.num_calibrated_ c1 = 1)
      ∧ (TrackerBase.get_per_eye_gaze sampleDefines rasterApi samplingBase LEFT ⟨0, 0, 0⟩
            true).map (fun r => (r.1, r.2.2.calibrations_.a0.num_calibrated_))
          = some (true, 1)
      ∧ ((TrackerBase.get_per_eye_gaze sampleDefines rasterApi samplingBase LEFT ⟨0, 0, 0⟩
            true).bind (fun r =>
              TrackerBase.get_per_eye_gaze sampleDefines rasterApi r.2.2 LEFT ⟨0, 0, 0⟩
                true)).map (fun r => (r.1, r.2.2.calibrations_.a0.num_calibrated_))
          = some (true, 1) :=
  ⟨(((sample_counted_once sampleDefines rasterApi samplingBase LEFT ⟨0, 0, 0⟩ true (Or.inl rfl)
        (Or.inr (Or.inl rfl)) (fun _ _ => rfl) (fun _ _ => rfl)
        (fun g => by cases g with
          | mk a b c n => cases c <;> rfl)).1
        { calibrating := true } ⟨4, 5, 6⟩ rfl).1).elim
      fun s1 h => h.elim fun c1 h => ⟨s1, c1, h.1, h.2.1, h.2.2.trans (by decide)⟩,
    by decide, by decide⟩

/-! ## The cache after `update_gazes()` -/

/-- C19: a failed `update_gazes()` is atomic. Whenever `update_gazes()`
returns false, the whole client state afterwards is the state before: the
cached combined and per-eye samples, `is_connected_`, `is_enabled_` and the
handle; in the pipe client and in the socket client. -/
theorem failed_update_gazes_atomic {G : Type} (hdr : SocketsHeader) (d : Defines)
    (penv : PipeEnv) (p : PSVR2EyeTracker G) (pw : PipeWorld)
    (senv : SocketEnv) (s : PSVR2EyeTrackerSockets G) (sw : SocketWorld)
    (hpc : p.is_connected = true) (hsc : s.is_connected = true)
    (hp : (PSVR2EyeTracker.update_gazes d penv p pw).1 = false)
    (hs : (PSVR2EyeTrackerSockets.update_gazes hdr d senv s sw).1 = false) :
    (PSVR2EyeTracker.update_gazes d penv p pw).2.1 = p
      ∧ (PSVR2EyeTrackerSockets.update_gazes hdr d senv s sw).2.1 = s := by
  have hpc1 : p.is_connected_ = true := hpc
  have hsc1 : s.is_connected_ = true := hsc
  constructor
  · simp only [PSVR2EyeTracker.update_gazes, hpc1, Bool.not_true, Bool.false_eq_true,
      if_false] at hp ⊢
    split at hp
    · simp at hp
    · rename_i h
      rw [if_neg h]
  · simp only [PSVR2EyeTrackerSockets.update_gazes, hsc1, Bool.not_true, Bool.false_eq_true,
      if_false] at hs ⊢
    split at hs
    · simp at hs
    · rename_i h
      rw [if_neg h]

/-- C19 at a concrete input: connected clients with valid cached samples
whose server fails every read. -/
theorem failed_update_gazes_atomic_witness :
    (PSVR2EyeTracker.update_gazes sampleDefines brokenEnv connectedPipe []).1 = false
      ∧ (PSVR2EyeTrackerSockets.update_gazes sampleHeader sampleDefines brokenSocketEnv
          connectedSockets []).1 = false
      ∧ (PSVR2EyeTracker.update_gazes sampleDefines brokenEnv connectedPipe []).2.1
          = connectedPipe
      ∧ (PSVR2EyeTrackerSockets.update_gazes sampleHeader sampleDefines brokenSocketEnv
          connectedSockets []).2.1 = connectedSockets :=
  ⟨by decide, by decide,
    failed_update_gazes_atomic sampleHeader sampleDefines brokenEnv connectedPipe []
      brokenSocketEnv connectedSockets [] rfl rfl (by decide) (by decide)⟩

/-- What a successful `update_gazes()` caches, with per-eye gaze enabled.
Pipe client: the cached left and right samples are the reply's, validity
flags and directions alike. Socket client: the cached directions are the
reply's with x and z negated and y kept, and both validity flags are true
whatever the reply's flags are. -/
theorem update_gazes_cache {G : Type} (hdr : SocketsHeader) (d : Defines)
    (penv : PipeEnv) (p : PSVR2EyeTracker G) (pw : PipeWorld)
    (senv : SocketEnv) (s : PSVR2EyeTrackerSockets G) (sw : SocketWorld)
    (hper : d.ENABLE_PSVR2_EYE_TRACKING_PER_EYE_GAZES = true)
    (hp : (PSVR2EyeTracker.update_gazes d penv p pw).1 = true)
    (hs : (PSVR2EyeTrackerSockets.update_gazes hdr d senv s sw).1 = true) :
    (PSVR2EyeTracker.update_gazes d penv p pw).2.1.per_eye_gazes_
        = (penv.ReadFile (pw.length + 1)).buffer.gazes_.per_eye_gazes_
      ∧ ∃ reply : GazeResponse,
          (PSVR2EyeTrackerSockets.update_gazes hdr d senv s sw).2.1.per_eye_gazes_
            = ⟨{ direction_ :=
                   ⟨fneg reply.payload.per_eye_gazes_.a0.gaze_dir_.x,
                    reply.payload.per_eye_gazes_.a0.gaze_dir_.y,
                    fneg reply.payload.per_eye_gazes_.a0.gaze_dir_.z⟩,
                 is_valid_ := true },
               { direction_ :=
                   ⟨fneg reply.payload.per_eye_gazes_.a1.gaze_dir_.x,
                    reply.payload.per_eye_gazes_.a1.gaze_dir_.y,
                    fneg reply.payload.per_eye_gazes_.a1.gaze_dir_.z⟩,
                 is_valid_ := true }⟩
          ∧ reply = hdr.GazeResponse_of_bytes
              (PSVR2EyeTrackerSockets.recv_loop senv s.socket_ hdr.sizeof_GazeResponse
                hdr.GET_GAZE_SLEEP_TIME_MS hdr.GET_GAZE_RETRIES 0
                (List.replicate hdr.sizeof_GazeResponse 0)
                (sw ++ [SocketCall.send s.socket_
                  (SocketRequest.GazeRequest hdr.REQUEST_GAZES_ 0)])).2.2.1 := by
  constructor
  · cases hc : p.is_connected_
    · simp [PSVR2EyeTracker.update_gazes, hc] at hp
    · simp only [PSVR2EyeTracker.update_gazes, PSVR2EyeTracker.send_and_receive,
        PSVR2EyeTracker.send_request, PSVR2EyeTracker.receive_request, hc] at hp ⊢
      cases hw : penv.WriteFile pw.length <;>
        cases hsu : (penv.ReadFile (pw.length + 1)).success <;>
        by_cases he : (penv.ReadFile (pw.length + 1)).lastError = ERROR_MORE_DATA <;>
        by_cases hz : (penv.ReadFile (pw.length + 1)).read_size = sizeof_Response <;>
        simp [hw, hsu, he, hz, hper] at hp ⊢
  · refine ⟨_, ?_, rfl⟩
    cases hc : s.is_connected_
    · simp [PSVR2EyeTrackerSockets.update_gazes, hc] at hs
    · simp only [PSVR2EyeTrackerSockets.update_gazes, hc, Bool.not_true, Bool.false_eq_true,
        if_false] at hs ⊢
      split at hs
      · rename_i h
        rw [if_pos h]
        simp [hper]
      · simp at hs

/-- C18: the socket client caches a gaze as valid that the reply marks as
not valid. With `flagsHeader`, a complete reply of kind
`REQUEST_GAZES_RESULT_` whose left eye has `is_gaze_dir_valid_` false and
direction (1, 2, 3) is accepted, and the cached left sample has `is_valid_`
true (and the direction with x and z negated). -/
theorem sockets_update_gazes_ignores_validity :
    (flagsHeader.GazeResponse_of_bytes
        [4, 8, 1, 2, 3, 0, 4, 5, 6, 1]).payload.per_eye_gazes_.a0.is_gaze_dir_valid_ = false
      ∧ (PSVR2EyeTrackerSockets.update_gazes flagsHeader sampleDefines invalidLeftEnv
          connectedSockets []).1 = true
      ∧ (PSVR2EyeTrackerSockets.update_gazes flagsHeader sampleDefines invalidLeftEnv
          connectedSockets []).2.1.per_eye_gazes_.a0
          = { direction_ := ⟨fneg 1, 2, fneg 3⟩, is_valid_ := true }
      ∧ (PSVR2EyeTrackerSockets.update_gazes flagsHeader sampleDefines invalidLeftEnv
          connectedSockets []).2.1.combined_gaze_.is_valid_ = true := by
  decide

/-! ## Enabled and connected -/

/-- The open loop of the pipe client's `connect()` changes the stored handle
only. -/
theorem pipe_connect_pipe_job_base {G : Type} (env : PipeEnv) :
    ∀ (fuel : Nat) (q : PSVR2EyeTracker G) (w : PipeWorld) (r : PSVR2EyeTracker.PipeJob)
      (q1 : PSVR2EyeTracker G) (w1 : PipeWorld),
      PSVR2EyeTracker.connect_pipe_job env fuel q w = some (r, q1, w1) →
        q1.toTrackerBase = q.toTrackerBase := by
  intro fuel
  induction fuel with
  | zero => intro q w r q1 w1 h; simp [PSVR2EyeTracker.connect_pipe_job] at h
  | succ fuel ih =>
    intro q w r q1 w1 h
    rw [PSVR2EyeTracker.connect_pipe_job] at h
    simp only at h
    split at h
    · simp only [Option.some.injEq, Prod.mk.injEq] at h
      rw [← h.2.1]
    · split at h
      · simp only [Option.some.injEq, Prod.mk.injEq] at h
        rw [← h.2.1]
      · split at h
        · simp only [Option.some.injEq, Prod.mk.injEq] at h
          rw [← h.2.1]
        · have h2 := ih _ _ _ _ _ h
          exact h2

/-- The handshake part of the pipe client's `connect()` either returns false
and leaves the state as it was, or returns true with `is_connected_` true. -/
theorem pipe_connect_handshake_state {G : Type} (d : Defines) (env : PipeEnv)
    (s : PSVR2EyeTracker G) (w : PipeWorld) :
    ((PSVR2EyeTracker.connect_handshake d env s w).1 = false
        ∧ (PSVR2EyeTracker.connect_handshake d env s w).2.1 = s)
      ∨ ((PSVR2EyeTracker.connect_handshake d env s w).1 = true
        ∧ (PSVR2EyeTracker.connect_handshake d env s w).2.1.is_connected_ = true) := by
  simp only [PSVR2EyeTracker.connect_handshake, PSVR2EyeTracker.send_and_receive,
    PSVR2EyeTracker.send_request, PSVR2EyeTracker.receive_request]
  cases hm : env.SetNamedPipeHandleState w.length <;>
    cases hw : env.WriteFile (w.length + 1) <;>
    cases hs : (env.ReadFile (w.length + 2)).success <;>
    by_cases he : (env.ReadFile (w.length + 2)).lastError = ERROR_MORE_DATA <;>
    by_cases hz : (env.ReadFile (w.length + 2)).read_size = sizeof_Response <;>
    by_cases hk : (env.ReadFile (w.length + 2)).buffer.type_ = ResponseType.HANDSHAKE_OK_ <;>
    cases hauto : d.ENABLE_PSVR2_EYE_TRACKING_AUTOMATICALLY <;>
    simp [hm, hw, hs, he, hz, hk, TrackerBase.set_enabled]

/-- A `connect()` of the pipe client either returns false, on a client that
was not connected, having changed the stored handle only, or returns true
with `is_connected_` true. -/
theorem pipe_connect_cases {G : Type} (d : Defines) (env : PipeEnv) (fuel : Nat)
    (p p1 : PSVR2EyeTracker G) (w w1 : PipeWorld) (r : Bool)
    (h : PSVR2EyeTracker.connect d env fuel p w = some (r, p1, w1)) :
    (r = false ∧ p.is_connected_ = false ∧ p1.toTrackerBase = p.toTrackerBase)
      ∨ (r = true ∧ p1.is_connected_ = true) := by
  cases hc : p.is_connected_
  · simp only [PSVR2EyeTracker.connect, hc, Bool.not_false, if_true] at h
    cases hjob : PSVR2EyeTracker.connect_pipe_job env fuel p w with
    | none => simp [hjob] at h
    | some res =>
      obtain ⟨k, q, wq⟩ := res
      have hq := pipe_connect_pipe_job_base env fuel p w k q wq hjob
      cases k with
      | failed =>
        simp only [hjob, Option.some.injEq, Prod.mk.injEq] at h
        left
        exact ⟨h.1.symm, rfl, by rw [← h.2.1, hq]⟩
      | opened =>
        simp only [hjob, Option.some.injEq] at h
        rcases pipe_connect_handshake_state d env q wq with hh | hh
        · rw [h] at hh
          left
          have h2 : p1 = q := hh.2
          exact ⟨hh.1, rfl, by rw [h2, hq]⟩
        · rw [h] at hh
          right
          exact hh
  · simp only [PSVR2EyeTracker.connect, hc, Bool.not_true, Bool.false_eq_true, if_false,
      Option.some.injEq, Prod.mk.injEq] at h
    right
    exact ⟨h.1.symm, by rw [← h.2.1]; exact hc⟩

/-- A `connect()` of the socket client either returns false, on a client
that was not connected, having changed the stored socket only, or returns
true with `is_connected_` true. -/
theorem sockets_connect_cases {G : Type} (hdr : SocketsHeader) (d : Defines) (env : SocketEnv)
    (s : PSVR2EyeTrackerSockets G) (w : SocketWorld) :
    ((PSVR2EyeTrackerSockets.connect hdr d env s w).1 = false ∧ s.is_connected_ = false
        ∧ (PSVR2EyeTrackerSockets.connect hdr d env s w).2.1.toTrackerBase = s.toTrackerBase)
      ∨ ((PSVR2EyeTrackerSockets.connect hdr d env s w).1 = true
        ∧ (PSVR2EyeTrackerSockets.connect hdr d env s w).2.1.is_connected_ = true) := by
  cases hc : s.is_connected_
  · by_cases hopen : 0 < (PSVR2EyeTrackerSockets.connect_open hdr env s w).1
    · have hcon : PSVR2EyeTrackerSockets.connect hdr d env s w
          = PSVR2EyeTrackerSockets.connect_handshake hdr d env
              (PSVR2EyeTrackerSockets.connect_open hdr env s w).2.1
              (PSVR2EyeTrackerSockets.connect_open hdr env s w).2.2 := by
        simp [PSVR2EyeTrackerSockets.connect, hc, hopen]
      rw [hcon]
      simp only [PSVR2EyeTrackerSockets.connect_handshake]
      split
      · left; exact ⟨rfl, trivial, rfl⟩
      · right
        cases hauto : d.ENABLE_PSVR2_EYE_TRACKING_AUTOMATICALLY <;>
          simp [TrackerBase.set_enabled]
    · have hcon : PSVR2EyeTrackerSockets.connect hdr d env s w
          = (false, (PSVR2EyeTrackerSockets.connect_open hdr env s w).2.1,
              (PSVR2EyeTrackerSockets.connect_open hdr env s w).2.2) := by
        simp [PSVR2EyeTrackerSockets.connect, hc, hopen]
      rw [hcon]
      left
      exact ⟨rfl, rfl, rfl⟩
  · right
    simp [PSVR2EyeTrackerSockets.connect, hc]

/-- A conditional store of the combined gaze leaves the two flags of the
socket client as they were. -/
theorem sockets_combined_update_flags {G : Type} (c : Bool) (s : PSVR2EyeTrackerSockets G)
    (X : XRGazeState) :
    (if c = true then { s with combined_gaze_ := X } else s).is_connected_ = s.is_connected_
      ∧ (if c = true then { s with combined_gaze_ := X } else s).is_enabled_ = s.is_enabled_ := by
  cases c <;> exact ⟨rfl, rfl⟩

/-- A conditional store of the per-eye gazes leaves the two flags of the
socket client as they were. -/
theorem sockets_per_eye_update_flags {G : Type} (c : Bool) (s : PSVR2EyeTrackerSockets G)
    (Y : Arr2 XRGazeState) :
    (if c = true then { s with per_eye_gazes_ := Y } else s).is_connected_ = s.is_connected_
      ∧ (if c = true then { s with per_eye_gazes_ := Y } else s).is_enabled_ = s.is_enabled_ := by
  cases c <;> exact ⟨rfl, rfl⟩

/-- Function `update_gazes()` leaves `is_connected_` and `is_enabled_` as
they were, in both clients. -/
theorem update_gazes_flags {G : Type} (hdr : SocketsHeader) (d : Defines)
    (penv : PipeEnv) (p : PSVR2EyeTracker G) (pw : PipeWorld)
    (senv : SocketEnv) (s : PSVR2EyeTrackerSockets G) (sw : SocketWorld) :
    ((PSVR2EyeTracker.update_gazes d penv p pw).2.1.is_connected_ = p.is_connected_
        ∧ (PSVR2EyeTracker.update_gazes d penv p pw).2.1.is_enabled_ = p.is_enabled_)
      ∧ ((PSVR2EyeTrackerSockets.update_gazes hdr d senv s sw).2.1.is_connected_
            = s.is_connected_
        ∧ (PSVR2EyeTrackerSockets.update_gazes hdr d senv s sw).2.1.is_enabled_
            = s.is_enabled_) := by
  constructor
  · simp only [PSVR2EyeTracker.update_gazes]
    generalize PSVR2EyeTracker.send_and_receive penv p ⟨RequestType.GET_GAZES_⟩ {} pw = r
    split
    · exact ⟨rfl, rfl⟩
    · split
      · cases d.ENABLE_PSVR2_EYE_TRACKING_COMBINED_GAZE <;>
          cases d.ENABLE_PSVR2_EYE_TRACKING_PER_EYE_GAZES <;> exact ⟨rfl, rfl⟩
      · exact ⟨rfl, rfl⟩
  · simp only [PSVR2EyeTrackerSockets.update_gazes]
    generalize PSVR2EyeTrackerSockets.recv_loop senv s.socket_ hdr.sizeof_GazeResponse
      hdr.GET_GAZE_SLEEP_TIME_MS hdr.GET_GAZE_RETRIES 0
      (List.replicate hdr.sizeof_GazeResponse 0)
      (sw ++ [SocketCall.send s.socket_ (SocketRequest.GazeRequest hdr.REQUEST_GAZES_ 0)]) = r
    generalize hdr.GazeResponse_of_bytes r.2.2.1 = reply
    split
    · exact ⟨rfl, rfl⟩
    · split
      · exact ⟨(sockets_per_eye_update_flags d.ENABLE_PSVR2_EYE_TRACKING_PER_EYE_GAZES _ _).1.trans
            (sockets_combined_update_flags d.ENABLE_PSVR2_EYE_TRACKING_COMBINED_GAZE _ _).1,
          (sockets_per_eye_update_flags d.ENABLE_PSVR2_EYE_TRACKING_PER_EYE_GAZES _ _).2.trans
            (sockets_combined_update_flags d.ENABLE_PSVR2_EYE_TRACKING_COMBINED_GAZE _ _).2⟩
      · exact ⟨rfl, rfl⟩

/-- C20, as amended: `set_enabled(e)` sets `is_enabled()` to
`is_connected() && e` and leaves `is_connected()`; `connect()` and
`update_gazes()` keep "`is_enabled()` implies `is_connected()`"; and
`disconnect()` sets `is_connected_` to false and leaves `is_enabled_` as it
was, after which `is_combined_gaze_available()` is false. In the pipe client
and in the socket client. -/
theorem enabled_and_connected {G : Type} (hdr : SocketsHeader) (d : Defines)
    (penv : PipeEnv) (fuel : Nat) (p : PSVR2EyeTracker G) (pw : PipeWorld)
    (senv : SocketEnv) (s : PSVR2EyeTrackerSockets G) (sw : SocketWorld) (e : Bool)
    (hp : p.is_enabled = true → p.is_connected = true)
    (hs : s.is_enabled = true → s.is_connected = true) :
    ((p.toTrackerBase.set_enabled e).is_enabled = (p.is_connected && e)
        ∧ (p.toTrackerBase.set_enabled e).is_connected = p.is_connected)
      ∧ (∀ r p1 pw1, PSVR2EyeTracker.connect d penv fuel p pw = some (r, p1, pw1) →
          p1.is_enabled = true → p1.is_connected = true)
      ∧ ((PSVR2EyeTrackerSockets.connect hdr d senv s sw).2.1.is_enabled = true →
          (PSVR2EyeTrackerSockets.connect hdr d senv s sw).2.1.is_connected = true)
      ∧ ((PSVR2EyeTracker.update_gazes d penv p pw).2.1.is_enabled = true →
          (PSVR2EyeTracker.update_gazes d penv p pw).2.1.is_connected = true)
      ∧ ((PSVR2EyeTrackerSockets.update_gazes hdr d senv s sw).2.1.is_enabled = true →
          (PSVR2EyeTrackerSockets.update_gazes hdr d senv s sw).2.1.is_connected = true)
      ∧ ((PSVR2EyeTracker.disconnect p pw).1.is_enabled = p.is_enabled
          ∧ (PSVR2EyeTracker.disconnect p pw).1.is_connected = false
          ∧ (PSVR2EyeTracker.disconnect p pw).1.toTrackerBase.is_combined_gaze_available
              = false)
      ∧ ((PSVR2EyeTrackerSockets.disconnect s sw).1.is_enabled = s.is_enabled
          ∧ (PSVR2EyeTrackerSockets.disconnect s sw).1.is_connected = false
          ∧ (PSVR2EyeTrackerSockets.disconnect s sw).1.toTrackerBase.is_combined_gaze_available
              = false) := by
  have hp1 : p.is_enabled_ = true → p.is_connected_ = true := hp
  have hs1 : s.is_enabled_ = true → s.is_connected_ = true := hs
  obtain ⟨⟨u1, u2⟩, ⟨u3, u4⟩⟩ := update_gazes_flags hdr d penv p pw senv s sw
  refine ⟨⟨rfl, rfl⟩, ?_, ?_, ?_, ?_, ?_, ?_⟩
  · intro r p1 pw1 h hen
    rcases pipe_connect_cases d penv fuel p p1 pw pw1 r h with ⟨-, hc, hb⟩ | ⟨-, hc⟩
    · have he : p1.is_enabled_ = p.is_enabled_ := by
        show p1.toTrackerBase.is_enabled_ = p.toTrackerBase.is_enabled_
        rw [hb]
      have := hp1 (he ▸ hen)
      rw [hc] at this
      exact absurd this (by simp)
    · exact hc
  · intro hen
    rcases sockets_connect_cases hdr d senv s sw with ⟨-, hc, hb⟩ | ⟨-, hc⟩
    · have he : (PSVR2EyeTrackerSockets.connect hdr d senv s sw).2.1.is_enabled_
          = s.is_enabled_ := by
        show (PSVR2EyeTrackerSockets.connect hdr d senv s sw).2.1.toTrackerBase.is_enabled_
          = s.toTrackerBase.is_enabled_
        rw [hb]
      have := hs1 (he ▸ hen)
      rw [hc] at this
      exact absurd this (by simp)
    · exact hc
  · intro hen
    show (PSVR2EyeTracker.update_gazes d penv p pw).2.1.is_connected_ = true
    rw [u1]
    exact hp1 (u2 ▸ hen)
  · intro hen
    show (PSVR2EyeTrackerSockets.update_gazes hdr d senv s sw).2.1.is_connected_ = true
    rw [u3]
    exact hs1 (u4 ▸ hen)
  · cases hc : p.is_connected_ <;>
      by_cases hh : p.named_pipe_handle_ = INVALID_HANDLE_VALUE <;>
      simp [PSVR2EyeTracker.disconnect, hc, hh, TrackerBase.is_enabled,
        TrackerBase.is_connected, TrackerBase.is_combined_gaze_available]
  · cases hc : s.is_connected_ <;>
      by_cases hh : s.socket_ = INVALID_SOCKET <;>
      simp [PSVR2EyeTrackerSockets.disconnect, hc, hh, TrackerBase.is_enabled,
        TrackerBase.is_connected, TrackerBase.is_combined_gaze_available]

/-- C20 at a concrete input: the fresh clients, which are neither enabled
nor connected. -/
theorem enabled_and_connected_witness :
    (freshPipe.is_enabled = true → freshPipe.is_connected = true)
      ∧ (freshSockets.is_enabled = true → freshSockets.is_connected = true)
      ∧ (freshPipe.toTrackerBase.set_enabled true).is_enabled
          = (freshPipe.is_connected && true)
      ∧ (PSVR2EyeTrackerSockets.connect sampleHeader sampleDefines okSocketEnv
            freshSockets []).2.1.is_enabled = true
      ∧ (PSVR2EyeTrackerSockets.connect sampleHeader sampleDefines okSocketEnv
            freshSockets []).2.1.is_connected = true :=
  ⟨by decide, by decide,
    (enabled_and_connected sampleHeader sampleDefines okEnv 1 freshPipe [] okSocketEnv
      freshSockets [] true (by decide) (by decide)).1.1,
    by decide,
    (enabled_and_connected sampleHeader sampleDefines okEnv 1 freshPipe [] okSocketEnv
      freshSockets [] true (by decide) (by decide)).2.2.1 (by decide)⟩

/-- C20 as stated fails: after `connect()` and `disconnect()` the tracker is
enabled and not connected. From the fresh pipe client, a successful
`connect()` (which enables the tracker in a build with
`ENABLE_PSVR2_EYE_TRACKING_AUTOMATICALLY`) followed by `disconnect()` ends
with `is_enabled()` true and `is_connected()` false; so does, in a build
without that flag, `connect()`, `set_enabled(true)`, `disconnect()`; and so
does the socket client. -/
theorem enabled_after_disconnect :
    (PSVR2EyeTracker.connect sampleDefines okEnv 1 freshPipe []).map
        (fun r => ((PSVR2EyeTracker.disconnect r.2.1 r.2.2).1.is_enabled,
          (PSVR2EyeTracker.disconnect r.2.1 r.2.2).1.is_connected)) = some (true, false)
      ∧ (PSVR2EyeTracker.connect
          { sampleDefines with ENABLE_PSVR2_EYE_TRACKING_AUTOMATICALLY := false }
          okEnv 1 freshPipe []).map
        (fun r =>
          ((PSVR2EyeTracker.disconnect
              { r.2.1 with toTrackerBase := r.2.1.toTrackerBase.set_enabled true }
              r.2.2).1.is_enabled,
            (PSVR2EyeTracker.disconnect
              { r.2.1 with toTrackerBase := r.2.1.toTrackerBase.set_enabled true }
              r.2.2).1.is_connected)) = some (true, false)
      ∧ (PSVR2EyeTrackerSockets.disconnect
          (PSVR2EyeTrackerSockets.connect sampleHeader sampleDefines okSocketEnv
            freshSockets []).2.1
          (PSVR2EyeTrackerSockets.connect sampleHeader sampleDefines okSocketEnv
            freshSockets []).2.2).1.is_enabled = true
      ∧ (PSVR2EyeTrackerSockets.disconnect
          (PSVR2EyeTrackerSockets.connect sampleHeader sampleDefines okSocketEnv
            freshSockets []).2.1
          (PSVR2EyeTrackerSockets.connect sampleHeader sampleDefines okSocketEnv
            freshSockets []).2.2).1.is_connected = false := by
  decide

/-! ## The host capability probe -/

/-- The 64-bit difference is the integer difference when that lies in the
range of `intptr_t`. -/
theorem intptr_sub_in_range (a b : Int)
    (h : -0x8000000000000000 ≤ a - b ∧ a - b < 0x8000000000000000) :
    HmdShimDriver.intptr_sub a b = a - b := by
  unfold HmdShimDriver.intptr_sub
  omega

/-- The probe of `Activate()` keeps an interface exactly when it is not null
and the signed 64-bit difference of the two entries is at most 0x10000; when
the two entries are less than `2^63` apart, that is the integer difference. -/
theorem probe_interface_spec (i : Nat) (p : Option HostInterface) :
    ((HmdShimDriver.probe_interface i p).isSome = true ↔
        ∃ iface, p = some iface
          ∧ HmdShimDriver.intptr_sub (iface.vtable i) (iface.vtable 0) ≤ 0x10000)
      ∧ (∀ iface, p = some iface →
          -0x8000000000000000 ≤ iface.vtable i - iface.vtable 0 →
          iface.vtable i - iface.vtable 0 < 0x8000000000000000 →
          ((HmdShimDriver.probe_interface i p).isSome = true ↔
            iface.vtable i - iface.vtable 0 ≤ 0x10000)) := by
  have key : (HmdShimDriver.probe_interface i p).isSome = true ↔
      ∃ iface, p = some iface
        ∧ HmdShimDriver.intptr_sub (iface.vtable i) (iface.vtable 0) ≤ 0x10000 := by
    cases p with
    | none => simp [HmdShimDriver.probe_interface]
    | some iface =>
      by_cases h : HmdShimDriver.intptr_sub (iface.vtable i) (iface.vtable 0) > 0x10000
      · simp only [HmdShimDriver.probe_interface, h, if_true, Option.isSome_none,
          Bool.false_eq_true, Option.some.injEq, exists_eq_left', false_iff]
        omega
      · simp only [HmdShimDriver.probe_interface, h, if_false, Option.isSome_some,
          Option.some.injEq, exists_eq_left', true_iff]
        omega
  refine ⟨key, ?_⟩
  intro iface hp h1 h2
  rw [key, hp]
  simp only [Option.some.injEq, exists_eq_left']
  rw [intptr_sub_in_range _ _ ⟨h1, h2⟩]

/-- What `Activate()` uses: the primary interface exactly when it passes the
probe on entries 9 and 0; when it does not, the secondary interface is probed
on entries 1 and 0; and the component is created on at most one interface,
the primary one if it is kept. -/
theorem Activate_spec {G : Type} (host : HostEnv) (st : HmdShimDriver G) (hw : HostWorld) :
    (HmdShimDriver.Activate host st hw).1.IVRDriverInput_XXX
        = HmdShimDriver.probe_interface 9
            (host.GetGenericInterface InterfaceKind.IVRDriverInput_004)
      ∧ ((HmdShimDriver.Activate host st hw).1.IVRDriverInput_XXX.isNone = true →
          (HmdShimDriver.Activate host st hw).1.IVRDriverInputInternal_XXX
            = HmdShimDriver.probe_interface 1
                (host.GetGenericInterface InterfaceKind.IVRDriverInputInternal_XXX))
      ∧ (HmdShimDriver.Activate host st hw).2.countP HostCall.is_Create
          ≤ hw.countP HostCall.is_Create + 1
      ∧ (HmdShimDriver.Activate host st hw).1.m_active = true := by
  simp only [HmdShimDriver.Activate]
  cases h9 : HmdShimDriver.probe_interface 9
      (host.GetGenericInterface InterfaceKind.IVRDriverInput_004) <;>
    cases h1 : HmdShimDriver.probe_interface 1
      (host.GetGenericInterface InterfaceKind.IVRDriverInputInternal_XXX) <;>
    simp [h9, h1, HostCall.is_Create]

/-- C17: an interface whose entry 9 lies far below entry 0 passes the probe.
With a host whose primary interface has entry 9 of its table 0x200000 below
entry 0 (more than 0x10000 apart), `Activate()` keeps the primary interface,
creates the component on it, and a tick publishes on it. An interface whose
entry 9 lies 0x200000 above entry 0 is dropped and the secondary interface is
used. -/
theorem Activate_keeps_interface_far_below :
    ((0x7FF000000000 : Int) - 0x7FF000200000).natAbs > 0x10000
      ∧ (HmdShimDriver.Activate farBelowHost freshDriver []).1.IVRDriverInput_XXX.isSome = true
      ∧ (HmdShimDriver.Activate farBelowHost freshDriver []).2
          = [HostCall.GetGenericInterface InterfaceKind.IVRDriverInput_004,
              HostCall.CreateEyeTrackingComponent InterfaceKind.IVRDriverInput_004]
      ∧ HmdShimDriver.publish (HmdShimDriver.Activate farBelowHost freshDriver []).1
          failedTickData []
          = [HostCall.UpdateEyeTrackingComponent InterfaceKind.IVRDriverInput_004 11
              failedTickData]
      ∧ (HmdShimDriver.Activate farAboveHost freshDriver []).1.IVRDriverInput_XXX.isSome = false
      ∧ (HmdShimDriver.Activate farAboveHost freshDriver []).2
          = [HostCall.GetGenericInterface InterfaceKind.IVRDriverInput_004,
              HostCall.GetGenericInterface InterfaceKind.IVRDriverInputInternal_XXX,
              HostCall.CreateEyeTrackingComponent InterfaceKind.IVRDriverInputInternal_XXX] := by
  decide

/-! ## The acquisition loop -/

/-- One tick in which `connect()` fails: `update_gazes()` is not called (the
pipe history is the one `connect()` left), the tracker changes in its stored
handle only, and the data published is `failedTickData`. -/
theorem tick_connect_fails {G P : Type} (d : Defines) (api : GazeCalibrationApi G P)
    (env : PipeEnv) (fuel : Nat) (st : HmdShimDriver G) (data : VREyeTrackingData_t)
    (pw pw1 : PipeWorld) (hw : HostWorld) (t1 : PSVR2EyeTracker G)
    (hc : st.psvr2_eye_tracker_.is_connected_ = false)
    (h : PSVR2EyeTracker.connect d env fuel st.psvr2_eye_tracker_ pw = some (false, t1, pw1)) :
    HmdShimDriver.UpdateThread_tick d api env fuel st data pw hw
        = some ({ st with psvr2_eye_tracker_ := t1 }, failedTickData, pw1,
            HmdShimDriver.publish st failedTickData hw)
      ∧ t1.toTrackerBase = st.psvr2_eye_tracker_.toTrackerBase := by
  have hb : t1.toTrackerBase = st.psvr2_eye_tracker_.toTrackerBase := by
    rcases pipe_connect_cases d env fuel _ t1 pw pw1 false h with ⟨-, -, hb⟩ | ⟨hf, -⟩
    · exact hb
    · simp at hf
  have ht1 : t1.is_connected_ = false := by
    show t1.toTrackerBase.is_connected_ = false
    rw [hb]; exact hc
  refine ⟨?_, hb⟩
  simp [HmdShimDriver.UpdateThread_tick, TrackerBase.is_connected, hc, h, ht1,
    failedTickData, HmdShimDriver.publish]

/-- C16, as amended: `n` ticks of the acquisition loop in which `connect()`
fails every time. The ticks return; the cached gaze snapshot (the whole
tracker state but the stored handle) is as before; the pipe history is the
one the `n` calls of `connect()` left, so `update_gazes()` was never called;
and every tick publishes once, with both flags 0 and the vector (0, 0, -1, 1),
on the primary interface if the probe kept it, else on the secondary one if
the probe kept that; there is no publish call only when neither was kept. -/
theorem ticks_connect_fails {G P : Type} (d : Defines) (api : GazeCalibrationApi G P)
    (env : PipeEnv) (fuel : Nat) :
    ∀ (n : Nat) (st : HmdShimDriver G) (data : VREyeTrackingData_t) (pw pw1 : PipeWorld)
      (hw : HostWorld) (t1 : PSVR2EyeTracker G),
      st.psvr2_eye_tracker_.is_connected = false →
      PSVR2EyeTracker.connect_repeat d env fuel n st.psvr2_eye_tracker_ pw
        = some (List.replicate n false, t1, pw1) →
      ∃ data1 hw1,
        HmdShimDriver.UpdateThread_ticks d api env fuel n st data pw hw
            = some ({ st with psvr2_eye_tracker_ := t1 }, data1, pw1, hw1)
          ∧ t1.toTrackerBase = st.psvr2_eye_tracker_.toTrackerBase
          ∧ (st.IVRDriverInput_XXX.isSome = true →
              hw1 = hw ++ List.replicate n
                (HostCall.UpdateEyeTrackingComponent InterfaceKind.IVRDriverInput_004
                  st.m_eyeTrackingComponent failedTickData))
          ∧ (st.IVRDriverInput_XXX.isSome = false →
              st.IVRDriverInputInternal_XXX.isSome = true →
              hw1 = hw ++ List.replicate n
                (HostCall.UpdateEyeTrackingComponent InterfaceKind.IVRDriverInputInternal_XXX
                  st.m_eyeTrackingComponent failedTickData))
          ∧ (st.IVRDriverInput_XXX.isSome = false →
              st.IVRDriverInputInternal_XXX.isSome = false → hw1 = hw) := by
  intro n
  induction n with
  | zero =>
    intro st data pw pw1 hw t1 _ h
    simp only [PSVR2EyeTracker.connect_repeat, List.replicate_zero, Option.some.injEq,
      Prod.mk.injEq, true_and] at h
    obtain ⟨rfl, rfl⟩ := h
    exact ⟨data, hw, rfl, rfl, by simp, by simp, by simp⟩
  | succ n ih =>
    intro st data pw pw1 hw t1 hc h
    have hc1 : st.psvr2_eye_tracker_.is_connected_ = false := hc
    rw [PSVR2EyeTracker.connect_repeat] at h
    cases hcon : PSVR2EyeTracker.connect d env fuel st.psvr2_eye_tracker_ pw with
    | none => simp [hcon] at h
    | some res =>
      obtain ⟨r, ta, pwa⟩ := res
      simp only [hcon] at h
      cases hrep : PSVR2EyeTracker.connect_repeat d env fuel n ta pwa with
      | none => simp [hrep] at h
      | some q =>
        obtain ⟨rs, tb, pwb⟩ := q
        simp only [hrep, Option.map_some', Option.some.injEq, Prod.mk.injEq,
          List.replicate_succ, List.cons.injEq] at h
        obtain ⟨⟨hr, hrs⟩, htb, hpwb⟩ := h
        subst hr hrs htb hpwb
        obtain ⟨htick, hbase⟩ := tick_connect_fails d api env fuel st data pw pwa hw ta hc1 hcon
        have hta : ta.is_connected = false := by
          show ta.toTrackerBase.is_connected_ = false
          rw [hbase]; exact hc1
        obtain ⟨data1, hw1, e1, e2, e3, e4, e5⟩ :=
          ih { st with psvr2_eye_tracker_ := ta } failedTickData pwa pwb
            (HmdShimDriver.publish st failedTickData hw) tb hta hrep
        refine ⟨data1, hw1, ?_, e2.trans hbase, ?_, ?_, ?_⟩
        · rw [HmdShimDriver.UpdateThread_ticks, htick]
          exact e1
        · intro h1
          rw [e3 h1]
          simp [HmdShimDriver.publish, h1, List.replicate_succ]
        · intro h1 h2
          rw [e4 h1 h2]
          simp [HmdShimDriver.publish, h1, h2, List.replicate_succ]
        · intro h1 h2
          rw [e5 h1 h2]
          simp [HmdShimDriver.publish, h1, h2]

/-- With a server that cannot be reached, `n` calls of `connect()` on the
fresh client all return false, each after one `CreateFile`. -/
theorem broken_connect_repeat :
    ∀ (n : Nat) (w : PipeWorld),
      PSVR2EyeTracker.connect_repeat sampleDefines brokenEnv 1 n freshPipeCal w
        = some (List.replicate n false, freshPipeCal,
            w ++ List.replicate n (PipeCall.CreateFile INVALID_HANDLE_VALUE)) := by
  intro n
  induction n with
  | zero => intro w; simp [PSVR2EyeTracker.connect_repeat]
  | succ n ih =>
    intro w
    have hc : PSVR2EyeTracker.connect sampleDefines brokenEnv 1 freshPipeCal w
        = some (false, freshPipeCal, w ++ [PipeCall.CreateFile INVALID_HANDLE_VALUE]) := by
      simp [PSVR2EyeTracker.connect, PSVR2EyeTracker.connect_pipe_job, freshPipeCal,
        brokenEnv, ERROR_PIPE_BUSY]
    rw [PSVR2EyeTracker.connect_repeat, hc]
    simp only [ih, Option.map_some', List.replicate_succ, List.append_assoc,
      List.singleton_append]

/-- C16 at the input of the scenario: 100 ticks of an activated driver whose
server cannot be reached; `connect()` fails every time after one
`CreateFile`, and the 100 ticks publish 100 times on the primary interface. -/
theorem ticks_connect_fails_witness :
    probedDriver.psvr2_eye_tracker_.is_connected = false
      ∧ PSVR2EyeTracker.connect_repeat sampleDefines brokenEnv 1 100
          probedDriver.psvr2_eye_tracker_ []
          = some (List.replicate 100 false, freshPipeCal,
              [] ++ List.replicate 100 (PipeCall.CreateFile INVALID_HANDLE_VALUE))
      ∧ ∃ data1 hw1,
          HmdShimDriver.UpdateThread_ticks sampleDefines rasterApi brokenEnv 1 100
              probedDriver {} [] []
            = some ({ probedDriver with psvr2_eye_tracker_ := freshPipeCal }, data1,
                [] ++ List.replicate 100 (PipeCall.CreateFile INVALID_HANDLE_VALUE), hw1)
          ∧ freshPipeCal.toTrackerBase = probedDriver.psvr2_eye_tracker_.toTrackerBase
          ∧ hw1 = [] ++ List.replicate 100
              (HostCall.UpdateEyeTrackingComponent InterfaceKind.IVRDriverInput_004
                probedDriver.m_eyeTrackingComponent failedTickData) :=
  ⟨rfl, broken_connect_repeat 100 [],
    (ticks_connect_fails sampleDefines rasterApi brokenEnv 1 100 probedDriver {} []
      ([] ++ List.replicate 100 (PipeCall.CreateFile INVALID_HANDLE_VALUE)) [] freshPipeCal
      rfl (broken_connect_repeat 100 [])).elim
      fun data1 h => h.elim fun hw1 h => ⟨data1, hw1, h.1, h.2.1, h.2.2.1 rfl⟩⟩

/-- C16 as stated fails: publish calls occur while `connect()` fails. On an
activated driver whose primary interface passed the probe and whose server
cannot be reached, one tick calls `UpdateEyeTrackingComponent` once (with
both flags 0), and three ticks call it three times. -/
theorem failed_ticks_publish :
    PSVR2EyeTracker.connect sampleDefines brokenEnv 1 probedDriver.psvr2_eye_tracker_ []
        = some (false, freshPipeCal, [PipeCall.CreateFile INVALID_HANDLE_VALUE])
      ∧ (HmdShimDriver.UpdateThread_ticks sampleDefines rasterApi brokenEnv 1 1
          probedDriver {} [] []).map (fun r => r.2.2.2)
          = some [HostCall.UpdateEyeTrackingComponent InterfaceKind.IVRDriverInput_004 11
              failedTickData]
      ∧ (HmdShimDriver.UpdateThread_ticks sampleDefines rasterApi brokenEnv 1 3
          probedDriver {} [] []).map (fun r => r.2.2.2.countP HostCall.is_Update)
          = some 3 := by
  decide

/-! ## The index of the calibrating eye -/

/-- Function `get_per_eye_gaze(eye, ..)` for an eye returns and leaves
`calibrating_eye_index_` as it was, when that index is `INVALID_INDEX` or
inside `calibrations_`. -/
theorem get_per_eye_gaze_index {G P : Type} (d : Defines) (api : GazeCalibrationApi G P)
    (s : TrackerBase G) (eye : Int) (out : XrVector3f) (b : Bool)
    (heye : eye = LEFT ∨ eye = RIGHT)
    (hidx : s.calibrating_eye_index_ = INVALID_INDEX
      ∨ (0 ≤ s.calibrating_eye_index_ ∧ s.calibrating_eye_index_ < NUM_CALIBRATIONS)) :
    ∃ r, TrackerBase.get_per_eye_gaze d api s eye out b = some r
      ∧ r.2.2.calibrating_eye_index_ = s.calibrating_eye_index_ := by
  obtain ⟨sa, ha, ga, -, ia⟩ := TrackerBase.auto_calibrate_step_frame d api s eye heye hidx
  obtain ⟨gaze, hgaze⟩ := TrackerBase.arr2_get_eye sa.per_eye_gazes_ eye heye
  obtain ⟨c, hc⟩ := TrackerBase.arr3_get_eye sa.calibrations_ eye heye
  unfold TrackerBase.get_per_eye_gaze
  simp only [ha, hgaze]
  cases hv : gaze.is_valid_
  · exact ⟨(false, out, sa), by simp, ia⟩
  · cases hen : d.ENABLE_GAZE_CALIBRATION
    · exact ⟨(true, gaze.direction_, sa), by simp, ia⟩
    · have hsampled : ∃ s2, (if api.is_calibrating c = true then
            TrackerBase.sampling_step d api sa eye c gaze.direction_ b else some sa) = some s2
          ∧ s2.calibrating_eye_index_ = sa.calibrating_eye_index_ := by
        by_cases hcal : api.is_calibrating c = true
        · rw [if_pos hcal]
          obtain ⟨s2, e1, -, -, e4⟩ := TrackerBase.sampling_step_frame d api sa eye c
            gaze.direction_ b heye (by rw [ia]; exact hidx)
          exact ⟨s2, e1, e4⟩
        · rw [if_neg hcal]
          exact ⟨sa, rfl, rfl⟩
      obtain ⟨s2, e1, e4⟩ := hsampled
      obtain ⟨c2, hc2⟩ := TrackerBase.arr3_get_eye s2.calibrations_ eye heye
      simp only [if_true, hc, e1, hc2]
      by_cases hap : s2.apply_calibration_ = true ∧ api.is_calibrated c2 = true
      · exact ⟨(true, api.apply_calibration c2 gaze.direction_, s2), by simp [hap],
          e4.trans ia⟩
      · exact ⟨(true, gaze.direction_, s2), by simp [hap], e4.trans ia⟩

/-- Function `start_calibrating()` returns, with `calibrating_eye_index_` an
eye or `INVALID_INDEX` afterwards, when it is so before. -/
theorem start_calibrating_index {G P : Type} (d : Defines) (api : GazeCalibrationApi G P)
    (s : TrackerBase G)
    (hidx : s.calibrating_eye_index_ = INVALID_INDEX ∨ s.calibrating_eye_index_ = LEFT
      ∨ s.calibrating_eye_index_ = RIGHT) :
    ∃ s1, TrackerBase.start_calibrating d api s = some s1
      ∧ (s1.calibrating_eye_index_ = INVALID_INDEX ∨ s1.calibrating_eye_index_ = LEFT
        ∨ s1.calibrating_eye_index_ = RIGHT) := by
  obtain ⟨hl, hr⟩ := is_eye_calibrated_eyes api s
  have hL := start_eye_calibration_LEFT api s hidx
  have hR := start_eye_calibration_RIGHT api s hidx
  have hcomb : (TrackerBase.start_calibrating_combined d api s).calibrating_eye_index_
      = s.calibrating_eye_index_ := by
    unfold TrackerBase.start_calibrating_combined
    split <;> rfl
  cases hper : d.ENABLE_PSVR2_EYE_TRACKING_PER_EYE_GAZES
  · have hful : ∃ f, TrackerBase.is_fully_calibrated d api s = some f := by
      simp only [TrackerBase.is_fully_calibrated, hper, Bool.false_eq_true, if_false]
      split <;> exact ⟨_, rfl⟩
    have hcal : ∃ c, TrackerBase.is_calibrating d api s = some c := by
      simp only [TrackerBase.is_calibrating, hper, Bool.false_eq_true, if_false]
      split <;> exact ⟨_, rfl⟩
    obtain ⟨f, hf⟩ := hful
    obtain ⟨c, hc⟩ := hcal
    simp only [TrackerBase.start_calibrating, hf, hc, hper, Bool.false_eq_true, if_false]
    split
    · exact ⟨s, rfl, hidx⟩
    · exact ⟨_, rfl, by rw [hcomb]; exact hidx⟩
  · have hcal := is_calibrating_eyes d api s hper
    have hful : ∃ f, TrackerBase.is_fully_calibrated d api s = some f := by
      simp only [TrackerBase.is_fully_calibrated, hl, hr, hper, if_true]
      split <;> exact ⟨_, rfl⟩
    obtain ⟨f, hf⟩ := hful
    simp only [TrackerBase.start_calibrating, hf, hcal, hper, hl, hr, if_true]
    split
    · exact ⟨s, rfl, hidx⟩
    · split
      · rw [hL]
        refine ⟨_, rfl, ?_⟩
        dsimp only
        split
        · exact Or.inl rfl
        · exact Or.inr (Or.inl rfl)
      · split
        · rw [hR]
          refine ⟨_, rfl, ?_⟩
          dsimp only
          split
          · exact Or.inl rfl
          · exact Or.inr (Or.inr rfl)
        · exact ⟨_, rfl, by rw [hcomb]; exact hidx⟩

/-- Every call of `CalibrationCall` with an eye argument LEFT or RIGHT
returns, with `calibrating_eye_index_` an eye or `INVALID_INDEX` afterwards,
when it is so before. -/
theorem call_index {G P : Type} (d : Defines) (api : GazeCalibrationApi G P)
    (s : TrackerBase G) (c : CalibrationCall) (hc : c.eye_ok = true)
    (hidx : s.calibrating_eye_index_ = INVALID_INDEX ∨ s.calibrating_eye_index_ = LEFT
      ∨ s.calibrating_eye_index_ = RIGHT) :
    ∃ s1, TrackerBase.call d api s c = some s1
      ∧ (s1.calibrating_eye_index_ = INVALID_INDEX ∨ s1.calibrating_eye_index_ = LEFT
        ∨ s1.calibrating_eye_index_ = RIGHT) := by
  cases c with
  | start_calibrating => exact start_calibrating_index d api s hidx
  | start_eye_calibration eye =>
    have heye : eye = LEFT ∨ eye = RIGHT := by simpa [CalibrationCall.eye_ok] using hc
    rcases heye with rfl | rfl
    · refine ⟨_, start_eye_calibration_LEFT api s hidx, ?_⟩
      dsimp only
      split
      · exact Or.inl rfl
      · exact Or.inr (Or.inl rfl)
    · refine ⟨_, start_eye_calibration_RIGHT api s hidx, ?_⟩
      dsimp only
      split
      · exact Or.inl rfl
      · exact Or.inr (Or.inr rfl)
  | stop_eye_calibration =>
    rcases hidx with h | h | h <;>
      simp [TrackerBase.call, TrackerBase.stop_eye_calibration, h, Arr3.get?, Arr3.set?, LEFT,
        RIGHT, INVALID_INDEX]
  | reset_calibrations =>
    refine ⟨_, rfl, ?_⟩
    cases hper : d.ENABLE_PSVR2_EYE_TRACKING_PER_EYE_GAZES <;>
      cases hcomb : d.ENABLE_PSVR2_EYE_TRACKING_COMBINED_GAZE <;>
      simp [TrackerBase.reset_calibrations, hper, hcomb, hidx]
  | increment_raster =>
    obtain ⟨s1, h1, -, -, h4⟩ :=
      TrackerBase.increment_raster_frame d api s (eye_index_in_range _ hidx)
    exact ⟨s1, h1, by rw [h4]; exact hidx⟩
  | get_per_eye_gaze eye out b =>
    have heye : eye = LEFT ∨ eye = RIGHT := by simpa [CalibrationCall.eye_ok] using hc
    obtain ⟨r, h1, h2⟩ := get_per_eye_gaze_index d api s eye out b heye
      (eye_index_in_range _ hidx)
    exact ⟨r.2.2, by simp [TrackerBase.call, h1], by rw [h2]; exact hidx⟩

/-- C21: in every state reached from a state with `calibrating_eye_index_`
`INVALID_INDEX` (as the constructor leaves it) by calls of
`start_calibrating()`, `start_eye_calibration(eye)`, `stop_eye_calibration()`,
`reset_calibrations()`, `increment_raster()` and `get_per_eye_gaze(eye, ..)`
with eye LEFT or RIGHT: every call returns (no call indexes outside an
array), `calibrating_eye_index_` is `INVALID_INDEX`, LEFT or RIGHT, an index
other than `INVALID_INDEX` has an element in `calibrations_`, and
`is_eye_calibrating(LEFT)` and `is_eye_calibrating(RIGHT)` are not both
true. -/
theorem calibrating_eye_index_valid {G P : Type} (d : Defines) (api : GazeCalibrationApi G P)
    (cs : List CalibrationCall) (s0 : TrackerBase G)
    (hfresh : s0.calibrating_eye_index_ = INVALID_INDEX)
    (heye : ∀ c ∈ cs, c.eye_ok = true) :
    ∃ s, TrackerBase.calls d api cs s0 = some s
      ∧ (s.calibrating_eye_index_ = INVALID_INDEX ∨ s.calibrating_eye_index_ = LEFT
        ∨ s.calibrating_eye_index_ = RIGHT)
      ∧ (s.calibrating_eye_index_ ≠ INVALID_INDEX →
          0 ≤ s.calibrating_eye_index_ ∧ s.calibrating_eye_index_ < NUM_CALIBRATIONS
            ∧ ∃ c, s.calibrations_.get? s.calibrating_eye_index_ = some c)
      ∧ ¬ (TrackerBase.is_eye_calibrating api s LEFT = some true
          ∧ TrackerBase.is_eye_calibrating api s RIGHT = some true) := by
  have key : ∀ (cs : List CalibrationCall) (s0 : TrackerBase G),
      (s0.calibrating_eye_index_ = INVALID_INDEX ∨ s0.calibrating_eye_index_ = LEFT
        ∨ s0.calibrating_eye_index_ = RIGHT) →
      (∀ c ∈ cs, c.eye_ok = true) →
      ∃ s, TrackerBase.calls d api cs s0 = some s
        ∧ (s.calibrating_eye_index_ = INVALID_INDEX ∨ s.calibrating_eye_index_ = LEFT
          ∨ s.calibrating_eye_index_ = RIGHT) := by
    intro cs
    induction cs with
    | nil => intro s0 h _; exact ⟨s0, rfl, h⟩
    | cons c cs ih =>
      intro s0 h hall
      obtain ⟨s1, h1, h2⟩ := call_index d api s0 c (hall c (List.mem_cons_self c cs)) h
      obtain ⟨s, e1, e2⟩ := ih s1 h2 (fun x hx => hall x (List.mem_cons_of_mem c hx))
      exact ⟨s, by rw [TrackerBase.calls, h1]; exact e1, e2⟩
  obtain ⟨s, h1, h2⟩ := key cs s0 (Or.inl hfresh) heye
  refine ⟨s, h1, h2, ?_, ?_⟩
  · intro hne
    rcases h2 with h | h | h
    · exact absurd h hne
    · rw [h]; exact ⟨by decide, by decide, by simp [Arr3.get?, LEFT]⟩
    · rw [h]; exact ⟨by decide, by decide, by simp [Arr3.get?, RIGHT]⟩
  · rintro ⟨hl, hr⟩
    obtain ⟨el, er⟩ := is_eye_calibrated_eyes api s
    simp only [TrackerBase.is_eye_calibrating, el, er] at hl hr
    cases h0 : api.is_calibrated s.calibrations_.a0 <;>
      cases h1 : api.is_calibrated s.calibrations_.a1 <;>
      simp [h0, h1] at hl hr
    rw [hl] at hr
    exact absurd hr (by decide)

/-- C21 at a concrete input: the calls of `sampleCalls` on the fresh tracker
`idleBase` end with the right eye selected. -/
theorem calibrating_eye_index_valid_witness :
    (∃ s, TrackerBase.calls sampleDefines rasterApi sampleCalls idleBase = some s
      ∧ (s.calibrating_eye_index_ = INVALID_INDEX ∨ s.calibrating_eye_index_ = LEFT
        ∨ s.calibrating_eye_index_ = RIGHT)
      ∧ (s.calibrating_eye_index_ ≠ INVALID_INDEX →
          0 ≤ s.calibrating_eye_index_ ∧ s.calibrating_eye_index_ < NUM_CALIBRATIONS
            ∧ ∃ c, s.calibrations_.get? s.calibrating_eye_index_ = some c)
      ∧ ¬ (TrackerBase.is_eye_calibrating rasterApi s LEFT = some true
          ∧ TrackerBase.is_eye_calibrating rasterApi s RIGHT = some true))
      ∧ (TrackerBase.calls sampleDefines rasterApi sampleCalls idleBase).map
          (fun s => s.calibrating_eye_index_) = some RIGHT :=
  ⟨calibrating_eye_index_valid sampleDefines rasterApi sampleCalls idleBase rfl (by decide),
    by decide⟩

end BVR
